import Mathlib

set_option linter.unreachableTactic false
set_option linter.unusedTactic false

/-!
# DrawOnTexture: a shallow embedding of `DrawOnTexture.cpp`

The C++ program is a single-threaded Direct3D 12 renderer.  Every member function of
`App` is a sequence of calls into the graphics runtime, each of which either returns
nothing, returns a value, or returns an `HRESULT` that the program may or may not look at.

The embedding is a state-and-exception monad `M` over a `World`:

* the `m_*` fields of `World` are the data members of `App` that the code reads or writes;
* the remaining fields are the environment the code talks to: the ordered log of runtime
  calls (`trace`), the outcomes the runtime will give to the coming `HRESULT`-returning
  calls (`faults`), how far the GPU gets before each poll of the fence (`sched`), the
  command queue, the fence's completed value, and the usage state of each resource;
* an exception leaves the `World` as it was when thrown (C++ exceptions do not roll back).

Each C++ function is one definition of the same name, statement for statement.
-/

namespace DrawOnTexture

/-! ## Constants and plain data -/

/-- Number of values of `UINT64` / `uint64_t`. -/
def UINT64_MOD : Nat := 2 ^ 64

/-- Number of values of `UINT` / `uint32_t`. -/
def UINT32_MOD : Nat := 2 ^ 32

/-- Conversion of an `int` to `UINT`: the value modulo `2 ^ 32`. -/
def to_UINT (n : Int) : Int := n % (UINT32_MOD : Int)

/-- Conversion of an `int` to `UINT64`: the value modulo `2 ^ 64`. -/
def to_UINT64 (n : Int) : Int := n % (UINT64_MOD : Int)

/-- Conversion of a `UINT` to `INT` (two's complement): the values from `2 ^ 31` on become
negative. -/
def to_INT (n : Nat) : Int :=
  if n % UINT32_MOD < 2 ^ 31 then ((n % UINT32_MOD : Nat) : Int)
  else ((n % UINT32_MOD : Nat) : Int) - (UINT32_MOD : Int)

/-- The constant `App::SwapChainBufferCount` (line 187). -/
def SwapChainBufferCount : Int := 2

/-- The constant `use_texture_from_file` (line 51). -/
def use_texture_from_file : Bool := false

/-- The `D3D12_RESOURCE_STATE_*` values the program names, as the usage states of the
data model (spec section 3: `CopyDest`, `RenderTarget`, `Present`, `ShaderResource`,
`Common`) plus the depth-write state used by `on_resize`. -/
inductive ResourceState
  | COMMON
  | PRESENT
  | RENDER_TARGET
  | COPY_DEST
  | DEPTH_WRITE
  | SHADER_RESOURCE
  deriving DecidableEq, Repr

/-- The GPU resources whose usage state the program declares or changes. -/
inductive Resource
  /-- `m_swap_chain_buffer[i]` -/
  | back_buffer (i : Nat)
  /-- `m_depth_stencil_buffer` -/
  | depth_stencil_buffer
  /-- the texture created by `draw_on_texture` (later `m_texture2`) -/
  | texture
  deriving DecidableEq, Repr

/-- The three descriptor heap kinds the program uses. -/
inductive HeapType
  | RTV
  | DSV
  | CBV_SRV_UAV
  deriving DecidableEq, Repr

/-- `DXGI_SAMPLE_DESC`. -/
structure SampleDesc where
  Count : Nat
  Quality : Nat
  deriving DecidableEq, Repr

/-- `D3D12_VIEWPORT`. Its members are `float`s; the program only stores `int`s converted to
`float` and the depth bounds `0.0f` and `1.0f`, all of which are whole numbers, so each
field holds the value of its `float` as an integer. -/
structure Viewport where
  TopLeftX : Int
  TopLeftY : Int
  Width : Int
  Height : Int
  MinDepth : Int
  MaxDepth : Int
  deriving DecidableEq, Repr

/-- `D3D12_RECT`. -/
structure Rect where
  left : Int
  top : Int
  right : Int
  bottom : Int
  deriving DecidableEq, Repr

/-- `struct SubmeshGeometry` (lines 94-98). -/
structure SubmeshGeometry where
  index_count : Nat
  start_index : Nat
  base_vertex : Int
  deriving DecidableEq, Repr

/-- `D3D12_VERTEX_BUFFER_VIEW` without the GPU address. -/
structure VertexBufferView where
  StrideInBytes : Nat
  SizeInBytes : Nat
  deriving DecidableEq, Repr

/-- `D3D12_INDEX_BUFFER_VIEW` without the GPU address; `Format` is the index width in bits. -/
structure IndexBufferView where
  Format : Nat
  SizeInBytes : Nat
  deriving DecidableEq, Repr

/-- `struct Vertex` (lines 82-92). The coordinates are kept as the decimal literals of the
source counted in tenths (`-0.7f` is `-7`); texture coordinates are whole numbers. -/
structure Vertex where
  pos : Int × Int
  texc : Int × Int
  deriving DecidableEq, Repr

/-- `sizeof(Vertex)`: two `XMFLOAT2`, four 32-bit floats. -/
def sizeof_Vertex : Nat := 16

/-- `sizeof(std::uint16_t)`. -/
def sizeof_uint16 : Nat := 2

/-- `sizeof(float)`. -/
def sizeof_float : Nat := 4

/-- One `D3D12_INPUT_ELEMENT_DESC` of `m_input_layout`: semantic name, number of 32-bit
float components of the format (`DXGI_FORMAT_R32G32_FLOAT` has 2), input slot, aligned
byte offset, and whether the slot class is `D3D12_INPUT_CLASSIFICATION_PER_VERTEX_DATA`. -/
structure InputElementDesc where
  SemanticName : String
  components : Nat
  InputSlot : Nat
  AlignedByteOffset : Nat
  PerVertexData : Bool
  deriving DecidableEq, Repr

/-- `struct MeshGeometry` (lines 100-147): the CPU copies and the data about the buffers. -/
structure MeshGeometry where
  name : String
  vbuf_cpu : List Vertex
  ibuf_cpu : List Nat
  vertex_stride : Nat
  vbuf_size : Nat
  index_format : Nat
  ibuf_size : Nat
  index_count : Nat
  parts : List (String × SubmeshGeometry)
  deriving DecidableEq, Repr

/-- `MeshGeometry::vertex_buffer_view` (lines 126-132). -/
def MeshGeometry.vertex_buffer_view (g : MeshGeometry) : VertexBufferView :=
  { StrideInBytes := g.vertex_stride, SizeInBytes := g.vbuf_size }

/-- `MeshGeometry::index_buffer_view` (lines 134-140). -/
def MeshGeometry.index_buffer_view (g : MeshGeometry) : IndexBufferView :=
  { Format := g.index_format, SizeInBytes := g.ibuf_size }

/-- What `CreateWrappedResource` records about the texture it wraps for the second
device: the declared in-state and out-state, and whether the second device currently
holds the resource. -/
structure WrappedResource where
  in_state : ResourceState
  out_state : ResourceState
  acquired : Bool
  deriving DecidableEq, Repr

/-! ## The log of runtime calls -/

/-- One call into the graphics runtime or the operating system, with the arguments the
program computes. -/
inductive Api
  | D2D1CreateFactory
  | D3D12GetDebugInterface
  | EnableDebugLayer
  | CreateDXGIFactory1
  | D3D12CreateDevice
  | EnumWarpAdapter
  | D3D12CreateDevice_warp
  | CreateFence (initial : Nat)
  | GetDescriptorHandleIncrementSize (heap : HeapType)
  | CheckFeatureSupport
  | CreateCommandQueue
  | CreateCommandAllocator
  | CreateCommandList
  | CreateSwapChain (queue : Nat) (width height : Int) (sample : SampleDesc) (buffers : Int)
  | CreateDescriptorHeap (heap : HeapType) (num : Nat)
  | CommandAllocator_Reset
  | CommandList_Reset
  | CommandList_Close
  | ExecuteCommandLists (queue : Nat)
  | Signal (queue : Nat) (value : Nat)
  | GetCompletedValue (value : Nat)
  | CreateEventEx
  | SetEventOnCompletion (value : Nat)
  | WaitForSingleObject
  | CloseHandle
  | ResizeBuffers (count : Int) (width height : Int)
  | GetBuffer (i : Nat)
  | CreateRenderTargetView (i : Nat) (offset : Nat)
  | CreateCommittedResource (r : Resource) (width height : Int) (sample : SampleDesc)
      (initial : ResourceState)
  | CreateDepthStencilView
  | ResourceBarrier (r : Resource) (before after : ResourceState)
  | PIXSetMarker
  | RSSetViewports (v : Viewport)
  | RSSetScissorRects (r : Rect)
  | ClearRenderTargetView (rtv_offset : Int)
  | ClearDepthStencilView
  | OMSetRenderTargets (rtv_offset : Int)
  | SetDescriptorHeaps
  | SetPipelineState
  | SetGraphicsRootSignature
  | IASetVertexBuffers (v : VertexBufferView)
  | IASetIndexBuffer (v : IndexBufferView)
  | IASetPrimitiveTopology
  | SetGraphicsRootDescriptorTable (root : Nat) (offset : Int)
  | DrawIndexedInstanced (index_count instance_count start_index : Nat) (base_vertex : Int)
      (start_instance : Nat)
  | Present
  | ResourceUploadBatch_Begin
  | CreateWICTextureFromFile
  | ResourceUploadBatch_End (queue : Nat)
  | future_wait
  | CreateShaderResourceView (offset : Nat)
  | UploadBuffer_ctor
  | CreateConstantBufferView (offset : Nat)
  | SerializeVersionedRootSignature
  | CreateRootSignature
  | RootSignature_SetName
  | compile_shader
  | D3DCreateBlob (bytes : Nat)
  | create_default_buffer (bytes : Nat)
  | CreateGraphicsPipelineState (sample : SampleDesc)
  | D3D11On12CreateDevice (queues : List Nat) (num_queues : Nat)
  | QueryInterface_11on12
  | DWriteCreateFactory
  | CreateWrappedResource (in_state out_state : ResourceState)
  | QueryInterface_IDXGISurface
  | GetDpiForWindow
  | CreateDxgiSurfaceRenderTarget
  | CreateSolidColorBrush
  | AcquireWrappedResources
  | BeginDraw
  | DrawRectangle
  | EndDraw
  | ReleaseWrappedResources
  | PIXLoadLatestWinPixGpuCapturerLibrary
  | RegisterClass
  | MessageBox (text : String)
  | AdjustWindowRect
  | CreateWindow
  | RegisterTouchWindow
  | ShowWindow
  | UpdateWindow
  | GetMessage
  | DefWindowProc (msg : Nat)
  | UploadBuffer_copy_data
  deriving Repr

/-- What the command queue holds, oldest first. -/
inductive QueueItem
  /-- a command list handed over by `ExecuteCommandLists` (or an upload batch) -/
  | exec
  /-- `Signal(fence, value)` -/
  | signal (value : Nat)
  /-- a `Present` of the swap chain -/
  | present
  deriving DecidableEq, Repr

/-- The ways a member function fails to return. -/
inductive Err
  /-- `winrt::check_hresult` threw on a failed `HRESULT` (or a `d3d_util` helper threw) -/
  | hresult_error
  /-- an `assert` failed -/
  | assertion_failed
  /-- an array was indexed outside its bounds, or a null pointer was dereferenced -/
  | invalid_access
  /-- `WaitForSingleObject(…, INFINITE)` on an event that is never set -/
  | wait_forever
  deriving DecidableEq, Repr

/-! ## The state -/

/-- The data members of `App` the code reads or writes, followed by the environment. -/
structure World where
  /- data members of `App` (lines 150-224) and the global `draw_count` (line 55) -/
  m_client_width : Int
  m_client_height : Int
  m_needs_draw : Bool
  /-- `com_ptr` members: `true` when non-null -/
  m_device : Bool
  m_swap_chain : Bool
  m_direct_cmd_list_alloc : Bool
  /-- `m_main_window_h`: `true` when the window handle is non-null -/
  m_main_window_h : Bool
  /-- `m_command_queue`: the handle of the queue object, 0 when null -/
  m_command_queue : Nat
  m_current_fence : Nat
  m_rtv_desc_size : Nat
  m_dsv_desc_size : Nat
  m_cbv_srv_uav_desc_size : Nat
  m_4x_msaa_state : Bool
  m_4x_msaa_quality : Nat
  m_curr_back_buffer : Int
  m_screen_viewport : Viewport
  m_scissor_rect : Rect
  m_geo : Option MeshGeometry
  m_input_layout : List InputElementDesc
  /-- `m_texture1`, `m_texture2`: `true` when non-null -/
  m_texture1 : Bool
  m_texture2 : Bool
  /-- `m_d11_texture`: the wrapped resource, once created -/
  m_d11_texture : Option WrappedResource
  draw_count : Nat
  /- the environment -/
  /-- every runtime call made so far, oldest first -/
  trace : List Api
  /-- outcomes of the coming `HRESULT`-returning calls: `true` is a failure code; when
  the list is used up every call succeeds -/
  faults : List Bool
  /-- how many queue items the GPU retires before each coming `GetCompletedValue` -/
  sched : List Nat
  /-- the values the device reports: descriptor increments and 4x MSAA quality levels -/
  dev_rtv_increment : Nat
  dev_dsv_increment : Nat
  dev_cbv_srv_uav_increment : Nat
  dev_num_quality_levels : Nat
  /-- the handle of the command queue object the device creates -/
  dev_command_queue : Nat
  /-- the messages the window system will deliver, oldest first -/
  messages : List Nat
  /-- the `wParam` that a `WM_QUIT` message carries, a `WPARAM` -/
  quit_wParam : Nat
  /-- the command queue, oldest item first -/
  queue : List QueueItem
  /-- the fence's completed value (`ID3D12Fence::GetCompletedValue`) -/
  completed : Nat
  /-- the fence value the current event waits for, once `SetEventOnCompletion` armed it -/
  event_target : Option Nat
  /-- usage state of each swap-chain buffer, of the depth buffer and of the texture -/
  back_buffer_state : List ResourceState
  depth_stencil_state : Option ResourceState
  texture_state : Option ResourceState
  /-- the Direct2D render target is between `BeginDraw` and `EndDraw` -/
  drawing : Bool
  deriving Repr

/-- The `App` object right after its constructor (member initialisers of lines 150-224),
in an environment given by the remaining arguments: nothing is queued, the fence stands at
0, and a `WM_QUIT` message carries the exit code 0. -/
def World.init (faults : List Bool) (sched : List Nat) (rtv dsv cbv levels : Nat)
    (queue_handle : Nat) (messages : List Nat) : World :=
  { m_client_width := 800, m_client_height := 600, m_needs_draw := false,
    m_device := false, m_swap_chain := false, m_direct_cmd_list_alloc := false,
    m_main_window_h := false, m_command_queue := 0,
    m_current_fence := 0, m_rtv_desc_size := 0, m_dsv_desc_size := 0,
    m_cbv_srv_uav_desc_size := 0, m_4x_msaa_state := false, m_4x_msaa_quality := 0,
    m_curr_back_buffer := 0,
    m_screen_viewport := ⟨0, 0, 0, 0, 0, 0⟩, m_scissor_rect := ⟨0, 0, 0, 0⟩,
    m_geo := none, m_input_layout := [], m_texture1 := false, m_texture2 := false, m_d11_texture := none, draw_count := 0,
    trace := [], faults := faults, sched := sched,
    dev_rtv_increment := rtv, dev_dsv_increment := dsv, dev_cbv_srv_uav_increment := cbv,
    dev_num_quality_levels := levels,
    dev_command_queue := queue_handle, messages := messages, quit_wParam := 0,
    queue := [], completed := 0, event_target := none,
    back_buffer_state := [], depth_stencil_state := none, texture_state := none,
    drawing := false }

/-- The tracked usage state of a resource, if the resource exists. -/
def World.state_of (w : World) : Resource → Option ResourceState
  | .back_buffer i => w.back_buffer_state.get? i
  | .depth_stencil_buffer => w.depth_stencil_state
  | .texture => w.texture_state

/-- Record a new usage state for a resource. -/
def World.set_state (w : World) (r : Resource) (s : ResourceState) : World :=
  match r with
  | .back_buffer i => { w with back_buffer_state := w.back_buffer_state.set i s }
  | .depth_stencil_buffer => { w with depth_stencil_state := some s }
  | .texture => { w with texture_state := some s }

/-! ## The monad -/

/-- A computation: from a world to a result or an exception, and the world left behind. -/
def M (α : Type) : Type := World → Except Err α × World

/-- Run a computation from a world. -/
def M.run {α : Type} (m : M α) (w : World) : Except Err α × World := m w

/-- Return a value. -/
def M.pure {α : Type} (a : α) : M α := fun w => (Except.ok a, w)

/-- Sequence two computations; an exception in the first skips the second. -/
def M.bind {α β : Type} (m : M α) (f : α → M β) : M β := fun w =>
  match m w with
  | (Except.ok a, w1) => f a w1
  | (Except.error e, w1) => (Except.error e, w1)

instance : Monad M where
  pure := M.pure
  bind := M.bind

/-- Throw. -/
def M.throw {α : Type} (e : Err) : M α := fun w => (Except.error e, w)

/-- Read the whole state. -/
def getW : M World := fun w => (Except.ok w, w)

/-- Change the state. -/
def modifyW (f : World → World) : M Unit := fun w => (Except.ok (), f w)

/-! ## Primitive statements -/

/-- The outcome of the coming `HRESULT`-returning call: `true` is a failure code. -/
def next_failed : List Bool → Bool
  | [] => false
  | b :: _ => b

/-- How many queue items the GPU retires before the coming poll of the fence. -/
def next_retired : List Nat → Nat
  | [] => 0
  | n :: _ => n

/-- `winrt::check_hresult`: throws when handed a failure code (`true`). -/
def check_hresult (failed : Bool) : M Unit :=
  if failed then M.throw Err.hresult_error else pure ()

/-- The `assert` of `<cassert>`. -/
def cassert (c : Bool) : M Unit :=
  if c then pure () else M.throw Err.assertion_failed

/-- Dereference of a pointer member that may be null. -/
def deref {α : Type} (p : Option α) : M α :=
  match p with
  | some a => pure a
  | none => M.throw Err.invalid_access

/-- A runtime call whose result, if any, carries no failure code: it is logged and has
its effect on the environment. -/
def api_void_with (a : Api) (effect : World → World) : M Unit := fun w =>
  (Except.ok (), { effect w with trace := w.trace ++ [a] })

/-- A runtime call without effect on the modelled environment. -/
def api_void (a : Api) : M Unit := api_void_with a id

/-- A runtime call that returns an `HRESULT`: it is logged, takes the next outcome from
`faults`, has its effect only when that outcome is a success, and returns `true` when
the outcome is a failure code. -/
def api_hr_with (a : Api) (effect : World → World) : M Bool := fun w =>
  if next_failed w.faults then
    (Except.ok true, { w with trace := w.trace ++ [a], faults := w.faults.tail })
  else
    (Except.ok false, { effect w with trace := w.trace ++ [a], faults := w.faults.tail })

/-- An `HRESULT`-returning call without effect on the modelled environment. -/
def api_hr (a : Api) : M Bool := api_hr_with a id

/-- Modelled from the spec: the helpers of module `d3d_util` (`compile_shader`,
`create_default_buffer`, the `UploadBuffer` constructor) are not in the source file; by
section 6 of the spec a failure in them "must propagate as fatal", so a call either
returns or throws. -/
def d3d_util_call (a : Api) : M Unit := do
  check_hresult (← api_hr a)

/-! ## The GPU, the queue and the fence -/

/-- The GPU retires up to `n` items of the queue, oldest first; retiring a signal sets the
fence's completed value. The result is the remaining queue and the completed value. -/
def gpu_retire : Nat → List QueueItem → Nat → List QueueItem × Nat
  | 0, q, c => (q, c)
  | _ + 1, [], c => ([], c)
  | n + 1, QueueItem.signal v :: q, _ => gpu_retire n q v
  | n + 1, _ :: q, c => gpu_retire n q c

/-- The GPU runs until the fence's completed value has reached `target`; `none` when the
queue runs empty before that, so that the event is never set. -/
def gpu_run_until (target : Nat) : List QueueItem → Nat → Option (List QueueItem × Nat)
  | [], c => if target ≤ c then some ([], c) else none
  | item :: q, c =>
    if target ≤ c then some (item :: q, c)
    else match item with
      | QueueItem.signal v => gpu_run_until target q v
      | _ => gpu_run_until target q c

/-- `ID3D12CommandQueue::Signal(fence, value)`: on success the signal is appended to the
queue. -/
def Signal (queue value : Nat) : M Bool :=
  api_hr_with (Api.Signal queue value)
    fun w => { w with queue := w.queue ++ [QueueItem.signal value] }

/-- `ID3D12Fence::GetCompletedValue`: the GPU has meanwhile retired as many items as the
schedule says; the fence's completed value is returned. -/
def GetCompletedValue : M Nat := fun w =>
  let r := gpu_retire (next_retired w.sched) w.queue w.completed
  (Except.ok r.2,
    { w with trace := w.trace ++ [Api.GetCompletedValue r.2], sched := w.sched.tail,
             queue := r.1, completed := r.2 })

/-- `CreateEventEx`: a fresh event, not yet tied to a fence value. -/
def CreateEventEx : M Unit :=
  api_void_with Api.CreateEventEx fun w => { w with event_target := none }

/-- `ID3D12Fence::SetEventOnCompletion(value, event)`: on success the event will be set
once the fence's completed value has reached `value`. -/
def SetEventOnCompletion (value : Nat) : M Bool :=
  api_hr_with (Api.SetEventOnCompletion value) fun w => { w with event_target := some value }

/-- `WaitForSingleObject(event, INFINITE)`: returns once the event is set, that is once the
GPU has brought the fence's completed value up to the event's target; never returns when
that cannot happen. -/
def WaitForSingleObject : M Unit := fun w =>
  match w.event_target with
  | none => (Except.error Err.wait_forever, { w with trace := w.trace ++ [Api.WaitForSingleObject] })
  | some target =>
    match gpu_run_until target w.queue w.completed with
    | none =>
      (Except.error Err.wait_forever, { w with trace := w.trace ++ [Api.WaitForSingleObject] })
    | some r =>
      (Except.ok (), { w with trace := w.trace ++ [Api.WaitForSingleObject],
                              queue := r.1, completed := r.2 })

/-- `CloseHandle(event)`. -/
def CloseHandle : M Unit :=
  api_void_with Api.CloseHandle fun w => { w with event_target := none }

/-- `ID3D12CommandQueue::ExecuteCommandLists`: the command list joins the queue. -/
def ExecuteCommandLists (queue : Nat) : M Unit :=
  api_void_with (Api.ExecuteCommandLists queue)
    fun w => { w with queue := w.queue ++ [QueueItem.exec] }

/-- `IDXGISwapChain::Present(0, 0)`: on success the present joins the queue. -/
def Present : M Bool :=
  api_hr_with Api.Present fun w => { w with queue := w.queue ++ [QueueItem.present] }

/-- `ID3D12GraphicsCommandList::ResourceBarrier` with one transition barrier: the
transition is recorded and the resource's usage state becomes the barrier's after-state. -/
def ResourceBarrier (r : Resource) (before after : ResourceState) : M Unit :=
  api_void_with (Api.ResourceBarrier r before after) fun w => w.set_state r after

/-- `ID3D12Device::CreateCommittedResource`: on success the resource exists in the given
initial state. -/
def CreateCommittedResource (r : Resource) (width height : Int) (sample : SampleDesc)
    (initial : ResourceState) : M Bool :=
  api_hr_with (Api.CreateCommittedResource r width height sample initial)
    fun w => w.set_state r initial

/-- `ResourceUploadBatch::End(queue)`: the upload joins the queue. -/
def ResourceUploadBatch_End (queue : Nat) : M Unit :=
  api_void_with (Api.ResourceUploadBatch_End queue)
    fun w => { w with queue := w.queue ++ [QueueItem.exec] }

/-- `std::future::wait` on the upload batch: returns when the GPU has retired the upload,
the newest item of the queue. -/
def future_wait : M Unit :=
  api_void_with Api.future_wait fun w =>
    { w with queue := (gpu_retire w.queue.length w.queue w.completed).1,
             completed := (gpu_retire w.queue.length w.queue w.completed).2 }

/-- `ID3D11On12Device::CreateWrappedResource(texture, flags, InState, OutState, …)`: on
success `m_d11_texture` is the wrapped resource, not acquired. -/
def CreateWrappedResource (in_state out_state : ResourceState) : M Bool :=
  api_hr_with (Api.CreateWrappedResource in_state out_state) fun w =>
    { w with m_d11_texture := some { in_state := in_state, out_state := out_state, acquired := false } }

/-- `ID3D11On12Device::AcquireWrappedResources(&tex, 1)`; it returns `void`. The second
device now holds the resource, which it takes to be in the declared in-state. -/
def AcquireWrappedResources : M Unit :=
  api_void_with Api.AcquireWrappedResources fun w =>
    { w with m_d11_texture := w.m_d11_texture.map fun r => { r with acquired := true } }

/-- `ID3D11On12Device::ReleaseWrappedResources(&tex, 1)`; it returns `void`. The resource
goes back to the first device in the declared out-state. -/
def ReleaseWrappedResources : M Unit :=
  api_void_with Api.ReleaseWrappedResources fun w =>
    match w.m_d11_texture with
    | none => w
    | some r => { w with m_d11_texture := some { r with acquired := false },
                         texture_state := some r.out_state }

/-- `ID2D1RenderTarget::BeginDraw`. -/
def BeginDraw : M Unit :=
  api_void_with Api.BeginDraw fun w => { w with drawing := true }

/-- `ID2D1RenderTarget::EndDraw`; it returns an `HRESULT`. Drawing ends whatever the
result. -/
def EndDraw : M Bool := fun w =>
  (Except.ok (next_failed w.faults),
    { w with trace := w.trace ++ [Api.EndDraw], faults := w.faults.tail, drawing := false })

/-! ## `App` member functions -/

/-- `App::current_back_buffer` (lines 561-563): `m_swap_chain_buffer[m_curr_back_buffer]`,
an array of `SwapChainBufferCount` elements. -/
def current_back_buffer : M Resource := fun w =>
  if 0 ≤ w.m_curr_back_buffer ∧ w.m_curr_back_buffer < SwapChainBufferCount then
    (Except.ok (Resource.back_buffer w.m_curr_back_buffer.toNat), w)
  else (Except.error Err.invalid_access, w)

/-- `App::current_back_buffer_view` (lines 565-567): the offset from the start of the RTV
heap, `m_curr_back_buffer * m_rtv_desc_size`. -/
def current_back_buffer_view (w : World) : Int :=
  w.m_curr_back_buffer * (w.m_rtv_desc_size : Int)

/-- `App::flush_command_queue` (lines 716-737). -/
def flush_command_queue : M Unit := do
  modifyW fun w => { w with m_current_fence := (w.m_current_fence + 1) % UINT64_MOD }
  check_hresult (← Signal (← getW).m_command_queue (← getW).m_current_fence)
  if (← GetCompletedValue) < (← getW).m_current_fence then
    CreateEventEx
    check_hresult (← SetEventOnCompletion (← getW).m_current_fence)
    WaitForSingleObject
    CloseHandle

/-- `App::draw` (lines 644-713). -/
def draw : M Unit := do
  modifyW fun w => { w with draw_count := (w.draw_count + 1) % UINT64_MOD }
  check_hresult (← api_hr Api.CommandAllocator_Reset)
  check_hresult (← api_hr Api.CommandList_Reset)
  api_void Api.PIXSetMarker
  api_void (Api.RSSetViewports (← getW).m_screen_viewport)
  api_void (Api.RSSetScissorRects (← getW).m_scissor_rect)
  ResourceBarrier (← current_back_buffer) ResourceState.PRESENT ResourceState.RENDER_TARGET
  api_void (Api.ClearRenderTargetView (current_back_buffer_view (← getW)))
  api_void Api.ClearDepthStencilView
  let bbv := current_back_buffer_view (← getW)
  api_void (Api.OMSetRenderTargets bbv)
  api_void Api.SetDescriptorHeaps
  api_void Api.SetPipelineState
  api_void Api.SetGraphicsRootSignature
  let vb_view := (← deref (← getW).m_geo).vertex_buffer_view
  let ib_view := (← deref (← getW).m_geo).index_buffer_view
  api_void (Api.IASetVertexBuffers vb_view)
  api_void (Api.IASetIndexBuffer ib_view)
  api_void Api.IASetPrimitiveTopology
  let heap_handle : Int := 0
  api_void (Api.SetGraphicsRootDescriptorTable 0 heap_handle)
  -- `heap_handle.Offset(1 * m_cbv_srv_uav_desc_size)`: the one-argument `Offset` takes an
  -- `INT`, to which the `UINT` product is converted before it is added to the handle
  let heap_handle := heap_handle + to_INT (1 * (← getW).m_cbv_srv_uav_desc_size % UINT32_MOD)
  api_void (Api.SetGraphicsRootDescriptorTable 1 heap_handle)
  api_void (Api.DrawIndexedInstanced (← deref (← getW).m_geo).index_count 1 0 0 0)
  ResourceBarrier (← current_back_buffer) ResourceState.RENDER_TARGET ResourceState.PRESENT
  check_hresult (← api_hr Api.CommandList_Close)
  ExecuteCommandLists (← getW).m_command_queue
  check_hresult (← Present)
  modifyW fun w =>
    { w with m_curr_back_buffer := Int.tmod (w.m_curr_back_buffer + 1) SwapChainBufferCount }
  flush_command_queue
  modifyW fun w => { w with m_needs_draw := false }

/-- The spacing of the `float`s around a number of absolute value `a`, for the range of an
`int` (`a ≤ 2 ^ 31`): a `float` has a 24-bit significand. -/
def float_ulp (a : Nat) : Nat :=
  if a < 2 ^ 24 then 1 else if a < 2 ^ 25 then 2 else if a < 2 ^ 26 then 4
  else if a < 2 ^ 27 then 8 else if a < 2 ^ 28 then 16 else if a < 2 ^ 29 then 32
  else if a < 2 ^ 30 then 64 else if a < 2 ^ 31 then 128 else 256

/-- `static_cast<float>` of an `int`: the nearest `float`, a tie going to the even
significand. The result is a whole number and is kept as an integer. -/
def static_cast_float (n : Int) : Int :=
  let a := n.natAbs
  let ulp := float_ulp a
  let q := a / ulp
  let r := a % ulp
  let significand :=
    if 2 * r < ulp then q else if ulp < 2 * r then q + 1 else if q % 2 = 0 then q else q + 1
  n.sign * ((significand * ulp : Nat) : Int)

/-- The sample count of lines 445, 548 and 966: `m_4x_msaa_state ? 4 : 1`. -/
def sample_count (w : World) : Nat := if w.m_4x_msaa_state then 4 else 1

/-- The sample quality of lines 446, 549 and 967: `m_4x_msaa_state ? (m_4x_msaa_quality - 1) : 0`,
a subtraction of `uint32_t`. -/
def sample_quality (w : World) : Nat :=
  if w.m_4x_msaa_state then (w.m_4x_msaa_quality + UINT32_MOD - 1) % UINT32_MOD else 0

/-- `App::create_d2d_factory` (lines 307-313). -/
def create_d2d_factory : M Unit := do
  let hr ← api_hr Api.D2D1CreateFactory
  check_hresult hr

/-- `App::create_debug_layer` (lines 315-319). -/
def create_debug_layer : M Unit := do
  check_hresult (← api_hr Api.D3D12GetDebugInterface)
  api_void Api.EnableDebugLayer

/-- `App::create_dxgi_factory` (lines 320-322). -/
def create_dxgi_factory : M Unit := do
  check_hresult (← api_hr Api.CreateDXGIFactory1)

/-- `App::create_d3d12_device` (lines 323-333). -/
def create_d3d12_device : M Unit := do
  let hr ← api_hr_with Api.D3D12CreateDevice fun w => { w with m_device := true }
  if hr then
    check_hresult (← api_hr Api.EnumWarpAdapter)
    check_hresult (← api_hr_with Api.D3D12CreateDevice_warp fun w => { w with m_device := true })

/-- `App::create_fence` (lines 335-337): the fence starts at 0. -/
def create_fence : M Unit := do
  check_hresult (← api_hr_with (Api.CreateFence 0) fun w => { w with completed := 0 })

/-- `App::get_descriptor_sizes` (lines 339-343). -/
def get_descriptor_sizes : M Unit := do
  api_void (Api.GetDescriptorHandleIncrementSize HeapType.RTV)
  modifyW fun w => { w with m_rtv_desc_size := w.dev_rtv_increment % UINT32_MOD }
  api_void (Api.GetDescriptorHandleIncrementSize HeapType.DSV)
  modifyW fun w => { w with m_dsv_desc_size := w.dev_dsv_increment % UINT32_MOD }
  api_void (Api.GetDescriptorHandleIncrementSize HeapType.CBV_SRV_UAV)
  modifyW fun w => { w with m_cbv_srv_uav_desc_size := w.dev_cbv_srv_uav_increment % UINT32_MOD }

/-- `App::check_msaa_support` (lines 345-359). -/
def check_msaa_support : M Unit := do
  let hr ← api_hr Api.CheckFeatureSupport
  check_hresult hr
  modifyW fun w => { w with m_4x_msaa_quality := w.dev_num_quality_levels % UINT32_MOD }
  cassert (decide ((← getW).m_4x_msaa_quality > 0))

/-- `App::create_command_objects` (lines 516-533); the result of the last `Close` is not
looked at. -/
def create_command_objects : M Unit := do
  check_hresult (← api_hr_with Api.CreateCommandQueue
    fun w => { w with m_command_queue := w.dev_command_queue })
  check_hresult (← api_hr_with Api.CreateCommandAllocator
    fun w => { w with m_direct_cmd_list_alloc := true })
  check_hresult (← api_hr Api.CreateCommandList)
  let _ ← api_hr Api.CommandList_Close

/-- `App::create_swap_chain` (lines 535-559); `sd.BufferDesc.Width` and `Height` are
`UINT`s, assigned from the `int` members. -/
def create_swap_chain : M Unit := do
  modifyW fun w => { w with m_swap_chain := false }
  let w ← getW
  let sd := Api.CreateSwapChain w.m_command_queue
    (to_UINT w.m_client_width) (to_UINT w.m_client_height)
    { Count := sample_count w, Quality := sample_quality w } SwapChainBufferCount
  check_hresult (← api_hr_with sd fun w => { w with m_swap_chain := true })

/-- `App::create_rtv_and_dsv_descriptor_heaps` (lines 499-514). -/
def create_rtv_and_dsv_descriptor_heaps : M Unit := do
  check_hresult (← api_hr (Api.CreateDescriptorHeap HeapType.RTV SwapChainBufferCount.toNat))
  check_hresult (← api_hr (Api.CreateDescriptorHeap HeapType.DSV 1))

/-- `App::draw_on_texture` (lines 1028-1127). The results of `CreateSolidColorBrush` and
`EndDraw` are not looked at. -/
def draw_on_texture : M Unit := do
  -- 1. the second device, over the command queue of the first
  let hr ← api_hr (Api.D3D11On12CreateDevice [(← getW).m_command_queue] 1)
  check_hresult hr
  let hr ← api_hr Api.QueryInterface_11on12
  check_hresult hr
  -- 2. factories
  let hr ← api_hr Api.DWriteCreateFactory
  check_hresult hr
  -- 3. the texture
  let hr ← CreateCommittedResource Resource.texture 256 256 { Count := 1, Quality := 0 }
    ResourceState.COPY_DEST
  check_hresult hr
  let hr ← CreateWrappedResource ResourceState.RENDER_TARGET ResourceState.PRESENT
  check_hresult hr
  let hr ← api_hr Api.QueryInterface_IDXGISurface
  check_hresult hr
  api_void Api.GetDpiForWindow
  let hr ← api_hr Api.CreateDxgiSurfaceRenderTarget
  check_hresult hr
  -- 4. a brush
  let _ ← api_hr Api.CreateSolidColorBrush
  -- 5. draw something
  AcquireWrappedResources
  BeginDraw
  api_void Api.DrawRectangle
  let _ ← EndDraw
  ReleaseWrappedResources

/-- `App::load_textures` (lines 740-782). -/
def load_textures : M Unit := do
  api_void Api.ResourceUploadBatch_Begin
  let hr ← api_hr Api.CreateWICTextureFromFile
  check_hresult hr
  ResourceUploadBatch_End (← getW).m_command_queue
  future_wait
  modifyW fun w => { w with m_texture1 := true }
  draw_on_texture
  modifyW fun w => { w with m_texture2 := true }

/-- `App::build_descriptor_heaps` (lines 786-822). -/
def build_descriptor_heaps : M Unit := do
  check_hresult (← api_hr (Api.CreateDescriptorHeap HeapType.CBV_SRV_UAV 2))
  let desc_h : Nat := 0
  -- the lambda `create_srv`, called on `m_texture1` or `m_texture2`
  let w ← getW
  let tex := if use_texture_from_file then w.m_texture1 else w.m_texture2
  if !tex then M.throw Err.invalid_access
  let desc_h := desc_h + 1 * (← getW).m_cbv_srv_uav_desc_size
  api_void (Api.CreateShaderResourceView desc_h)

/-- `App::build_constant_buffers` (lines 824-839). -/
def build_constant_buffers : M Unit := do
  d3d_util_call Api.UploadBuffer_ctor
  api_void (Api.CreateConstantBufferView 0)

/-- `App::build_root_signature` (lines 841-893); the result of `SetName` is not looked
at. -/
def build_root_signature : M Unit := do
  let hr ← api_hr Api.SerializeVersionedRootSignature
  check_hresult hr
  check_hresult (← api_hr Api.CreateRootSignature)
  let _ ← api_hr Api.RootSignature_SetName

/-- `App::build_shaders_and_input_layout` (lines 895-907). -/
def build_shaders_and_input_layout : M Unit := do
  d3d_util_call Api.compile_shader
  d3d_util_call Api.compile_shader
  let layout : List InputElementDesc :=
    [ { SemanticName := "POSITION", components := 2, InputSlot := 0, AlignedByteOffset := 0,
        PerVertexData := true },
      { SemanticName := "TEXCOORD", components := 2, InputSlot := 0, AlignedByteOffset := 8,
        PerVertexData := true } ]
  modifyW fun w => { w with m_input_layout := layout }

/-- `App::make_geo` (lines 909-953). -/
def make_geo : M Unit := do
  let vertices : List Vertex :=
    [ { pos := (-7, 7), texc := (0, 0) },
      { pos := (7, 8), texc := (1, 0) },
      { pos := (6, -7), texc := (1, 1) },
      { pos := (-7, -7), texc := (0, 1) } ]
  let indices : List Nat := [0, 1, 3, 1, 2, 3]
  let vbByteSize : Nat := (vertices.length * sizeof_Vertex) % UINT32_MOD
  let ibByteSize : Nat := (indices.length % UINT32_MOD * sizeof_uint16) % UINT32_MOD
  check_hresult (← api_hr (Api.D3DCreateBlob vbByteSize))
  check_hresult (← api_hr (Api.D3DCreateBlob ibByteSize))
  d3d_util_call (Api.create_default_buffer vbByteSize)
  d3d_util_call (Api.create_default_buffer ibByteSize)
  let submesh : SubmeshGeometry :=
    { index_count := indices.length % UINT32_MOD, start_index := 0, base_vertex := 0 }
  let geo : MeshGeometry :=
    { name := "square_geo", vbuf_cpu := vertices, ibuf_cpu := indices,
      vertex_stride := sizeof_Vertex, vbuf_size := vbByteSize, index_format := 16,
      ibuf_size := ibByteSize, index_count := indices.length % UINT32_MOD,
      parts := [("square", submesh)] }
  modifyW fun w => { w with m_geo := some geo }

/-- `App::build_pso` (lines 955-977). -/
def build_pso : M Unit := do
  let w ← getW
  check_hresult (← api_hr (Api.CreateGraphicsPipelineState
    { Count := sample_count w, Quality := sample_quality w }))

/-- `App::init_directx` (lines 362-394). -/
def init_directx : M Unit := do
  create_d2d_factory
  create_debug_layer
  create_dxgi_factory
  create_d3d12_device
  create_fence
  get_descriptor_sizes
  check_msaa_support
  create_command_objects
  create_swap_chain
  create_rtv_and_dsv_descriptor_heaps
  check_hresult (← api_hr Api.CommandList_Reset)
  load_textures
  build_descriptor_heaps
  build_constant_buffers
  build_root_signature
  build_shaders_and_input_layout
  make_geo
  build_pso
  check_hresult (← api_hr Api.CommandList_Close)
  ExecuteCommandLists (← getW).m_command_queue
  flush_command_queue

/-- The loop of lines 423-427 of `on_resize`, from buffer `i` with `n` buffers to go. -/
def on_resize_views : Nat → Nat → Nat → M Unit
  | 0, _, _ => pure ()
  | n + 1, i, rtvHeapHandle => do
    check_hresult (← api_hr_with (Api.GetBuffer i)
      fun w => { w with back_buffer_state := w.back_buffer_state ++ [ResourceState.PRESENT] })
    api_void (Api.CreateRenderTargetView i rtvHeapHandle)
    on_resize_views n (i + 1) (rtvHeapHandle + 1 * (← getW).m_rtv_desc_size)

/-- `App::on_resize` (lines 397-495). The `int` members `m_client_width` and
`m_client_height` are converted where they are used: to `UINT` as arguments of
`ResizeBuffers` (line 416), to `UINT64` and `UINT` as `Width` and `Height` of the depth
buffer (lines 433-434), to `float` for the viewport (lines 485-486); the scissor rectangle
holds them as `LONG`, of the width of `int`. -/
def on_resize : M Unit := do
  cassert (← getW).m_device
  cassert (← getW).m_swap_chain
  cassert (← getW).m_direct_cmd_list_alloc
  flush_command_queue
  check_hresult (← api_hr Api.CommandList_Reset)
  modifyW fun w => { w with back_buffer_state := [], depth_stencil_state := none }
  let w ← getW
  check_hresult (← api_hr (Api.ResizeBuffers SwapChainBufferCount
    (to_UINT w.m_client_width) (to_UINT w.m_client_height)))
  modifyW fun w => { w with m_curr_back_buffer := 0 }
  on_resize_views SwapChainBufferCount.toNat 0 0
  let w ← getW
  check_hresult (← CreateCommittedResource Resource.depth_stencil_buffer
    (to_UINT64 w.m_client_width) (to_UINT w.m_client_height)
    { Count := sample_count w, Quality := sample_quality w } ResourceState.COMMON)
  api_void Api.CreateDepthStencilView
  ResourceBarrier Resource.depth_stencil_buffer ResourceState.COMMON ResourceState.DEPTH_WRITE
  check_hresult (← api_hr Api.CommandList_Close)
  ExecuteCommandLists (← getW).m_command_queue
  flush_command_queue
  modifyW fun w => { w with m_screen_viewport :=
    ⟨0, 0, static_cast_float w.m_client_width, static_cast_float w.m_client_height, 0, 1⟩ }
  modifyW fun w => { w with m_scissor_rect := ⟨0, 0, w.m_client_width, w.m_client_height⟩ }

/-- The message identifier `WM_KEYDOWN`. -/
def WM_KEYDOWN : Nat := 0x0100

/-- The message identifier `WM_QUIT`, on which `GetMessage` returns 0. -/
def WM_QUIT : Nat := 0x0012

/-- `App::msg_proc` (lines 239-248). -/
def msg_proc (msg : Nat) : M Unit := do
  if msg = WM_KEYDOWN then
    modifyW fun w => { w with m_needs_draw := true }
  api_void (Api.DefWindowProc msg)

/-- `MainWndProc` (lines 592-597): forwards to `App::msg_proc`. -/
def MainWndProc (msg : Nat) : M Unit :=
  msg_proc msg

/-- `GetMessage`: takes the oldest message the window system has for the thread; it blocks
for ever when there will be none. -/
def GetMessage : M Nat := fun w =>
  match w.messages with
  | [] => (Except.error Err.wait_forever, { w with trace := w.trace ++ [Api.GetMessage] })
  | msg :: rest =>
    (Except.ok msg, { w with trace := w.trace ++ [Api.GetMessage], messages := rest })

/-- `DispatchMessage`: hands the message to the window procedure of the window class,
`MainWndProc`. -/
def DispatchMessage (msg : Nat) : M Unit :=
  MainWndProc msg

/-- `App::update` (lines 619-641): the matrices are recomputed and copied into the
constant buffer. -/
def update : M Unit := do
  api_void Api.UploadBuffer_copy_data

/-- The loop of `App::run` (lines 252-258) with at most `fuel` messages to take, and the
`return (int)msg.wParam` of line 259 that follows it. -/
def run_loop : Nat → M Int
  | 0 => M.throw Err.wait_forever
  | fuel + 1 => do
    let msg ← GetMessage
    if msg = WM_QUIT then
      pure (to_INT (← getW).quit_wParam)
    else
      DispatchMessage msg
      if (← getW).m_needs_draw then
        update
        draw
      run_loop fuel

/-- `App::run` (lines 250-260): the loop ends with `WM_QUIT` or blocks when the messages
are used up, so it takes at most one message more than there are. -/
def run : M Int := fun w =>
  run_loop (w.messages.length + 1) w

/-- `App::init_main_window` (lines 262-304); `RegisterClass` and `CreateWindow` report
failure by a null result. -/
def init_main_window : M Bool := do
  if (← api_hr Api.RegisterClass) then
    api_void (Api.MessageBox "RegisterClass Failed.")
    pure false
  else
    api_void Api.AdjustWindowRect
    let failed ← api_hr Api.CreateWindow
    modifyW fun w => { w with m_main_window_h := !failed }
    if !(← getW).m_main_window_h then
      api_void (Api.MessageBox "CreateWindow Failed.")
      pure false
    else
      api_void Api.RegisterTouchWindow
      api_void Api.ShowWindow
      api_void Api.UpdateWindow
      pure true

/-- `wWinMain` (lines 599-616); the result of `init_main_window` is not looked at. -/
def wWinMain : M Int := do
  api_void Api.PIXLoadLatestWinPixGpuCapturerLibrary
  let _ ← init_main_window
  init_directx
  on_resize
  run

/-! ## Descriptions of what a call logs -/

/-- The next value of the fence checkpoint: `m_current_fence++` on a `UINT64`. -/
def next_fence (fence : Nat) : Nat := (fence + 1) % UINT64_MOD

/-- The calls one `flush_command_queue` logs when it signals `fence` and then reads the
completed value `read`, on the command queue with handle `queue`. -/
def flush_events (queue fence read : Nat) : List Api :=
  [Api.Signal queue fence, Api.GetCompletedValue read] ++
    if read < fence then
      [Api.CreateEventEx, Api.SetEventOnCompletion fence, Api.WaitForSingleObject, Api.CloseHandle]
    else []

/-- The calls one `draw` logs before it flushes the queue, from world `w` with mesh `geo`. -/
def draw_events (w : World) (geo : MeshGeometry) : List Api :=
  [ Api.CommandAllocator_Reset,
    Api.CommandList_Reset,
    Api.PIXSetMarker,
    Api.RSSetViewports w.m_screen_viewport,
    Api.RSSetScissorRects w.m_scissor_rect,
    Api.ResourceBarrier (Resource.back_buffer w.m_curr_back_buffer.toNat)
      ResourceState.PRESENT ResourceState.RENDER_TARGET,
    Api.ClearRenderTargetView (current_back_buffer_view w),
    Api.ClearDepthStencilView,
    Api.OMSetRenderTargets (current_back_buffer_view w),
    Api.SetDescriptorHeaps,
    Api.SetPipelineState,
    Api.SetGraphicsRootSignature,
    Api.IASetVertexBuffers geo.vertex_buffer_view,
    Api.IASetIndexBuffer geo.index_buffer_view,
    Api.IASetPrimitiveTopology,
    Api.SetGraphicsRootDescriptorTable 0 0,
    Api.SetGraphicsRootDescriptorTable 1
      (0 + to_INT (1 * w.m_cbv_srv_uav_desc_size % UINT32_MOD)),
    Api.DrawIndexedInstanced geo.index_count 1 0 0 0,
    Api.ResourceBarrier (Resource.back_buffer w.m_curr_back_buffer.toNat)
      ResourceState.RENDER_TARGET ResourceState.PRESENT,
    Api.CommandList_Close,
    Api.ExecuteCommandLists w.m_command_queue,
    Api.Present ]

/-- The calls `draw_on_texture` logs when `m_command_queue` holds the handle `queue`. -/
def draw_on_texture_events (queue : Nat) : List Api :=
  [ Api.D3D11On12CreateDevice [queue] 1,
    Api.QueryInterface_11on12,
    Api.DWriteCreateFactory,
    Api.CreateCommittedResource Resource.texture 256 256 { Count := 1, Quality := 0 }
      ResourceState.COPY_DEST,
    Api.CreateWrappedResource ResourceState.RENDER_TARGET ResourceState.PRESENT,
    Api.QueryInterface_IDXGISurface,
    Api.GetDpiForWindow,
    Api.CreateDxgiSurfaceRenderTarget,
    Api.CreateSolidColorBrush,
    Api.AcquireWrappedResources,
    Api.BeginDraw,
    Api.DrawRectangle,
    Api.EndDraw,
    Api.ReleaseWrappedResources ]

/-- The calls `create_d3d12_device` logs; `warp` says that the hardware device could not
be created. -/
def create_d3d12_device_events (warp : Bool) : List Api :=
  if warp then [Api.D3D12CreateDevice, Api.EnumWarpAdapter, Api.D3D12CreateDevice_warp]
  else [Api.D3D12CreateDevice]

/-- The mesh `make_geo` builds. -/
def square_geo : MeshGeometry :=
  { name := "square_geo",
    vbuf_cpu := [ { pos := (-7, 7), texc := (0, 0) }, { pos := (7, 8), texc := (1, 0) },
                  { pos := (6, -7), texc := (1, 1) }, { pos := (-7, -7), texc := (0, 1) } ],
    ibuf_cpu := [0, 1, 3, 1, 2, 3],
    vertex_stride := 16, vbuf_size := 64, index_format := 16, ibuf_size := 12,
    index_count := 6,
    parts := [("square", { index_count := 6, start_index := 0, base_vertex := 0 })] }

/-- The input layout `build_shaders_and_input_layout` stores. -/
def square_input_layout : List InputElementDesc :=
  [ { SemanticName := "POSITION", components := 2, InputSlot := 0, AlignedByteOffset := 0,
        PerVertexData := true },
    { SemanticName := "TEXCOORD", components := 2, InputSlot := 0, AlignedByteOffset := 8,
        PerVertexData := true } ]

/-- The sample description `init_directx` hands to the swap chain and the pipeline state:
it is computed after `check_msaa_support` has stored the device's quality level. -/
def init_sample_desc (w : World) : SampleDesc :=
  { Count := sample_count w,
    Quality := sample_quality { w with m_4x_msaa_quality := w.dev_num_quality_levels % UINT32_MOD } }

/-- The calls `init_directx` logs before it flushes the queue. -/
def init_directx_events (w : World) (warp : Bool) : List Api :=
  [ Api.D2D1CreateFactory, Api.D3D12GetDebugInterface, Api.EnableDebugLayer,
    Api.CreateDXGIFactory1 ] ++
  create_d3d12_device_events warp ++
  [ Api.CreateFence 0,
    Api.GetDescriptorHandleIncrementSize HeapType.RTV,
    Api.GetDescriptorHandleIncrementSize HeapType.DSV,
    Api.GetDescriptorHandleIncrementSize HeapType.CBV_SRV_UAV,
    Api.CheckFeatureSupport,
    Api.CreateCommandQueue, Api.CreateCommandAllocator, Api.CreateCommandList,
    Api.CommandList_Close,
    Api.CreateSwapChain w.dev_command_queue (to_UINT w.m_client_width)
      (to_UINT w.m_client_height) (init_sample_desc w) SwapChainBufferCount,
    Api.CreateDescriptorHeap HeapType.RTV 2,
    Api.CreateDescriptorHeap HeapType.DSV 1,
    Api.CommandList_Reset,
    Api.ResourceUploadBatch_Begin, Api.CreateWICTextureFromFile,
    Api.ResourceUploadBatch_End w.dev_command_queue,
    Api.future_wait ] ++
  draw_on_texture_events w.dev_command_queue ++
  [ Api.CreateDescriptorHeap HeapType.CBV_SRV_UAV 2,
    Api.CreateShaderResourceView (0 + 1 * (w.dev_cbv_srv_uav_increment % UINT32_MOD)),
    Api.UploadBuffer_ctor,
    Api.CreateConstantBufferView 0,
    Api.SerializeVersionedRootSignature, Api.CreateRootSignature, Api.RootSignature_SetName,
    Api.compile_shader, Api.compile_shader,
    Api.D3DCreateBlob 64, Api.D3DCreateBlob 12,
    Api.create_default_buffer 64, Api.create_default_buffer 12,
    Api.CreateGraphicsPipelineState (init_sample_desc w),
    Api.CommandList_Close,
    Api.ExecuteCommandLists w.dev_command_queue ]

/-- The calls `on_resize` logs between its two flushes of the queue. -/
def on_resize_events (w : World) : List Api :=
  [ Api.CommandList_Reset,
    Api.ResizeBuffers SwapChainBufferCount (to_UINT w.m_client_width)
      (to_UINT w.m_client_height),
    Api.GetBuffer 0,
    Api.CreateRenderTargetView 0 0,
    Api.GetBuffer 1,
    Api.CreateRenderTargetView 1 (0 + 1 * w.m_rtv_desc_size),
    Api.CreateCommittedResource Resource.depth_stencil_buffer (to_UINT64 w.m_client_width)
      (to_UINT w.m_client_height)
      { Count := sample_count w, Quality := sample_quality w } ResourceState.COMMON,
    Api.CreateDepthStencilView,
    Api.ResourceBarrier Resource.depth_stencil_buffer ResourceState.COMMON
      ResourceState.DEPTH_WRITE,
    Api.CommandList_Close,
    Api.ExecuteCommandLists w.m_command_queue ]

/-- The completed value one `flush_command_queue` reads from the fence: the GPU has
retired what the schedule says of the queue, to which the new signal was appended. -/
def flush_read (w : World) : Nat :=
  (gpu_retire (next_retired w.sched)
    (w.queue ++ [QueueItem.signal (next_fence w.m_current_fence)]) w.completed).2

/-- On every path through `m`, returning or throwing, the checkpoint `m_current_fence` is
moved only by increments of the `UINT64`, and by at most `k` of them. -/
def FenceSteps {α : Type} (k : Nat) (m : M α) : Prop :=
  ∀ w : World, ∃ j, j ≤ k ∧ (m w).2.m_current_fence = next_fence^[j] w.m_current_fence

/-! ## Runs and concrete worlds -/

/-- The value a computation returned, if it returned. -/
def returned {α : Type} (x : Except Err α × World) : Option α :=
  match x.1 with
  | Except.ok a => some a
  | Except.error _ => none

/-- An `App` object right after its constructor: no call will fail, the GPU makes no
progress on its own between polls, the descriptor increments are 32, 8 and 32 bytes, there
is one 4x MSAA quality level, the queue object has handle 7, and no message is pending. -/
def world_fresh : World := World.init [] [] 32 8 32 1 7 []

/-- The object of `world_fresh` after `init_directx`. -/
def world_started : World := (init_directx world_fresh).2

/-- The object of `world_started` after `on_resize`: ready to draw. -/
def world_ready : World := (on_resize world_started).2

/-- The object of `world_started` when the checkpoint has reached the largest `UINT64`. -/
def world_fence_max : World := { world_started with m_current_fence := UINT64_MOD - 1 }

/-- Calls `draw` `n` times in a row; the result lists, frame by frame, the back-buffer index
`m_curr_back_buffer` the frame starts with, which is the index its `current_back_buffer()`
calls use. -/
def draw_frames : Nat → M (List Int)
  | 0 => pure []
  | n + 1 => do
    let idx := (← getW).m_curr_back_buffer
    draw
    let rest ← draw_frames n
    pure (idx :: rest)

/-! ## The cross-API draw pass: call classes and the protocols of the spec -/

/-- The call is `ReleaseWrappedResources`. -/
def is_release : Api → Bool
  | Api.ReleaseWrappedResources => true
  | _ => false

/-- The calls of the draw pass on the wrapped texture and its render target. -/
inductive PassCall
  | acquire
  | begin_draw
  | draw_call
  | end_draw
  | release
  deriving DecidableEq, Repr

/-- The pass call a runtime call is, if it is one: `AcquireWrappedResources`, `BeginDraw`,
`DrawRectangle` (the only vector draw call of the program), `EndDraw`,
`ReleaseWrappedResources`. -/
def pass_call_of : Api → Option PassCall
  | Api.AcquireWrappedResources => some PassCall.acquire
  | Api.BeginDraw => some PassCall.begin_draw
  | Api.DrawRectangle => some PassCall.draw_call
  | Api.EndDraw => some PassCall.end_draw
  | Api.ReleaseWrappedResources => some PassCall.release
  | _ => none

/-- Follows the spec's words (section 4.4): the states of the draw pass. -/
inductive PassState
  | Unacquired
  | Acquired
  | Drawing
  deriving DecidableEq, Repr

/-- Follows the spec's words (section 4.4): the state machine of the draw pass. Acquire is
allowed only when unacquired, `begin_draw` only when acquired, draw calls only between
`begin_draw` and `end_draw`, release only when acquired and not drawing. -/
def spec_pass_step : PassState → PassCall → Option PassState
  | PassState.Unacquired, PassCall.acquire => some PassState.Acquired
  | PassState.Acquired, PassCall.begin_draw => some PassState.Drawing
  | PassState.Drawing, PassCall.draw_call => some PassState.Drawing
  | PassState.Drawing, PassCall.end_draw => some PassState.Acquired
  | PassState.Acquired, PassCall.release => some PassState.Unacquired
  | _, _ => none

/-- Follows the spec's words: the states the machine goes through on a sequence of calls,
the starting state first; `none` when a call is not allowed. -/
def spec_pass_run : PassState → List PassCall → Option (List PassState)
  | s, [] => some [s]
  | s, c :: rest =>
    match spec_pass_step s c with
    | none => none
    | some s1 => (spec_pass_run s1 rest).map fun states => s :: states

/-! ## The frame: steps, barriers, buffers, descriptors, queues -/

/-- Follows the spec's words (section 4.5): the steps of the frame pipeline. -/
inductive Step
  | Reset
  | RecordBarrierIn
  | ClearTargets
  | BindPipeline
  | Draw
  | RecordBarrierOut
  | Close
  | Submit
  | Present
  | AdvanceFence
  deriving DecidableEq, Repr

/-- The pipeline step a runtime call of `draw` carries out. Resetting the allocator and the
list is Reset; the two clears are ClearTargets; setting the render targets, the descriptor
heap, the pipeline state, the root signature, the vertex and index buffers, the topology
and the root tables is BindPipeline; every call of `flush_command_queue` is AdvanceFence.
The debug marker and the viewport and scissor set-up that follow the reset are none of
the ten steps. -/
def step_of : Api → Option Step
  | Api.CommandAllocator_Reset => some Step.Reset
  | Api.CommandList_Reset => some Step.Reset
  | Api.ResourceBarrier _ ResourceState.PRESENT ResourceState.RENDER_TARGET =>
    some Step.RecordBarrierIn
  | Api.ResourceBarrier _ ResourceState.RENDER_TARGET ResourceState.PRESENT =>
    some Step.RecordBarrierOut
  | Api.ClearRenderTargetView _ => some Step.ClearTargets
  | Api.ClearDepthStencilView => some Step.ClearTargets
  | Api.OMSetRenderTargets _ => some Step.BindPipeline
  | Api.SetDescriptorHeaps => some Step.BindPipeline
  | Api.SetPipelineState => some Step.BindPipeline
  | Api.SetGraphicsRootSignature => some Step.BindPipeline
  | Api.IASetVertexBuffers _ => some Step.BindPipeline
  | Api.IASetIndexBuffer _ => some Step.BindPipeline
  | Api.IASetPrimitiveTopology => some Step.BindPipeline
  | Api.SetGraphicsRootDescriptorTable _ _ => some Step.BindPipeline
  | Api.DrawIndexedInstanced _ _ _ _ _ => some Step.Draw
  | Api.CommandList_Close => some Step.Close
  | Api.ExecuteCommandLists _ => some Step.Submit
  | Api.Present => some Step.Present
  | Api.Signal _ _ => some Step.AdvanceFence
  | Api.GetCompletedValue _ => some Step.AdvanceFence
  | Api.CreateEventEx => some Step.AdvanceFence
  | Api.SetEventOnCompletion _ => some Step.AdvanceFence
  | Api.WaitForSingleObject => some Step.AdvanceFence
  | Api.CloseHandle => some Step.AdvanceFence
  | _ => none

/-- Drops every step that repeats the step `prev` right before it. -/
def collapse_after (prev : Step) : List Step → List Step
  | [] => []
  | s :: rest => if s = prev then collapse_after prev rest else s :: collapse_after s rest

/-- Merges each run of consecutive equal steps into one: the calls of one step count as
that step performed once. -/
def collapse : List Step → List Step
  | [] => []
  | s :: rest => s :: collapse_after s rest

/-- What matters about a call for the bracket of barriers: a transition barrier with its
resource and states, a clear, the draw call, or the closing of the command list. -/
inductive FrameMark
  | barrier (r : Resource) (before after : ResourceState)
  | clear
  | draw_call
  | close
  deriving DecidableEq, Repr

/-- The mark of a runtime call, if it has one. -/
def frame_mark_of : Api → Option FrameMark
  | Api.ResourceBarrier r before after => some (FrameMark.barrier r before after)
  | Api.ClearRenderTargetView _ => some FrameMark.clear
  | Api.ClearDepthStencilView => some FrameMark.clear
  | Api.DrawIndexedInstanced _ _ _ _ _ => some FrameMark.draw_call
  | Api.CommandList_Close => some FrameMark.close
  | _ => none

/-- The vertex-buffer view a call binds. -/
def vertex_view_of : Api → Option VertexBufferView
  | Api.IASetVertexBuffers v => some v
  | _ => none

/-- The index-buffer view a call binds. -/
def index_view_of : Api → Option IndexBufferView
  | Api.IASetIndexBuffer v => some v
  | _ => none

/-- The index count of an indexed draw call. -/
def drawn_index_count_of : Api → Option Nat
  | Api.DrawIndexedInstanced n _ _ _ _ => some n
  | _ => none

/-- The number of slots of a shader-visible (CBV/SRV/UAV) descriptor heap a call creates. -/
def shader_heap_slots_of : Api → Option Nat
  | Api.CreateDescriptorHeap HeapType.CBV_SRV_UAV n => some n
  | _ => none

/-- The two kinds of view the program puts into the shader-visible heap. -/
inductive ViewKind
  | CBV
  | SRV
  deriving DecidableEq, Repr

/-- The view a call creates in the shader-visible heap, with its byte offset from the start
of the heap. -/
def view_created_of : Api → Option (ViewKind × Int)
  | Api.CreateConstantBufferView offset => some (ViewKind.CBV, (offset : Int))
  | Api.CreateShaderResourceView offset => some (ViewKind.SRV, (offset : Int))
  | _ => none

/-- The kind of view root table `root` reads: `build_root_signature` (lines 841-893) gives
parameter 0 the range of one CBV and parameter 1 the range of one SRV. -/
def root_table_kind : Nat → Option ViewKind
  | 0 => some ViewKind.CBV
  | 1 => some ViewKind.SRV
  | _ => none

/-- The root table a call binds, as the kind of view it reads and the byte offset from the
start of the heap. -/
def table_bound_of : Api → Option (Option ViewKind × Int)
  | Api.SetGraphicsRootDescriptorTable root offset => some (root_table_kind root, offset)
  | _ => none

/-- The command queue a call is made on or handed: the creation of the swap chain, the
end of an upload batch, the submission of a command list, the signal of the fence. -/
def queue_operand_of : Api → Option Nat
  | Api.CreateSwapChain queue _ _ _ _ => some queue
  | Api.ResourceUploadBatch_End queue => some queue
  | Api.ExecuteCommandLists queue => some queue
  | Api.Signal queue _ => some queue
  | _ => none

/-- The queues handed to `D3D11On12CreateDevice`: the array and the count argument. -/
def secondary_device_queues_of : Api → Option (List Nat × Nat)
  | Api.D3D11On12CreateDevice queues num_queues => some (queues, num_queues)
  | _ => none

/-! ## Resize, messages, start-up, reachable states -/

/-- The render-target view a call creates: the swap-chain buffer and the byte offset from
the start of the RTV heap. -/
def rtv_created_of : Api → Option (Nat × Nat)
  | Api.CreateRenderTargetView i offset => some (i, offset)
  | _ => none

/-- What a call does for the depth buffer: create the buffer, of a width and height, or
create its view. -/
inductive DepthCall
  | buffer (width height : Int)
  | view
  deriving DecidableEq, Repr

/-- The depth-buffer call a runtime call is, if it is one. -/
def depth_call_of : Api → Option DepthCall
  | Api.CreateCommittedResource Resource.depth_stencil_buffer width height _ _ =>
    some (DepthCall.buffer width height)
  | Api.CreateDepthStencilView => some DepthCall.view
  | _ => none

/-- The call is a `MessageBox`. -/
def is_message_box : Api → Bool
  | Api.MessageBox _ => true
  | _ => false

/-- The outcome is the exception thrown for a failed `HRESULT`. -/
def is_hresult_error {α : Type} : Except Err α → Bool
  | Except.error Err.hresult_error => true
  | _ => false

/-- The process at its start when the window can be created and the first call of
`init_directx`, `D2D1CreateFactory`, will fail. -/
def world_no_d2d : World := World.init [false, false, true] [] 32 8 32 1 7 []

/-- The states of the `App` object between calls: the object as constructed, in any
environment, and the object after a call of `init_directx`, `on_resize` or `draw` that
returned (a call that throws ends the process, nothing catches). -/
inductive Reachable : World → Prop
  | construct (faults : List Bool) (sched : List Nat) (rtv dsv cbv levels : Nat)
      (queue_handle : Nat) (messages : List Nat) :
      Reachable (World.init faults sched rtv dsv cbv levels queue_handle messages)
  | init_directx {w w1 : World} :
      Reachable w → init_directx w = (Except.ok (), w1) → Reachable w1
  | on_resize {w w1 : World} :
      Reachable w → on_resize w = (Except.ok (), w1) → Reachable w1
  | draw {w w1 : World} :
      Reachable w → draw w = (Except.ok (), w1) → Reachable w1

/-! ## Submissions and fence waits -/

/-- The call is a `Signal` of the fence on the queue. -/
def is_signal : Api → Bool
  | Api.Signal _ _ => true
  | _ => false

/-- The call is a completion check, `GetCompletedValue`. -/
def is_completion_check : Api → Bool
  | Api.GetCompletedValue _ => true
  | _ => false

/-- The call is a wait on the completion event. -/
def is_wait : Api → Bool
  | Api.WaitForSingleObject => true
  | _ => false

/-- Follows the spec's words (sections 4.2 and 4.5): where the program stands between
submitting GPU work and having waited for it. -/
inductive SyncState
  /-- no submitted work is left that the program has not waited for -/
  | idle
  /-- work was submitted, no checkpoint signalled after it yet -/
  | busy
  /-- the checkpoint `v` was signalled after the submitted work -/
  | signalled (v : Nat)
  /-- the completed value read was below the checkpoint `v`: a wait is due -/
  | behind (v : Nat)
  /-- the completion event is set to fire at the checkpoint `v` -/
  | armed (v : Nat)
  deriving DecidableEq, Repr

/-- Follows the spec's words (sections 4.2 and 4.5): the discipline "submit, signal a
checkpoint, then either read a completed value that has reached it or wait for the event
armed at it; reset the allocator or the list, or resize the buffers, only when nothing
submitted is unwaited for". Submissions are `ExecuteCommandLists` and the release of the
wrapped texture that ends the cross-API draw pass. `none` is a violation. -/
def spec_sync_step : SyncState → Api → Option SyncState
  | _, Api.ExecuteCommandLists _ => some SyncState.busy
  | _, Api.ReleaseWrappedResources => some SyncState.busy
  | _, Api.Signal _ v => some (SyncState.signalled v)
  | SyncState.signalled v, Api.GetCompletedValue r =>
    if r < v then some (SyncState.behind v) else some SyncState.idle
  | SyncState.behind v, Api.SetEventOnCompletion target =>
    if target = v then some (SyncState.armed v) else none
  | SyncState.armed _, Api.WaitForSingleObject => some SyncState.idle
  | SyncState.idle, Api.CommandAllocator_Reset => some SyncState.idle
  | _, Api.CommandAllocator_Reset => none
  | SyncState.idle, Api.CommandList_Reset => some SyncState.idle
  | _, Api.CommandList_Reset => none
  | SyncState.idle, Api.ResizeBuffers _ _ _ => some SyncState.idle
  | _, Api.ResizeBuffers _ _ _ => none
  | s, _ => some s

/-- Follows the spec's words: the discipline over a sequence of calls. -/
def spec_sync_run : SyncState → List Api → Option SyncState
  | s, [] => some s
  | s, a :: rest =>
    match spec_sync_step s a with
    | none => none
    | some s1 => spec_sync_run s1 rest

/-- The object of `world_ready` when the checkpoint has reached the largest `UINT64`. -/
def world_ready_max : World := { world_ready with m_current_fence := UINT64_MOD - 1 }

/-! ## Result codes -/

/-- The calls of the graphics runtime that return a result code (an `HRESULT`), together
with the helpers of `d3d_util` that throw on one: the calls the embedding makes with
`api_hr`, `api_hr_with`, `d3d_util_call` or `EndDraw`, apart from the two window calls. -/
def returns_result_code : Api → Bool
  | Api.D2D1CreateFactory => true
  | Api.D3D12GetDebugInterface => true
  | Api.CreateDXGIFactory1 => true
  | Api.D3D12CreateDevice => true
  | Api.EnumWarpAdapter => true
  | Api.D3D12CreateDevice_warp => true
  | Api.CreateFence _ => true
  | Api.CheckFeatureSupport => true
  | Api.CreateCommandQueue => true
  | Api.CreateCommandAllocator => true
  | Api.CreateCommandList => true
  | Api.CreateSwapChain _ _ _ _ _ => true
  | Api.CreateDescriptorHeap _ _ => true
  | Api.CommandAllocator_Reset => true
  | Api.CommandList_Reset => true
  | Api.CommandList_Close => true
  | Api.Signal _ _ => true
  | Api.SetEventOnCompletion _ => true
  | Api.ResizeBuffers _ _ _ => true
  | Api.GetBuffer _ => true
  | Api.CreateCommittedResource _ _ _ _ _ => true
  | Api.Present => true
  | Api.CreateWICTextureFromFile => true
  | Api.UploadBuffer_ctor => true
  | Api.SerializeVersionedRootSignature => true
  | Api.CreateRootSignature => true
  | Api.RootSignature_SetName => true
  | Api.compile_shader => true
  | Api.D3DCreateBlob _ => true
  | Api.create_default_buffer _ => true
  | Api.CreateGraphicsPipelineState _ => true
  | Api.D3D11On12CreateDevice _ _ => true
  | Api.QueryInterface_11on12 => true
  | Api.DWriteCreateFactory => true
  | Api.CreateWrappedResource _ _ => true
  | Api.QueryInterface_IDXGISurface => true
  | Api.CreateDxgiSurfaceRenderTarget => true
  | Api.CreateSolidColorBrush => true
  | Api.EndDraw => true
  | _ => false

/-- How a computation treats the result codes it receives, on every path. The outcomes of
the calls are taken from `faults` one by one, so `faults.drop i` starts with the outcome of
the `i`-th result-returning call of the run.

* When the computation throws the exception of `check_hresult`, the last outcome it took
  was a failure, and the last call it logged returns a result code: the throw came right
  after that call, and no later call was made.
* With `all`, every outcome taken before a throw, and every outcome taken by a run that
  returns, was a success: no failure goes unnoticed. -/
def ResultsChecked (all : Prop) {α : Type} (m : M α) : Prop :=
  ∀ w : World,
    (∀ (a : α) (w1 : World), m w = (Except.ok a, w1) →
      ∃ n : Nat, w1.faults = w.faults.drop n ∧
        (all → ∀ i : Nat, i < n → next_failed (w.faults.drop i) = false)) ∧
    (∀ w1 : World, m w = (Except.error Err.hresult_error, w1) →
      ∃ (k : Nat) (call : Api) (pre : List Api),
        next_failed (w.faults.drop k) = true ∧
        (all → ∀ i : Nat, i < k → next_failed (w.faults.drop i) = false) ∧
        w1.faults = w.faults.drop (k + 1) ∧
        w1.trace = pre ++ [call] ∧ returns_result_code call = true)

/-- The object of `world_fresh` when the fourth result-returning call of `init_directx`,
the creation of the hardware device, will fail. -/
def world_no_hardware : World := World.init [false, false, false, true] [] 32 8 32 1 7 []

/-- The object of `world_ready` when the fourth result-returning call of `draw`, `Present`,
will fail. -/
def world_present_fails : World := { world_ready with faults := [false, false, false, true] }

/-! ## The texture's state at an acquire, the indexed draw, the sample description -/

/-- What the log of calls says about the shared texture: the usage state it is in, and the
in-state and out-state declared when it was wrapped. -/
structure TextureTrack where
  actual : Option ResourceState
  declared_in : Option ResourceState
  declared_out : Option ResourceState
  deriving DecidableEq, Repr

/-- The effect of one successful call on what is known about the texture: it is created
in its initial state, a transition barrier on it moves it to the barrier's after-state,
the wrap declares the in-state and out-state, the release hands it back in the declared
out-state. -/
def texture_track_step (t : TextureTrack) : Api → TextureTrack
  | Api.CreateCommittedResource Resource.texture _ _ _ initial =>
    { t with actual := some initial }
  | Api.ResourceBarrier Resource.texture _ after => { t with actual := some after }
  | Api.CreateWrappedResource in_state out_state =>
    { t with declared_in := some in_state, declared_out := some out_state }
  | Api.ReleaseWrappedResources => { t with actual := t.declared_out }
  | _ => t

/-- For each `AcquireWrappedResources` in a sequence of successful calls, the state the
texture is in at that call and the in-state declared for it. -/
def acquisitions : TextureTrack → List Api → List (Option ResourceState × Option ResourceState)
  | _, [] => []
  | t, Api.AcquireWrappedResources :: rest => (t.actual, t.declared_in) :: acquisitions t rest
  | t, a :: rest => acquisitions (texture_track_step t a) rest

/-- The arguments of an indexed draw call: index count, instance count, start index, base
vertex, start instance. -/
def indexed_draw_of : Api → Option (Nat × Nat × Nat × Int × Nat)
  | Api.DrawIndexedInstanced index_count instance_count start_index base_vertex
      start_instance =>
    some (index_count, instance_count, start_index, base_vertex, start_instance)
  | _ => none

/-- The three objects that are given a sample description. -/
inductive SampleUse
  | swap_chain
  | depth_stencil
  | pipeline_state
  deriving DecidableEq, Repr

/-- The sample description a call gives to the swap chain, to the depth-stencil buffer or
to the pipeline state. -/
def sample_use_of : Api → Option (SampleUse × SampleDesc)
  | Api.CreateSwapChain _ _ _ sample _ => some (SampleUse.swap_chain, sample)
  | Api.CreateCommittedResource Resource.depth_stencil_buffer _ _ sample _ =>
    some (SampleUse.depth_stencil, sample)
  | Api.CreateGraphicsPipelineState sample => some (SampleUse.pipeline_state, sample)
  | _ => none

/-- The object of `world_fresh` with 4x MSAA switched on. -/
def world_msaa : World := { world_fresh with m_4x_msaa_state := true }

/-! ## The message loop -/

/-- What matters about a call for the message loop: a message handed to the window
procedure (which ends in `DefWindowProc`), the constant-buffer copy that `update` makes,
the first call of `draw` (the reset of the allocator), and the `Present` of a frame. -/
inductive LoopMark
  | dispatched (msg : Nat)
  | update
  | draw_begin
  | frame
  deriving DecidableEq, Repr

/-- The mark of a runtime call, if it has one. -/
def loop_mark_of : Api → Option LoopMark
  | Api.DefWindowProc msg => some (LoopMark.dispatched msg)
  | Api.UploadBuffer_copy_data => some LoopMark.update
  | Api.CommandAllocator_Reset => some LoopMark.draw_begin
  | Api.Present => some LoopMark.frame
  | _ => none

/-- Follows the claim's words, not the source: what the message loop is to do with the
messages it takes, given whether a redraw is requested at the start. Up to `WM_QUIT` each
message is dispatched; an update and then a frame follow exactly when the redraw is
requested by then, that is when it was requested before or the message is a key press;
after a frame the request is gone. -/
def expected_loop_marks : Bool → List Nat → List LoopMark
  | _, [] => []
  | needs_draw, msg :: rest =>
    if msg = WM_QUIT then []
    else if needs_draw = true ∨ msg = WM_KEYDOWN then
      LoopMark.dispatched msg :: LoopMark.update :: LoopMark.draw_begin :: LoopMark.frame ::
        expected_loop_marks false rest
    else LoopMark.dispatched msg :: expected_loop_marks false rest

/-- The messages the loop takes before it ends: those before the first `WM_QUIT`. -/
def messages_taken (messages : List Nat) : List Nat :=
  messages.takeWhile fun msg => decide (msg ≠ WM_QUIT)

/-- The object of `world_ready` with five messages pending: a paint, a key press, a paint,
a key press, and the quit message. -/
def world_keys : World :=
  { world_ready with messages := [15, WM_KEYDOWN, 15, WM_KEYDOWN, WM_QUIT] }

/-- The name of a runtime call that carries out a pipeline step of `draw`; the two root
tables are told apart by their index. Any other call has the empty name. -/
def step_call_name : Api → String
  | Api.CommandAllocator_Reset => "ID3D12CommandAllocator::Reset"
  | Api.CommandList_Reset => "ID3D12GraphicsCommandList::Reset"
  | Api.ResourceBarrier _ _ _ => "ResourceBarrier"
  | Api.ClearRenderTargetView _ => "ClearRenderTargetView"
  | Api.ClearDepthStencilView => "ClearDepthStencilView"
  | Api.OMSetRenderTargets _ => "OMSetRenderTargets"
  | Api.SetDescriptorHeaps => "SetDescriptorHeaps"
  | Api.SetPipelineState => "SetPipelineState"
  | Api.SetGraphicsRootSignature => "SetGraphicsRootSignature"
  | Api.IASetVertexBuffers _ => "IASetVertexBuffers"
  | Api.IASetIndexBuffer _ => "IASetIndexBuffer"
  | Api.IASetPrimitiveTopology => "IASetPrimitiveTopology"
  | Api.SetGraphicsRootDescriptorTable 0 _ => "SetGraphicsRootDescriptorTable(0)"
  | Api.SetGraphicsRootDescriptorTable 1 _ => "SetGraphicsRootDescriptorTable(1)"
  | Api.SetGraphicsRootDescriptorTable _ _ => "SetGraphicsRootDescriptorTable"
  | Api.DrawIndexedInstanced _ _ _ _ _ => "DrawIndexedInstanced"
  | Api.CommandList_Close => "ID3D12GraphicsCommandList::Close"
  | Api.ExecuteCommandLists _ => "ExecuteCommandLists"
  | Api.Present => "Present"
  | Api.Signal _ _ => "Signal"
  | Api.GetCompletedValue _ => "GetCompletedValue"
  | Api.CreateEventEx => "CreateEventEx"
  | Api.SetEventOnCompletion _ => "SetEventOnCompletion"
  | Api.WaitForSingleObject => "WaitForSingleObject"
  | Api.CloseHandle => "CloseHandle"
  | _ => ""

/-- The pipeline step a runtime call carries out, together with the name of the call. -/
def step_call_of (a : Api) : Option (Step × String) :=
  (step_of a).map fun s => (s, step_call_name a)

/-- The calls of the step AdvanceFence, which is one call of `flush_command_queue`: the
signal of the new checkpoint and the check of the completed value, followed, when the GPU
is behind, by the wait on a completion event. -/
def advance_fence_calls (waited : Bool) : List (Step × String) :=
  [(Step.AdvanceFence, "Signal"), (Step.AdvanceFence, "GetCompletedValue")] ++
    if waited then
      [(Step.AdvanceFence, "CreateEventEx"), (Step.AdvanceFence, "SetEventOnCompletion"),
       (Step.AdvanceFence, "WaitForSingleObject"), (Step.AdvanceFence, "CloseHandle")]
    else []

/-- An `App` object right after its constructor, as `world_fresh`, but on a device that
reports a descriptor increment of `2 ^ 31` bytes for the CBV/SRV/UAV heap. -/
def world_big_increment : World := World.init [] [] 32 8 2147483648 1 7 []

/-- On every path through `m`, returning or throwing, no call that `m` logs is one of the
calls `bad`: what `m` adds to the log is a list of calls none of which is `bad`. -/
def NeverLogs (bad : Api → Bool) {α : Type} (m : M α) : Prop :=
  ∀ w : World, ∃ evs : List Api, (m w).2.trace = w.trace ++ evs ∧ evs.any bad = false

/-- No call site lets a failing result code pass: the strict reading of "every result code
is checked". The arguments are the call logged right before and the call. -/
def lenient_nowhere (_ : Option Api) (_ : Api) : Bool := false

/-- The call sites of the program at which a failing result code does not end the
operation: the creation of the hardware device, after which `create_d3d12_device` goes on
with the WARP adapter (lines 323-333), and the four calls whose result is not looked at,
the `Close` that directly follows `CreateCommandList` (line 532), `SetName` (line 892),
`CreateSolidColorBrush` (line 1112) and `EndDraw` (line 1121). `prev` is the call logged
right before. -/
def lenient_sites (prev : Option Api) : Api → Bool
  | Api.D3D12CreateDevice => true
  | Api.RootSignature_SetName => true
  | Api.CreateSolidColorBrush => true
  | Api.EndDraw => true
  | Api.CommandList_Close =>
    match prev with
    | some Api.CreateCommandList => true
    | _ => false
  | _ => false

/-- The call logged last, after the calls `evs` that follow the call `prev`. -/
def last_call : Option Api → List Api → Option Api
  | prev, [] => prev
  | _, a :: rest => last_call (some a) rest

/-- Replays the calls `evs` that a run logged against the outcomes `faults` the run started
with. `aborted` says that the run ended with the exception of `check_hresult`, `prev` is the
call logged right before the run, `lenient` names the call sites that may let a failure
pass. Each result-returning call takes the next outcome. The replay gives the outcomes that
are left over when

* every call that received a failure is the last call of the run, which was aborted, or
  else is made at a lenient site: nothing follows a failing call anywhere else;
* a run that was aborted ends with a call that received a failure.

Otherwise it gives `none`. -/
def replay_results (lenient : Option Api → Api → Bool) (aborted : Bool) :
    Option Api → List Bool → List Api → Option (List Bool)
  | _, faults, [] => if aborted then none else some faults
  | prev, faults, a :: rest =>
    if returns_result_code a then
      if next_failed faults then
        if rest.isEmpty && aborted then some faults.tail
        else if lenient prev a then replay_results lenient aborted (some a) faults.tail rest
        else none
      else replay_results lenient aborted (some a) faults.tail rest
    else replay_results lenient aborted (some a) faults rest

/-- On every path through `m`, returning or throwing, and whatever call was logged before:
the calls `m` logs and the outcomes it takes pass `replay_results`. So a failing result
code ends `m` at once with the exception of `check_hresult`, no later call being made,
unless the call is made at a site of `lenient`; and `m` throws that exception only right
after a call that received a failure. -/
def FailureAborts (lenient : Option Api → Api → Bool) {α : Type} (m : M α) : Prop :=
  ∀ (w : World) (prev : Option Api), ∃ evs : List Api,
    (m w).2.trace = w.trace ++ evs ∧
    replay_results lenient (is_hresult_error (m w).1) prev w.faults evs = some (m w).2.faults

/-- The object of `world_fresh` when the creation of the hardware device fails and then the
creation of the WARP device, the sixth result-returning call of `init_directx`, fails too. -/
def world_no_device : World :=
  World.init [false, false, false, true, false, true] [] 32 8 32 1 7 []

/-! ## Running the monad -/

@[simp] theorem pure_apply {α : Type} (a : α) (w : World) :
    (pure a : M α) w = (Except.ok a, w) := rfl

@[simp] theorem throw_apply {α : Type} (e : Err) (w : World) :
    (M.throw e : M α) w = (Except.error e, w) := rfl

theorem bind_apply {α β : Type} (m : M α) (f : α → M β) (w : World) :
    (m >>= f) w = match m w with
      | (Except.ok a, w1) => f a w1
      | (Except.error e, w1) => (Except.error e, w1) := rfl

theorem bind_ok_iff {α β : Type} (m : M α) (f : α → M β) (w w2 : World) (b : β) :
    (m >>= f) w = (Except.ok b, w2) ↔
      ∃ a w1, m w = (Except.ok a, w1) ∧ f a w1 = (Except.ok b, w2) := by
  rw [bind_apply]
  constructor
  · intro h
    split at h
    · rename_i a w1 heq
      exact ⟨a, w1, heq, h⟩
    · simp at h
  · rintro ⟨a, w1, h1, h2⟩
    rw [h1]
    exact h2

@[simp] theorem bind_assoc_apply {α β γ : Type} (m : M α) (f : α → M β) (g : β → M γ)
    (w : World) : ((m >>= f) >>= g) w = (m >>= fun a => f a >>= g) w := by
  simp only [bind_apply]
  rcases m w with ⟨_ | _, _⟩ <;> rfl

@[simp] theorem pure_bind_apply {α β : Type} (a : α) (f : α → M β) (w : World) :
    ((pure a : M α) >>= f) w = f a w := rfl

@[simp] theorem throw_bind_apply {α β : Type} (e : Err) (f : α → M β) (w : World) :
    ((M.throw e : M α) >>= f) w = (Except.error e, w) := rfl

@[simp] theorem getW_apply (w : World) : getW w = (Except.ok w, w) := rfl

@[simp] theorem getW_bind_apply {β : Type} (f : World → M β) (w : World) :
    (getW >>= f) w = f w w := rfl

@[simp] theorem modifyW_apply (g : World → World) (w : World) :
    modifyW g w = (Except.ok (), g w) := rfl

@[simp] theorem modifyW_bind_apply {β : Type} (g : World → World) (f : Unit → M β)
    (w : World) : (modifyW g >>= f) w = f () (g w) := rfl

@[simp] theorem check_hresult_apply (failed : Bool) (w : World) :
    check_hresult failed w =
      if failed then (Except.error Err.hresult_error, w) else (Except.ok (), w) := by
  cases failed <;> rfl

@[simp] theorem check_hresult_bind_apply {β : Type} (failed : Bool) (f : Unit → M β)
    (w : World) :
    (check_hresult failed >>= f) w =
      if failed then (Except.error Err.hresult_error, w) else f () w := by
  cases failed <;> rfl

@[simp] theorem cassert_apply (c : Bool) (w : World) :
    cassert c w =
      if c then (Except.ok (), w) else (Except.error Err.assertion_failed, w) := by
  cases c <;> rfl

@[simp] theorem cassert_bind_apply {β : Type} (c : Bool) (f : Unit → M β) (w : World) :
    (cassert c >>= f) w = if c then f () w else (Except.error Err.assertion_failed, w) := by
  cases c <;> rfl

@[simp] theorem deref_bind_ok_iff {α β : Type} (p : Option α) (f : α → M β) (w w1 : World)
    (b : β) :
    (deref p >>= f) w = (Except.ok b, w1) ↔ ∃ a, p = some a ∧ f a w = (Except.ok b, w1) := by
  cases p with
  | none => simp [deref, bind_apply]
  | some a => simp [deref, bind_apply]

@[simp] theorem api_void_with_apply (a : Api) (e : World → World) (w : World) :
    api_void_with a e w = (Except.ok (), { e w with trace := w.trace ++ [a] }) := rfl

@[simp] theorem api_void_with_bind_apply {β : Type} (a : Api) (e : World → World)
    (f : Unit → M β) (w : World) :
    (api_void_with a e >>= f) w = f () { e w with trace := w.trace ++ [a] } := rfl

@[simp] theorem api_hr_with_apply (a : Api) (e : World → World) (w : World) :
    api_hr_with a e w =
      if next_failed w.faults then
        (Except.ok true, { w with trace := w.trace ++ [a], faults := w.faults.tail })
      else
        (Except.ok false, { e w with trace := w.trace ++ [a], faults := w.faults.tail }) := rfl

@[simp] theorem api_hr_with_bind_apply {β : Type} (a : Api) (e : World → World)
    (f : Bool → M β) (w : World) :
    (api_hr_with a e >>= f) w =
      if next_failed w.faults then
        f true { w with trace := w.trace ++ [a], faults := w.faults.tail }
      else
        f false { e w with trace := w.trace ++ [a], faults := w.faults.tail } := by
  by_cases h : next_failed w.faults = true <;> simp [bind_apply, h]

@[simp] theorem EndDraw_bind_apply {β : Type} (f : Bool → M β) (w : World) :
    (EndDraw >>= f) w =
      f (next_failed w.faults)
        { w with trace := w.trace ++ [Api.EndDraw], faults := w.faults.tail, drawing := false } :=
  rfl

@[simp] theorem GetCompletedValue_bind_apply {β : Type} (f : Nat → M β) (w : World) :
    (GetCompletedValue >>= f) w =
      f (gpu_retire (next_retired w.sched) w.queue w.completed).2
        { w with trace := w.trace ++ [Api.GetCompletedValue (gpu_retire (next_retired w.sched) w.queue w.completed).2],
                 sched := w.sched.tail,
                 queue := (gpu_retire (next_retired w.sched) w.queue w.completed).1,
                 completed := (gpu_retire (next_retired w.sched) w.queue w.completed).2 } := rfl

@[simp] theorem current_back_buffer_bind_apply {β : Type} (f : Resource → M β) (w : World) :
    (current_back_buffer >>= f) w =
      if 0 ≤ w.m_curr_back_buffer ∧ w.m_curr_back_buffer < SwapChainBufferCount then
        f (Resource.back_buffer w.m_curr_back_buffer.toNat) w
      else (Except.error Err.invalid_access, w) := by
  by_cases h : 0 ≤ w.m_curr_back_buffer ∧ w.m_curr_back_buffer < SwapChainBufferCount <;>
    simp [bind_apply, current_back_buffer, h]

theorem WaitForSingleObject_ok_iff (w w1 : World) (u : Unit) :
    WaitForSingleObject w = (Except.ok u, w1) ↔
      ∃ target q c, w.event_target = some target ∧
        gpu_run_until target w.queue w.completed = some (q, c) ∧
        w1 = { w with trace := w.trace ++ [Api.WaitForSingleObject],
                      queue := q, completed := c } := by
  unfold WaitForSingleObject
  constructor
  · intro h
    split at h
    · injection h with h1 h2
      cases h1
    · rename_i target ht
      split at h
      · injection h with h1 h2
        cases h1
      · rename_i r hr
        injection h with h1 h2
        exact ⟨target, r.1, r.2, ht, hr, h2.symm⟩
  · rintro ⟨target, q, c, ht, hr, rfl⟩
    simp only [ht, hr]

@[simp] theorem WaitForSingleObject_bind_ok_iff {β : Type} (f : Unit → M β) (w w2 : World)
    (b : β) :
    (WaitForSingleObject >>= f) w = (Except.ok b, w2) ↔
      ∃ target q c, w.event_target = some target ∧
        gpu_run_until target w.queue w.completed = some (q, c) ∧
        f () { w with trace := w.trace ++ [Api.WaitForSingleObject],
                      queue := q, completed := c } = (Except.ok b, w2) := by
  rw [bind_ok_iff]
  constructor
  · rintro ⟨a, w1, h1, h2⟩
    obtain ⟨target, q, c, ht, hr, rfl⟩ := (WaitForSingleObject_ok_iff w w1 a).1 h1
    exact ⟨target, q, c, ht, hr, h2⟩
  · rintro ⟨target, q, c, ht, hr, h2⟩
    exact ⟨(), _, (WaitForSingleObject_ok_iff w _ ()).2 ⟨target, q, c, ht, hr, rfl⟩, h2⟩

@[simp] theorem ite_error_eq_ok_iff {α : Type} {c : Prop} [Decidable c] (e : Err)
    (w0 w1 : World) (x : Except Err α × World) (a : α) :
    (if c then (Except.error e, w0) else x) = (Except.ok a, w1) ↔
      ¬ c ∧ x = (Except.ok a, w1) := by
  by_cases h : c <;> simp [h]

@[simp] theorem ite_eq_ok_error_iff {α : Type} {c : Prop} [Decidable c] (e : Err)
    (w0 w1 : World) (x : Except Err α × World) (a : α) :
    (if c then x else (Except.error e, w0)) = (Except.ok a, w1) ↔
      c ∧ x = (Except.ok a, w1) := by
  by_cases h : c <;> simp [h]

/-! ## The GPU model -/

theorem gpu_run_until_reaches (target : Nat) :
    ∀ (q : List QueueItem) (c : Nat) (r : List QueueItem × Nat),
      gpu_run_until target q c = some r → target ≤ r.2 := by
  intro q
  induction q with
  | nil =>
    intro c r h
    unfold gpu_run_until at h
    split at h
    · cases h; assumption
    · cases h
  | cons item q ih =>
    intro c r h
    unfold gpu_run_until at h
    split at h
    · cases h; assumption
    · cases item with
      | exec => exact ih _ _ h
      | signal v => exact ih _ _ h
      | present => exact ih _ _ h

theorem gpu_run_until_signal (target : Nat) :
    ∀ (q : List QueueItem) (c : Nat),
      ∃ r, gpu_run_until target (q ++ [QueueItem.signal target]) c = some r := by
  intro q
  induction q with
  | nil =>
    intro c
    simp only [List.nil_append, gpu_run_until]
    by_cases h : target ≤ c <;> simp [h]
  | cons item q ih =>
    intro c
    simp only [List.cons_append, gpu_run_until]
    by_cases h : target ≤ c
    · simp [h]
    · cases item with
      | exec => simpa [h] using ih c
      | signal v => simpa [h] using ih v
      | present => simpa [h] using ih c

theorem gpu_retire_signal (target : Nat) :
    ∀ (n : Nat) (q : List QueueItem) (c : Nat),
      (gpu_retire n (q ++ [QueueItem.signal target]) c = ([], target)) ∨
      ∃ q1, (gpu_retire n (q ++ [QueueItem.signal target]) c).1 = q1 ++ [QueueItem.signal target] := by
  intro n
  induction n with
  | zero =>
    intro q c
    right
    exact ⟨q, rfl⟩
  | succ n ih =>
    intro q c
    cases q with
    | nil =>
      left
      cases n <;> rfl
    | cons item q =>
      cases item with
      | exec => simpa [gpu_retire] using ih q c
      | signal v => simpa [gpu_retire] using ih q v
      | present => simpa [gpu_retire] using ih q c

/-! ## `flush_command_queue` -/

theorem flush_command_queue_ok {w w1 : World}
    (h : flush_command_queue w = (Except.ok (), w1)) :
    ∃ q c, w1 = { w with
        m_current_fence := next_fence w.m_current_fence,
        trace := w.trace ++ flush_events w.m_command_queue (next_fence w.m_current_fence) (flush_read w),
        faults := if flush_read w < next_fence w.m_current_fence then w.faults.tail.tail
                  else w.faults.tail,
        sched := w.sched.tail,
        queue := q, completed := c,
        event_target := if flush_read w < next_fence w.m_current_fence then none
                        else w.event_target } ∧
      next_fence w.m_current_fence ≤ c ∧
      (¬ flush_read w < next_fence w.m_current_fence → c = flush_read w) := by
  simp [flush_command_queue, Signal, CreateEventEx, SetEventOnCompletion, CloseHandle] at h
  obtain ⟨hf, h⟩ := h
  by_cases hlt : flush_read w < next_fence w.m_current_fence
  · have hlt1 := hlt
    simp only [flush_read, next_fence] at hlt1
    simp [hlt1] at h
    obtain ⟨_, q, c, hrun, rfl⟩ := h
    refine ⟨q, c, ?_, gpu_run_until_reaches _ _ _ _ hrun, fun hn => absurd hlt hn⟩
    simp [flush_events, hlt1, flush_read, next_fence]
  · have hlt1 := hlt
    simp only [flush_read, next_fence] at hlt1
    simp [hlt1] at h
    subst h
    refine ⟨(gpu_retire (next_retired w.sched)
      (w.queue ++ [QueueItem.signal (next_fence w.m_current_fence)]) w.completed).1,
      flush_read w, ?_, Nat.le_of_not_lt hlt, fun _ => rfl⟩
    simp [flush_events, hlt1, flush_read, next_fence]

/-- What a returning `flush_command_queue` leaves behind, with the environment's part
left open. -/
theorem flush_command_queue_ok_frame {w w1 : World}
    (h : flush_command_queue w = (Except.ok (), w1)) :
    ∃ read q c fs ev, w1 = { w with
        m_current_fence := next_fence w.m_current_fence,
        trace := w.trace ++ flush_events w.m_command_queue (next_fence w.m_current_fence) read,
        faults := fs, sched := w.sched.tail, queue := q, completed := c, event_target := ev } ∧
      next_fence w.m_current_fence ≤ c ∧
      (¬ read < next_fence w.m_current_fence → c = read) := by
  obtain ⟨q, c, hw, hc, hr⟩ := flush_command_queue_ok h
  exact ⟨flush_read w, q, c, _, _, hw, hc, hr⟩

theorem WaitForSingleObject_bind_apply {β : Type} (f : Unit → M β) (w : World) :
    (WaitForSingleObject >>= f) w =
      match w.event_target with
      | none =>
        (Except.error Err.wait_forever, { w with trace := w.trace ++ [Api.WaitForSingleObject] })
      | some target =>
        match gpu_run_until target w.queue w.completed with
        | none =>
          (Except.error Err.wait_forever,
            { w with trace := w.trace ++ [Api.WaitForSingleObject] })
        | some r =>
          f () { w with trace := w.trace ++ [Api.WaitForSingleObject],
                        queue := r.1, completed := r.2 } := by
  simp only [bind_apply, WaitForSingleObject]
  cases w.event_target with
  | none => rfl
  | some target =>
    simp only []
    cases gpu_run_until target w.queue w.completed <;> rfl

/-- On every path, returning or throwing, one `flush_command_queue` leaves the checkpoint
at its next value. -/
theorem flush_command_queue_fence (w : World) :
    (flush_command_queue w).2.m_current_fence = next_fence w.m_current_fence := by
  simp only [flush_command_queue, Signal, CreateEventEx, SetEventOnCompletion, CloseHandle,
    modifyW_bind_apply, getW_bind_apply, api_hr_with_bind_apply, check_hresult_bind_apply,
    GetCompletedValue_bind_apply, bind_assoc_apply]
  by_cases h1 : next_failed w.faults = true
  · simp [h1, next_fence]
  · simp only [h1]
    simp only [Bool.false_eq_true, if_false]
    split
    · simp only [api_void_with_bind_apply, getW_bind_apply, api_hr_with_bind_apply,
        check_hresult_bind_apply, WaitForSingleObject_bind_apply, api_void_with_apply]
      split
      · simp [next_fence]
      · simp only [Bool.false_eq_true, if_false]
        split
        · rfl
        · rfl
    · rfl

/-! ## The checkpoint on every path -/

theorem fence_steps_of_keeps {α : Type} {m : M α}
    (h : ∀ w : World, (m w).2.m_current_fence = w.m_current_fence) : FenceSteps 0 m :=
  fun w => ⟨0, le_refl 0, h w⟩

theorem fence_steps_mono {α : Type} {m : M α} {k n : Nat} (hk : k ≤ n)
    (h : FenceSteps k m) : FenceSteps n m := by
  intro w
  obtain ⟨j, hj, e⟩ := h w
  exact ⟨j, le_trans hj hk, e⟩

theorem fence_steps_bind {α β : Type} {m : M α} {f : α → M β} {k n : Nat}
    (hm : FenceSteps k m) (hf : ∀ a, FenceSteps n (f a)) : FenceSteps (n + k) (m >>= f) := by
  intro w
  obtain ⟨j, hj, e⟩ := hm w
  rw [bind_apply]
  rcases hmw : m w with ⟨r, w1⟩
  rw [hmw] at e
  cases r with
  | error err =>
    exact ⟨j, le_trans hj (Nat.le_add_left k n), e⟩
  | ok a =>
    obtain ⟨i, hi, e2⟩ := hf a w1
    refine ⟨i + j, Nat.add_le_add hi hj, ?_⟩
    simp only []
    rw [e2, Function.iterate_add_apply]
    simp only [] at e
    rw [e]

theorem fence_steps_bind0 {α β : Type} {m : M α} {f : α → M β} {n : Nat}
    (hm : FenceSteps 0 m) (hf : ∀ a, FenceSteps n (f a)) : FenceSteps n (m >>= f) :=
  fence_steps_bind hm hf

theorem fence_steps_bind1 {α β : Type} {m : M α} {f : α → M β} {n : Nat}
    (hm : FenceSteps 1 m) (hf : ∀ a, FenceSteps n (f a)) : FenceSteps (n + 1) (m >>= f) :=
  fence_steps_bind hm hf

theorem fence_steps_ite {α : Type} {c : Prop} [Decidable c] {a b : M α} {k : Nat}
    (ha : FenceSteps k a) (hb : FenceSteps k b) : FenceSteps k (if c then a else b) := by
  by_cases h : c <;> simp [h, ha, hb]

theorem fence_steps_pure {α : Type} (a : α) : FenceSteps 0 (pure a : M α) :=
  fence_steps_of_keeps fun _ => rfl

theorem fence_steps_throw {α : Type} (e : Err) : FenceSteps 0 (M.throw e : M α) :=
  fence_steps_of_keeps fun _ => rfl

theorem fence_steps_getW : FenceSteps 0 getW :=
  fence_steps_of_keeps fun _ => rfl

theorem fence_steps_modifyW (g : World → World)
    (hg : ∀ w : World, (g w).m_current_fence = w.m_current_fence) : FenceSteps 0 (modifyW g) :=
  fence_steps_of_keeps hg

theorem fence_steps_check_hresult (failed : Bool) : FenceSteps 0 (check_hresult failed) :=
  fence_steps_of_keeps fun w => by cases failed <;> rfl

theorem fence_steps_cassert (c : Bool) : FenceSteps 0 (cassert c) :=
  fence_steps_of_keeps fun w => by cases c <;> rfl

theorem fence_steps_deref {α : Type} (p : Option α) : FenceSteps 0 (deref p) :=
  fence_steps_of_keeps fun w => by cases p <;> rfl

theorem fence_steps_api_void_with (a : Api) (e : World → World)
    (he : ∀ w : World, (e w).m_current_fence = w.m_current_fence) :
    FenceSteps 0 (api_void_with a e) :=
  fence_steps_of_keeps he

theorem fence_steps_api_void (a : Api) : FenceSteps 0 (api_void a) :=
  fence_steps_of_keeps fun _ => rfl

theorem fence_steps_api_hr_with (a : Api) (e : World → World)
    (he : ∀ w : World, (e w).m_current_fence = w.m_current_fence) :
    FenceSteps 0 (api_hr_with a e) :=
  fence_steps_of_keeps fun w => by
    rw [api_hr_with_apply]
    split
    · rfl
    · exact he w

theorem fence_steps_api_hr (a : Api) : FenceSteps 0 (api_hr a) :=
  fence_steps_api_hr_with a id fun _ => rfl

theorem fence_steps_EndDraw : FenceSteps 0 EndDraw :=
  fence_steps_of_keeps fun _ => rfl

theorem fence_steps_current_back_buffer : FenceSteps 0 current_back_buffer :=
  fence_steps_of_keeps fun w => by
    unfold current_back_buffer
    split <;> rfl

theorem fence_steps_ResourceBarrier (r : Resource) (before after : ResourceState) :
    FenceSteps 0 (ResourceBarrier r before after) :=
  fence_steps_api_void_with _ _ fun w => by cases r <;> rfl

theorem fence_steps_CreateCommittedResource (r : Resource) (width height : Int)
    (sample : SampleDesc) (initial : ResourceState) :
    FenceSteps 0 (CreateCommittedResource r width height sample initial) :=
  fence_steps_api_hr_with _ _ fun w => by cases r <;> rfl

theorem fence_steps_ReleaseWrappedResources : FenceSteps 0 ReleaseWrappedResources :=
  fence_steps_api_void_with _ _ fun w => by cases h : w.m_d11_texture <;> simp [h]

theorem fence_steps_flush_command_queue : FenceSteps 1 flush_command_queue :=
  fun w => ⟨1, le_refl 1, flush_command_queue_fence w⟩

theorem fence_steps_d3d_util_call (a : Api) : FenceSteps 0 (d3d_util_call a) := by
  unfold d3d_util_call
  exact fence_steps_bind0 (fence_steps_api_hr a) fun _ => fence_steps_check_hresult _

theorem fence_steps_create_d2d_factory : FenceSteps 0 create_d2d_factory := by
  unfold create_d2d_factory
  repeat' (with_reducible first
    | refine fence_steps_bind1 fence_steps_flush_command_queue (fun _ => ?_)
    | refine fence_steps_bind0 ?_ (fun _ => ?_)
    | exact fence_steps_pure _
    | exact fence_steps_throw _
    | exact fence_steps_getW
    | exact fence_steps_check_hresult _
    | exact fence_steps_cassert _
    | exact fence_steps_deref _
    | exact fence_steps_api_void _
    | exact fence_steps_api_hr _
    | exact fence_steps_EndDraw
    | exact fence_steps_current_back_buffer
    | exact fence_steps_ResourceBarrier _ _ _
    | exact fence_steps_CreateCommittedResource _ _ _ _ _
    | exact fence_steps_ReleaseWrappedResources
    | exact fence_steps_d3d_util_call _
    | exact fence_steps_modifyW _ (fun _ => rfl)
    | exact fence_steps_api_void_with _ _ (fun _ => rfl)
    | exact fence_steps_api_hr_with _ _ (fun _ => rfl)
    | exact fence_steps_flush_command_queue
    | apply fence_steps_ite)

theorem fence_steps_create_debug_layer : FenceSteps 0 create_debug_layer := by
  unfold create_debug_layer
  repeat' (with_reducible first
    | refine fence_steps_bind1 fence_steps_flush_command_queue (fun _ => ?_)
    | refine fence_steps_bind0 ?_ (fun _ => ?_)
    | exact fence_steps_pure _
    | exact fence_steps_throw _
    | exact fence_steps_getW
    | exact fence_steps_check_hresult _
    | exact fence_steps_cassert _
    | exact fence_steps_deref _
    | exact fence_steps_api_void _
    | exact fence_steps_api_hr _
    | exact fence_steps_EndDraw
    | exact fence_steps_current_back_buffer
    | exact fence_steps_ResourceBarrier _ _ _
    | exact fence_steps_CreateCommittedResource _ _ _ _ _
    | exact fence_steps_ReleaseWrappedResources
    | exact fence_steps_d3d_util_call _
    | exact fence_steps_modifyW _ (fun _ => rfl)
    | exact fence_steps_api_void_with _ _ (fun _ => rfl)
    | exact fence_steps_api_hr_with _ _ (fun _ => rfl)
    | exact fence_steps_flush_command_queue
    | apply fence_steps_ite)

theorem fence_steps_create_dxgi_factory : FenceSteps 0 create_dxgi_factory := by
  unfold create_dxgi_factory
  repeat' (with_reducible first
    | refine fence_steps_bind1 fence_steps_flush_command_queue (fun _ => ?_)
    | refine fence_steps_bind0 ?_ (fun _ => ?_)
    | exact fence_steps_pure _
    | exact fence_steps_throw _
    | exact fence_steps_getW
    | exact fence_steps_check_hresult _
    | exact fence_steps_cassert _
    | exact fence_steps_deref _
    | exact fence_steps_api_void _
    | exact fence_steps_api_hr _
    | exact fence_steps_EndDraw
    | exact fence_steps_current_back_buffer
    | exact fence_steps_ResourceBarrier _ _ _
    | exact fence_steps_CreateCommittedResource _ _ _ _ _
    | exact fence_steps_ReleaseWrappedResources
    | exact fence_steps_d3d_util_call _
    | exact fence_steps_modifyW _ (fun _ => rfl)
    | exact fence_steps_api_void_with _ _ (fun _ => rfl)
    | exact fence_steps_api_hr_with _ _ (fun _ => rfl)
    | exact fence_steps_flush_command_queue
    | apply fence_steps_ite)

theorem fence_steps_create_d3d12_device : FenceSteps 0 create_d3d12_device := by
  unfold create_d3d12_device
  repeat' (with_reducible first
    | refine fence_steps_bind1 fence_steps_flush_command_queue (fun _ => ?_)
    | refine fence_steps_bind0 ?_ (fun _ => ?_)
    | exact fence_steps_pure _
    | exact fence_steps_throw _
    | exact fence_steps_getW
    | exact fence_steps_check_hresult _
    | exact fence_steps_cassert _
    | exact fence_steps_deref _
    | exact fence_steps_api_void _
    | exact fence_steps_api_hr _
    | exact fence_steps_EndDraw
    | exact fence_steps_current_back_buffer
    | exact fence_steps_ResourceBarrier _ _ _
    | exact fence_steps_CreateCommittedResource _ _ _ _ _
    | exact fence_steps_ReleaseWrappedResources
    | exact fence_steps_d3d_util_call _
    | exact fence_steps_modifyW _ (fun _ => rfl)
    | exact fence_steps_api_void_with _ _ (fun _ => rfl)
    | exact fence_steps_api_hr_with _ _ (fun _ => rfl)
    | exact fence_steps_flush_command_queue
    | apply fence_steps_ite)

theorem fence_steps_create_fence : FenceSteps 0 create_fence := by
  unfold create_fence
  repeat' (with_reducible first
    | refine fence_steps_bind1 fence_steps_flush_command_queue (fun _ => ?_)
    | refine fence_steps_bind0 ?_ (fun _ => ?_)
    | exact fence_steps_pure _
    | exact fence_steps_throw _
    | exact fence_steps_getW
    | exact fence_steps_check_hresult _
    | exact fence_steps_cassert _
    | exact fence_steps_deref _
    | exact fence_steps_api_void _
    | exact fence_steps_api_hr _
    | exact fence_steps_EndDraw
    | exact fence_steps_current_back_buffer
    | exact fence_steps_ResourceBarrier _ _ _
    | exact fence_steps_CreateCommittedResource _ _ _ _ _
    | exact fence_steps_ReleaseWrappedResources
    | exact fence_steps_d3d_util_call _
    | exact fence_steps_modifyW _ (fun _ => rfl)
    | exact fence_steps_api_void_with _ _ (fun _ => rfl)
    | exact fence_steps_api_hr_with _ _ (fun _ => rfl)
    | exact fence_steps_flush_command_queue
    | apply fence_steps_ite)

theorem fence_steps_get_descriptor_sizes : FenceSteps 0 get_descriptor_sizes := by
  unfold get_descriptor_sizes
  repeat' (with_reducible first
    | refine fence_steps_bind1 fence_steps_flush_command_queue (fun _ => ?_)
    | refine fence_steps_bind0 ?_ (fun _ => ?_)
    | exact fence_steps_pure _
    | exact fence_steps_throw _
    | exact fence_steps_getW
    | exact fence_steps_check_hresult _
    | exact fence_steps_cassert _
    | exact fence_steps_deref _
    | exact fence_steps_api_void _
    | exact fence_steps_api_hr _
    | exact fence_steps_EndDraw
    | exact fence_steps_current_back_buffer
    | exact fence_steps_ResourceBarrier _ _ _
    | exact fence_steps_CreateCommittedResource _ _ _ _ _
    | exact fence_steps_ReleaseWrappedResources
    | exact fence_steps_d3d_util_call _
    | exact fence_steps_modifyW _ (fun _ => rfl)
    | exact fence_steps_api_void_with _ _ (fun _ => rfl)
    | exact fence_steps_api_hr_with _ _ (fun _ => rfl)
    | exact fence_steps_flush_command_queue
    | apply fence_steps_ite)

theorem fence_steps_check_msaa_support : FenceSteps 0 check_msaa_support := by
  unfold check_msaa_support
  repeat' (with_reducible first
    | refine fence_steps_bind1 fence_steps_flush_command_queue (fun _ => ?_)
    | refine fence_steps_bind0 ?_ (fun _ => ?_)
    | exact fence_steps_pure _
    | exact fence_steps_throw _
    | exact fence_steps_getW
    | exact fence_steps_check_hresult _
    | exact fence_steps_cassert _
    | exact fence_steps_deref _
    | exact fence_steps_api_void _
    | exact fence_steps_api_hr _
    | exact fence_steps_EndDraw
    | exact fence_steps_current_back_buffer
    | exact fence_steps_ResourceBarrier _ _ _
    | exact fence_steps_CreateCommittedResource _ _ _ _ _
    | exact fence_steps_ReleaseWrappedResources
    | exact fence_steps_d3d_util_call _
    | exact fence_steps_modifyW _ (fun _ => rfl)
    | exact fence_steps_api_void_with _ _ (fun _ => rfl)
    | exact fence_steps_api_hr_with _ _ (fun _ => rfl)
    | exact fence_steps_flush_command_queue
    | apply fence_steps_ite)

theorem fence_steps_create_command_objects : FenceSteps 0 create_command_objects := by
  unfold create_command_objects
  repeat' (with_reducible first
    | refine fence_steps_bind1 fence_steps_flush_command_queue (fun _ => ?_)
    | refine fence_steps_bind0 ?_ (fun _ => ?_)
    | exact fence_steps_pure _
    | exact fence_steps_throw _
    | exact fence_steps_getW
    | exact fence_steps_check_hresult _
    | exact fence_steps_cassert _
    | exact fence_steps_deref _
    | exact fence_steps_api_void _
    | exact fence_steps_api_hr _
    | exact fence_steps_EndDraw
    | exact fence_steps_current_back_buffer
    | exact fence_steps_ResourceBarrier _ _ _
    | exact fence_steps_CreateCommittedResource _ _ _ _ _
    | exact fence_steps_ReleaseWrappedResources
    | exact fence_steps_d3d_util_call _
    | exact fence_steps_modifyW _ (fun _ => rfl)
    | exact fence_steps_api_void_with _ _ (fun _ => rfl)
    | exact fence_steps_api_hr_with _ _ (fun _ => rfl)
    | exact fence_steps_flush_command_queue
    | apply fence_steps_ite)

theorem fence_steps_create_swap_chain : FenceSteps 0 create_swap_chain := by
  unfold create_swap_chain
  repeat' (with_reducible first
    | refine fence_steps_bind1 fence_steps_flush_command_queue (fun _ => ?_)
    | refine fence_steps_bind0 ?_ (fun _ => ?_)
    | exact fence_steps_pure _
    | exact fence_steps_throw _
    | exact fence_steps_getW
    | exact fence_steps_check_hresult _
    | exact fence_steps_cassert _
    | exact fence_steps_deref _
    | exact fence_steps_api_void _
    | exact fence_steps_api_hr _
    | exact fence_steps_EndDraw
    | exact fence_steps_current_back_buffer
    | exact fence_steps_ResourceBarrier _ _ _
    | exact fence_steps_CreateCommittedResource _ _ _ _ _
    | exact fence_steps_ReleaseWrappedResources
    | exact fence_steps_d3d_util_call _
    | exact fence_steps_modifyW _ (fun _ => rfl)
    | exact fence_steps_api_void_with _ _ (fun _ => rfl)
    | exact fence_steps_api_hr_with _ _ (fun _ => rfl)
    | exact fence_steps_flush_command_queue
    | apply fence_steps_ite)

theorem fence_steps_create_rtv_and_dsv_descriptor_heaps : FenceSteps 0 create_rtv_and_dsv_descriptor_heaps := by
  unfold create_rtv_and_dsv_descriptor_heaps
  repeat' (with_reducible first
    | refine fence_steps_bind1 fence_steps_flush_command_queue (fun _ => ?_)
    | refine fence_steps_bind0 ?_ (fun _ => ?_)
    | exact fence_steps_pure _
    | exact fence_steps_throw _
    | exact fence_steps_getW
    | exact fence_steps_check_hresult _
    | exact fence_steps_cassert _
    | exact fence_steps_deref _
    | exact fence_steps_api_void _
    | exact fence_steps_api_hr _
    | exact fence_steps_EndDraw
    | exact fence_steps_current_back_buffer
    | exact fence_steps_ResourceBarrier _ _ _
    | exact fence_steps_CreateCommittedResource _ _ _ _ _
    | exact fence_steps_ReleaseWrappedResources
    | exact fence_steps_d3d_util_call _
    | exact fence_steps_modifyW _ (fun _ => rfl)
    | exact fence_steps_api_void_with _ _ (fun _ => rfl)
    | exact fence_steps_api_hr_with _ _ (fun _ => rfl)
    | exact fence_steps_flush_command_queue
    | apply fence_steps_ite)

theorem fence_steps_build_descriptor_heaps : FenceSteps 0 build_descriptor_heaps := by
  unfold build_descriptor_heaps
  repeat' (with_reducible first
    | refine fence_steps_bind1 fence_steps_flush_command_queue (fun _ => ?_)
    | refine fence_steps_bind0 ?_ (fun _ => ?_)
    | exact fence_steps_pure _
    | exact fence_steps_throw _
    | exact fence_steps_getW
    | exact fence_steps_check_hresult _
    | exact fence_steps_cassert _
    | exact fence_steps_deref _
    | exact fence_steps_api_void _
    | exact fence_steps_api_hr _
    | exact fence_steps_EndDraw
    | exact fence_steps_current_back_buffer
    | exact fence_steps_ResourceBarrier _ _ _
    | exact fence_steps_CreateCommittedResource _ _ _ _ _
    | exact fence_steps_ReleaseWrappedResources
    | exact fence_steps_d3d_util_call _
    | exact fence_steps_modifyW _ (fun _ => rfl)
    | exact fence_steps_api_void_with _ _ (fun _ => rfl)
    | exact fence_steps_api_hr_with _ _ (fun _ => rfl)
    | exact fence_steps_flush_command_queue
    | apply fence_steps_ite)

theorem fence_steps_build_constant_buffers : FenceSteps 0 build_constant_buffers := by
  unfold build_constant_buffers
  repeat' (with_reducible first
    | refine fence_steps_bind1 fence_steps_flush_command_queue (fun _ => ?_)
    | refine fence_steps_bind0 ?_ (fun _ => ?_)
    | exact fence_steps_pure _
    | exact fence_steps_throw _
    | exact fence_steps_getW
    | exact fence_steps_check_hresult _
    | exact fence_steps_cassert _
    | exact fence_steps_deref _
    | exact fence_steps_api_void _
    | exact fence_steps_api_hr _
    | exact fence_steps_EndDraw
    | exact fence_steps_current_back_buffer
    | exact fence_steps_ResourceBarrier _ _ _
    | exact fence_steps_CreateCommittedResource _ _ _ _ _
    | exact fence_steps_ReleaseWrappedResources
    | exact fence_steps_d3d_util_call _
    | exact fence_steps_modifyW _ (fun _ => rfl)
    | exact fence_steps_api_void_with _ _ (fun _ => rfl)
    | exact fence_steps_api_hr_with _ _ (fun _ => rfl)
    | exact fence_steps_flush_command_queue
    | apply fence_steps_ite)

theorem fence_steps_build_root_signature : FenceSteps 0 build_root_signature := by
  unfold build_root_signature
  repeat' (with_reducible first
    | refine fence_steps_bind1 fence_steps_flush_command_queue (fun _ => ?_)
    | refine fence_steps_bind0 ?_ (fun _ => ?_)
    | exact fence_steps_pure _
    | exact fence_steps_throw _
    | exact fence_steps_getW
    | exact fence_steps_check_hresult _
    | exact fence_steps_cassert _
    | exact fence_steps_deref _
    | exact fence_steps_api_void _
    | exact fence_steps_api_hr _
    | exact fence_steps_EndDraw
    | exact fence_steps_current_back_buffer
    | exact fence_steps_ResourceBarrier _ _ _
    | exact fence_steps_CreateCommittedResource _ _ _ _ _
    | exact fence_steps_ReleaseWrappedResources
    | exact fence_steps_d3d_util_call _
    | exact fence_steps_modifyW _ (fun _ => rfl)
    | exact fence_steps_api_void_with _ _ (fun _ => rfl)
    | exact fence_steps_api_hr_with _ _ (fun _ => rfl)
    | exact fence_steps_flush_command_queue
    | apply fence_steps_ite)

theorem fence_steps_build_shaders_and_input_layout : FenceSteps 0 build_shaders_and_input_layout := by
  unfold build_shaders_and_input_layout
  repeat' (with_reducible first
    | refine fence_steps_bind1 fence_steps_flush_command_queue (fun _ => ?_)
    | refine fence_steps_bind0 ?_ (fun _ => ?_)
    | exact fence_steps_pure _
    | exact fence_steps_throw _
    | exact fence_steps_getW
    | exact fence_steps_check_hresult _
    | exact fence_steps_cassert _
    | exact fence_steps_deref _
    | exact fence_steps_api_void _
    | exact fence_steps_api_hr _
    | exact fence_steps_EndDraw
    | exact fence_steps_current_back_buffer
    | exact fence_steps_ResourceBarrier _ _ _
    | exact fence_steps_CreateCommittedResource _ _ _ _ _
    | exact fence_steps_ReleaseWrappedResources
    | exact fence_steps_d3d_util_call _
    | exact fence_steps_modifyW _ (fun _ => rfl)
    | exact fence_steps_api_void_with _ _ (fun _ => rfl)
    | exact fence_steps_api_hr_with _ _ (fun _ => rfl)
    | exact fence_steps_flush_command_queue
    | apply fence_steps_ite)

theorem fence_steps_make_geo : FenceSteps 0 make_geo := by
  unfold make_geo
  repeat' (with_reducible first
    | refine fence_steps_bind1 fence_steps_flush_command_queue (fun _ => ?_)
    | refine fence_steps_bind0 ?_ (fun _ => ?_)
    | exact fence_steps_pure _
    | exact fence_steps_throw _
    | exact fence_steps_getW
    | exact fence_steps_check_hresult _
    | exact fence_steps_cassert _
    | exact fence_steps_deref _
    | exact fence_steps_api_void _
    | exact fence_steps_api_hr _
    | exact fence_steps_EndDraw
    | exact fence_steps_current_back_buffer
    | exact fence_steps_ResourceBarrier _ _ _
    | exact fence_steps_CreateCommittedResource _ _ _ _ _
    | exact fence_steps_ReleaseWrappedResources
    | exact fence_steps_d3d_util_call _
    | exact fence_steps_modifyW _ (fun _ => rfl)
    | exact fence_steps_api_void_with _ _ (fun _ => rfl)
    | exact fence_steps_api_hr_with _ _ (fun _ => rfl)
    | exact fence_steps_flush_command_queue
    | apply fence_steps_ite)

theorem fence_steps_build_pso : FenceSteps 0 build_pso := by
  unfold build_pso
  repeat' (with_reducible first
    | refine fence_steps_bind1 fence_steps_flush_command_queue (fun _ => ?_)
    | refine fence_steps_bind0 ?_ (fun _ => ?_)
    | exact fence_steps_pure _
    | exact fence_steps_throw _
    | exact fence_steps_getW
    | exact fence_steps_check_hresult _
    | exact fence_steps_cassert _
    | exact fence_steps_deref _
    | exact fence_steps_api_void _
    | exact fence_steps_api_hr _
    | exact fence_steps_EndDraw
    | exact fence_steps_current_back_buffer
    | exact fence_steps_ResourceBarrier _ _ _
    | exact fence_steps_CreateCommittedResource _ _ _ _ _
    | exact fence_steps_ReleaseWrappedResources
    | exact fence_steps_d3d_util_call _
    | exact fence_steps_modifyW _ (fun _ => rfl)
    | exact fence_steps_api_void_with _ _ (fun _ => rfl)
    | exact fence_steps_api_hr_with _ _ (fun _ => rfl)
    | exact fence_steps_flush_command_queue
    | apply fence_steps_ite)

theorem fence_steps_draw_on_texture : FenceSteps 0 draw_on_texture := by
  unfold draw_on_texture CreateWrappedResource AcquireWrappedResources BeginDraw
  repeat' (with_reducible first
    | refine fence_steps_bind1 fence_steps_flush_command_queue (fun _ => ?_)
    | refine fence_steps_bind0 ?_ (fun _ => ?_)
    | exact fence_steps_pure _
    | exact fence_steps_throw _
    | exact fence_steps_getW
    | exact fence_steps_check_hresult _
    | exact fence_steps_cassert _
    | exact fence_steps_deref _
    | exact fence_steps_api_void _
    | exact fence_steps_api_hr _
    | exact fence_steps_EndDraw
    | exact fence_steps_current_back_buffer
    | exact fence_steps_ResourceBarrier _ _ _
    | exact fence_steps_CreateCommittedResource _ _ _ _ _
    | exact fence_steps_ReleaseWrappedResources
    | exact fence_steps_d3d_util_call _
    | exact fence_steps_modifyW _ (fun _ => rfl)
    | exact fence_steps_api_void_with _ _ (fun _ => rfl)
    | exact fence_steps_api_hr_with _ _ (fun _ => rfl)
    | exact fence_steps_flush_command_queue
    | apply fence_steps_ite)

theorem fence_steps_load_textures : FenceSteps 0 load_textures := by
  unfold load_textures ResourceUploadBatch_End future_wait
  repeat' (with_reducible first
    | refine fence_steps_bind1 fence_steps_flush_command_queue (fun _ => ?_)
    | refine fence_steps_bind0 ?_ (fun _ => ?_)
    | exact fence_steps_pure _
    | exact fence_steps_throw _
    | exact fence_steps_getW
    | exact fence_steps_check_hresult _
    | exact fence_steps_cassert _
    | exact fence_steps_deref _
    | exact fence_steps_api_void _
    | exact fence_steps_api_hr _
    | exact fence_steps_EndDraw
    | exact fence_steps_current_back_buffer
    | exact fence_steps_ResourceBarrier _ _ _
    | exact fence_steps_CreateCommittedResource _ _ _ _ _
    | exact fence_steps_ReleaseWrappedResources
    | exact fence_steps_d3d_util_call _
    | exact fence_steps_modifyW _ (fun _ => rfl)
    | exact fence_steps_api_void_with _ _ (fun _ => rfl)
    | exact fence_steps_api_hr_with _ _ (fun _ => rfl)
    | exact fence_steps_flush_command_queue
    | exact fence_steps_draw_on_texture
    | apply fence_steps_ite)

theorem fence_steps_init_directx : FenceSteps 1 init_directx := by
  unfold init_directx ExecuteCommandLists
  repeat' (with_reducible first
    | refine fence_steps_bind1 fence_steps_flush_command_queue (fun _ => ?_)
    | refine fence_steps_bind0 ?_ (fun _ => ?_)
    | exact fence_steps_pure _
    | exact fence_steps_throw _
    | exact fence_steps_getW
    | exact fence_steps_check_hresult _
    | exact fence_steps_cassert _
    | exact fence_steps_deref _
    | exact fence_steps_api_void _
    | exact fence_steps_api_hr _
    | exact fence_steps_EndDraw
    | exact fence_steps_current_back_buffer
    | exact fence_steps_ResourceBarrier _ _ _
    | exact fence_steps_CreateCommittedResource _ _ _ _ _
    | exact fence_steps_ReleaseWrappedResources
    | exact fence_steps_d3d_util_call _
    | exact fence_steps_modifyW _ (fun _ => rfl)
    | exact fence_steps_api_void_with _ _ (fun _ => rfl)
    | exact fence_steps_api_hr_with _ _ (fun _ => rfl)
    | exact fence_steps_flush_command_queue
    | exact fence_steps_create_d2d_factory
    | exact fence_steps_create_debug_layer
    | exact fence_steps_create_dxgi_factory
    | exact fence_steps_create_d3d12_device
    | exact fence_steps_create_fence
    | exact fence_steps_get_descriptor_sizes
    | exact fence_steps_check_msaa_support
    | exact fence_steps_create_command_objects
    | exact fence_steps_create_swap_chain
    | exact fence_steps_create_rtv_and_dsv_descriptor_heaps
    | exact fence_steps_build_descriptor_heaps
    | exact fence_steps_build_constant_buffers
    | exact fence_steps_build_root_signature
    | exact fence_steps_build_shaders_and_input_layout
    | exact fence_steps_make_geo
    | exact fence_steps_build_pso
    | exact fence_steps_load_textures
    | apply fence_steps_ite)

theorem fence_steps_on_resize_views (n i h : Nat) : FenceSteps 0 (on_resize_views n i h) := by
  induction n generalizing i h with
  | zero => exact fence_steps_pure _
  | succ n ih =>
    unfold on_resize_views
    refine fence_steps_bind0 (fence_steps_api_hr_with _ _ (fun _ => rfl)) (fun _ => ?_)
    refine fence_steps_bind0 (fence_steps_check_hresult _) (fun _ => ?_)
    refine fence_steps_bind0 (fence_steps_api_void _) (fun _ => ?_)
    refine fence_steps_bind0 fence_steps_getW (fun _ => ?_)
    exact ih _ _

theorem fence_steps_on_resize : FenceSteps 2 on_resize := by
  unfold on_resize ExecuteCommandLists
  repeat' (with_reducible first
    | refine fence_steps_bind1 fence_steps_flush_command_queue (fun _ => ?_)
    | refine fence_steps_bind0 ?_ (fun _ => ?_)
    | exact fence_steps_pure _
    | exact fence_steps_throw _
    | exact fence_steps_getW
    | exact fence_steps_check_hresult _
    | exact fence_steps_cassert _
    | exact fence_steps_deref _
    | exact fence_steps_api_void _
    | exact fence_steps_api_hr _
    | exact fence_steps_EndDraw
    | exact fence_steps_current_back_buffer
    | exact fence_steps_ResourceBarrier _ _ _
    | exact fence_steps_CreateCommittedResource _ _ _ _ _
    | exact fence_steps_ReleaseWrappedResources
    | exact fence_steps_d3d_util_call _
    | exact fence_steps_modifyW _ (fun _ => rfl)
    | exact fence_steps_api_void_with _ _ (fun _ => rfl)
    | exact fence_steps_api_hr_with _ _ (fun _ => rfl)
    | exact fence_steps_flush_command_queue
    | exact fence_steps_on_resize_views _ _ _
    | apply fence_steps_ite)

theorem fence_steps_draw : FenceSteps 1 draw := by
  unfold draw ExecuteCommandLists Present
  repeat' (with_reducible first
    | refine fence_steps_bind1 fence_steps_flush_command_queue (fun _ => ?_)
    | refine fence_steps_bind0 ?_ (fun _ => ?_)
    | exact fence_steps_pure _
    | exact fence_steps_throw _
    | exact fence_steps_getW
    | exact fence_steps_check_hresult _
    | exact fence_steps_cassert _
    | exact fence_steps_deref _
    | exact fence_steps_api_void _
    | exact fence_steps_api_hr _
    | exact fence_steps_EndDraw
    | exact fence_steps_current_back_buffer
    | exact fence_steps_ResourceBarrier _ _ _
    | exact fence_steps_CreateCommittedResource _ _ _ _ _
    | exact fence_steps_ReleaseWrappedResources
    | exact fence_steps_d3d_util_call _
    | exact fence_steps_modifyW _ (fun _ => rfl)
    | exact fence_steps_api_void_with _ _ (fun _ => rfl)
    | exact fence_steps_api_hr_with _ _ (fun _ => rfl)
    | exact fence_steps_flush_command_queue
    | apply fence_steps_ite)

/-! ## `draw` -/

theorem draw_ok {w w1 : World} (h : draw w = (Except.ok (), w1)) :
    ∃ geo read q c fs ev,
      w.m_geo = some geo ∧
      (0 ≤ w.m_curr_back_buffer ∧ w.m_curr_back_buffer < SwapChainBufferCount) ∧
      w1 = { w with
        m_needs_draw := false,
        m_current_fence := next_fence w.m_current_fence,
        m_curr_back_buffer := Int.tmod (w.m_curr_back_buffer + 1) SwapChainBufferCount,
        draw_count := (w.draw_count + 1) % UINT64_MOD,
        trace := w.trace ++ draw_events w geo ++
          flush_events w.m_command_queue (next_fence w.m_current_fence) read,
        faults := fs, sched := w.sched.tail, queue := q, completed := c, event_target := ev,
        back_buffer_state :=
          (w.back_buffer_state.set w.m_curr_back_buffer.toNat ResourceState.RENDER_TARGET).set
            w.m_curr_back_buffer.toNat ResourceState.PRESENT } ∧
      next_fence w.m_current_fence ≤ c ∧
      (¬ read < next_fence w.m_current_fence → c = read) := by
  simp [draw, api_void, api_hr, ResourceBarrier, ExecuteCommandLists, Present,
    World.set_state] at h
  obtain ⟨h1, h2, hidx, geo, hgeo, h⟩ := h
  simp [hgeo, hidx] at h
  obtain ⟨h3, h4, h⟩ := h
  rw [bind_ok_iff] at h
  obtain ⟨u, w2, hfl, hlast⟩ := h
  obtain ⟨read, q, c, fs, ev, rfl, hc, hr⟩ := flush_command_queue_ok_frame hfl
  simp only [modifyW_apply, Prod.mk.injEq, true_and] at hlast
  subst hlast
  refine ⟨geo, read, q, c, fs, ev, hgeo, hidx, ?_, hc, hr⟩
  simp [draw_events, hgeo, current_back_buffer_view]

/-! ## Returning -/

/-- When no runtime call fails, `flush_command_queue` returns: the wait ends because the
signal it waits for is in the queue. -/
theorem flush_command_queue_returns (w : World) (hf : w.faults = []) :
    ∃ w1, flush_command_queue w = (Except.ok (), w1) ∧ w1.faults = [] := by
  simp only [flush_command_queue, Signal, CreateEventEx, SetEventOnCompletion, CloseHandle,
    modifyW_bind_apply, getW_bind_apply, api_hr_with_bind_apply, check_hresult_bind_apply,
    GetCompletedValue_bind_apply, bind_assoc_apply, hf, next_failed, List.tail_nil]
  simp only [Bool.false_eq_true, if_false]
  split
  · rename_i hlt
    simp only [api_void_with_bind_apply, getW_bind_apply, api_hr_with_bind_apply,
      check_hresult_bind_apply, api_void_with_apply, next_failed, List.tail_nil,
      Bool.false_eq_true, if_false, WaitForSingleObject_bind_apply]
    rcases gpu_retire_signal ((w.m_current_fence + 1) % UINT64_MOD) (next_retired w.sched)
      w.queue w.completed with hall | ⟨q1, hq1⟩
    · rw [hall] at hlt
      exact absurd hlt (Nat.lt_irrefl _)
    · obtain ⟨r, hr⟩ := gpu_run_until_signal ((w.m_current_fence + 1) % UINT64_MOD) q1
        (gpu_retire (next_retired w.sched)
          (w.queue ++ [QueueItem.signal ((w.m_current_fence + 1) % UINT64_MOD)]) w.completed).2
      simp only [hq1, hr]
      exact ⟨_, rfl, rfl⟩
  · exact ⟨_, rfl, rfl⟩

theorem flush_then_returns (g : World → World) (hg : ∀ v : World, (g v).faults = v.faults)
    (w : World) (hf : w.faults = []) :
    ∃ w1, (flush_command_queue >>= fun _ => modifyW g) w = (Except.ok (), w1) ∧
      w1.faults = [] := by
  obtain ⟨w2, h2, hf2⟩ := flush_command_queue_returns w hf
  refine ⟨g w2, ?_, ?_⟩
  · rw [bind_apply, h2]
    rfl
  · rw [hg, hf2]

/-- When no runtime call fails, the back-buffer index is in range and the mesh exists,
`draw` returns. -/
theorem draw_returns (w : World) (hf : w.faults = [])
    (hidx : 0 ≤ w.m_curr_back_buffer ∧ w.m_curr_back_buffer < SwapChainBufferCount)
    (geo : MeshGeometry) (hgeo : w.m_geo = some geo) :
    ∃ w1, draw w = (Except.ok (), w1) ∧ w1.faults = [] := by
  simp [draw, api_void, api_hr, ResourceBarrier, ExecuteCommandLists, Present,
    World.set_state, hf, hgeo, hidx, next_failed]
  apply flush_then_returns
  · intro v
    rfl
  · rfl

/-! ## `draw_on_texture` -/

theorem draw_on_texture_ok {w w1 : World} (h : draw_on_texture w = (Except.ok (), w1)) :
    w1 = { w with
      m_d11_texture := some { in_state := ResourceState.RENDER_TARGET,
                              out_state := ResourceState.PRESENT, acquired := false },
      trace := w.trace ++ draw_on_texture_events w.m_command_queue,
      faults := w.faults.tail.tail.tail.tail.tail.tail.tail.tail.tail,
      texture_state := some ResourceState.PRESENT,
      drawing := false } := by
  simp [draw_on_texture, api_void, api_hr, CreateCommittedResource, CreateWrappedResource,
    AcquireWrappedResources, BeginDraw, ReleaseWrappedResources, World.set_state] at h
  obtain ⟨_, _, _, _, _, _, _, rfl⟩ := h
  simp [draw_on_texture_events]

theorem draw_on_texture_returns (w : World) (hf : w.faults = []) :
    ∃ w1, draw_on_texture w = (Except.ok (), w1) ∧ w1.faults = [] := by
  simp [draw_on_texture, api_void, api_hr, CreateCommittedResource, CreateWrappedResource,
    AcquireWrappedResources, BeginDraw, ReleaseWrappedResources, World.set_state, hf,
    next_failed]

/-! ## `init_directx` -/

theorem create_d3d12_device_bind_ok_iff {β : Type} (f : Unit → M β) (w w2 : World) (b : β) :
    (create_d3d12_device >>= f) w = (Except.ok b, w2) ↔
      ∃ warp : Bool,
        next_failed w.faults = warp ∧
        (warp = true →
          next_failed w.faults.tail = false ∧ next_failed w.faults.tail.tail = false) ∧
        f () { w with
          m_device := true,
          trace := w.trace ++ create_d3d12_device_events warp,
          faults := if warp then w.faults.tail.tail.tail else w.faults.tail } =
          (Except.ok b, w2) := by
  by_cases h : next_failed w.faults = true
  · simp [create_d3d12_device, api_hr, h, create_d3d12_device_events, and_assoc]
  · simp [create_d3d12_device, api_hr, h, create_d3d12_device_events]

theorem init_directx_ok {w w1 : World} (h : init_directx w = (Except.ok (), w1)) :
    ∃ warp read q c fs ev,
      w1 = { w with
        m_device := true, m_swap_chain := true, m_direct_cmd_list_alloc := true,
        m_command_queue := w.dev_command_queue,
        m_current_fence := next_fence w.m_current_fence,
        m_rtv_desc_size := w.dev_rtv_increment % UINT32_MOD,
        m_dsv_desc_size := w.dev_dsv_increment % UINT32_MOD,
        m_cbv_srv_uav_desc_size := w.dev_cbv_srv_uav_increment % UINT32_MOD,
        m_4x_msaa_quality := w.dev_num_quality_levels % UINT32_MOD,
        m_geo := some square_geo,
        m_input_layout := square_input_layout,
        m_texture1 := true, m_texture2 := true,
        m_d11_texture := some { in_state := ResourceState.RENDER_TARGET,
                                out_state := ResourceState.PRESENT, acquired := false },
        trace := w.trace ++ init_directx_events w warp ++
          flush_events w.dev_command_queue (next_fence w.m_current_fence) read,
        faults := fs, sched := w.sched.tail, queue := q, completed := c, event_target := ev,
        texture_state := some ResourceState.PRESENT,
        drawing := false } ∧
      next_fence w.m_current_fence ≤ c ∧
      (¬ read < next_fence w.m_current_fence → c = read) := by
  simp [init_directx, create_d2d_factory, create_debug_layer, create_dxgi_factory,
    create_d3d12_device_bind_ok_iff, create_fence, get_descriptor_sizes, check_msaa_support,
    create_command_objects, create_swap_chain, create_rtv_and_dsv_descriptor_heaps,
    load_textures, build_descriptor_heaps, build_constant_buffers, build_root_signature,
    build_shaders_and_input_layout, make_geo, build_pso, d3d_util_call,
    draw_on_texture, api_void, api_hr, CreateCommittedResource, CreateWrappedResource,
    AcquireWrappedResources, BeginDraw, ReleaseWrappedResources, World.set_state,
    ResourceUploadBatch_End, future_wait, ExecuteCommandLists, use_texture_from_file] at h
  by_cases hw : next_failed w.faults.tail.tail.tail = true
  · simp [hw] at h
    repeat (obtain ⟨-, h⟩ := h)
    obtain ⟨read, q, c, fs, ev, rfl, hc, hr⟩ := flush_command_queue_ok_frame h
    refine ⟨true, read, q, c, fs, ev, ?_, hc, hr⟩
    congr 1
    simp only [init_directx_events, draw_on_texture_events, create_d3d12_device_events,
      List.append_assoc, List.cons_append, List.nil_append, zero_add, one_mul, if_true,
      Bool.false_eq_true, if_false]
    rfl
  · simp [hw] at h
    repeat (obtain ⟨-, h⟩ := h)
    obtain ⟨read, q, c, fs, ev, rfl, hc, hr⟩ := flush_command_queue_ok_frame h
    refine ⟨false, read, q, c, fs, ev, ?_, hc, hr⟩
    congr 1
    simp only [init_directx_events, draw_on_texture_events, create_d3d12_device_events,
      List.append_assoc, List.cons_append, List.nil_append, zero_add, one_mul, if_true,
      Bool.false_eq_true, if_false]
    rfl

/-! ## `on_resize` -/

theorem on_resize_ok {w w1 : World} (h : on_resize w = (Except.ok (), w1)) :
    ∃ read1 read2 q c fs ev,
      (w.m_device = true ∧ w.m_swap_chain = true ∧ w.m_direct_cmd_list_alloc = true) ∧
      w1 = { w with
        m_current_fence := next_fence (next_fence w.m_current_fence),
        m_curr_back_buffer := 0,
        m_screen_viewport :=
          ⟨0, 0, static_cast_float w.m_client_width, static_cast_float w.m_client_height, 0, 1⟩,
        m_scissor_rect := ⟨0, 0, w.m_client_width, w.m_client_height⟩,
        trace := w.trace ++ flush_events w.m_command_queue (next_fence w.m_current_fence) read1 ++
          on_resize_events w ++
          flush_events w.m_command_queue (next_fence (next_fence w.m_current_fence)) read2,
        faults := fs, sched := w.sched.tail.tail, queue := q, completed := c,
        event_target := ev,
        back_buffer_state := [ResourceState.PRESENT, ResourceState.PRESENT],
        depth_stencil_state := some ResourceState.DEPTH_WRITE } ∧
      next_fence (next_fence w.m_current_fence) ≤ c ∧
      (¬ read2 < next_fence (next_fence w.m_current_fence) → c = read2) := by
  simp [on_resize] at h
  obtain ⟨hd, hs, ha, h⟩ := h
  rw [bind_ok_iff] at h
  obtain ⟨u, w2, hfl, h⟩ := h
  obtain ⟨read1, q1, c1, fs1, ev1, rfl, -, -⟩ := flush_command_queue_ok_frame hfl
  simp [api_hr, api_void, on_resize_views, SwapChainBufferCount, CreateCommittedResource,
    ResourceBarrier, ExecuteCommandLists, World.set_state] at h
  repeat (obtain ⟨-, h⟩ := h)
  rw [bind_ok_iff] at h
  obtain ⟨u2, w3, hfl2, h⟩ := h
  obtain ⟨read2, q, c, fs, ev, rfl, hc, hr⟩ := flush_command_queue_ok_frame hfl2
  simp only [modifyW_bind_apply, modifyW_apply, Prod.mk.injEq, true_and] at h
  subst h
  refine ⟨read1, read2, q, c, fs, ev, ⟨hd, hs, ha⟩, ?_, hc, hr⟩
  congr 1
  simp only [on_resize_events, List.append_assoc, List.cons_append, List.nil_append, zero_add,
    one_mul, SwapChainBufferCount]
  rfl

/-- When no runtime call fails, a flush followed by a continuation that returns from every
world without pending failure returns. -/
theorem flush_bind_returns {β : Type} (f : Unit → M β) (w : World) (hf : w.faults = [])
    (hk : ∀ w2 : World, w2.faults = [] → ∃ w1 b, f () w2 = (Except.ok b, w1) ∧ w1.faults = []) :
    ∃ w1 b, (flush_command_queue >>= f) w = (Except.ok b, w1) ∧ w1.faults = [] := by
  obtain ⟨w2, h2, hf2⟩ := flush_command_queue_returns w hf
  obtain ⟨w1, b, h1, hf1⟩ := hk w2 hf2
  refine ⟨w1, b, ?_, hf1⟩
  rw [bind_apply, h2]
  exact h1

/-- When no runtime call fails and the device reports a 4x MSAA quality level,
`init_directx` returns. -/
theorem init_directx_returns (w : World) (hf : w.faults = [])
    (hq : 0 < w.dev_num_quality_levels % UINT32_MOD) :
    ∃ w1, init_directx w = (Except.ok (), w1) ∧ w1.faults = [] := by
  simp [init_directx, create_d2d_factory, create_debug_layer, create_dxgi_factory,
    create_d3d12_device, create_fence, get_descriptor_sizes, check_msaa_support,
    create_command_objects, create_swap_chain, create_rtv_and_dsv_descriptor_heaps,
    load_textures, build_descriptor_heaps, build_constant_buffers, build_root_signature,
    build_shaders_and_input_layout, make_geo, build_pso, d3d_util_call,
    draw_on_texture, api_void, api_hr, CreateCommittedResource, CreateWrappedResource,
    AcquireWrappedResources, BeginDraw, ReleaseWrappedResources, World.set_state,
    ResourceUploadBatch_End, future_wait, ExecuteCommandLists, use_texture_from_file,
    hf, next_failed, hq]
  apply flush_command_queue_returns
  rfl

/-- When no runtime call fails and the device, swap chain and allocator exist, `on_resize`
returns. -/
theorem on_resize_returns (w : World) (hf : w.faults = [])
    (hd : w.m_device = true) (hs : w.m_swap_chain = true)
    (ha : w.m_direct_cmd_list_alloc = true) :
    ∃ w1, on_resize w = (Except.ok (), w1) ∧ w1.faults = [] := by
  have key : ∃ w1 b, on_resize w = (Except.ok b, w1) ∧ w1.faults = [] := by
    simp only [on_resize, getW_bind_apply, cassert_bind_apply, hd, hs, ha, if_true]
    apply flush_bind_returns _ _ hf
    intro w2 hf2
    simp [api_hr, api_void, on_resize_views, SwapChainBufferCount, CreateCommittedResource,
      ResourceBarrier, ExecuteCommandLists, World.set_state, hf2, next_failed]
    refine (fun ⟨w1, b, h1, hf1⟩ => ⟨w1, ⟨b, h1⟩, hf1⟩) (flush_bind_returns _ _ ?_ ?_)
    · simp [hf2]
    · intro w3 hf3
      exact ⟨_, (), rfl, hf3⟩
  obtain ⟨w1, b, h1, hf1⟩ := key
  exact ⟨w1, h1, hf1⟩

/-! ## Runs at concrete worlds -/

theorem eq_of_returned {α : Type} (x : Except Err α × World) (a : α)
    (h : returned x = some a) : x = (Except.ok a, x.2) := by
  rcases x with ⟨r, w⟩
  cases r with
  | error e => simp [returned] at h
  | ok b =>
    simp only [returned, Option.some.injEq] at h
    rw [h]

/-! ## The back-buffer index -/

theorem draw_index {w w1 : World} (h : draw w = (Except.ok (), w1)) :
    (w.m_curr_back_buffer = 0 ∧ w1.m_curr_back_buffer = 1) ∨
    (w.m_curr_back_buffer = 1 ∧ w1.m_curr_back_buffer = 0) := by
  obtain ⟨geo, read, q, c, fs, ev, -, hidx, rfl, -, -⟩ := draw_ok h
  simp only [SwapChainBufferCount] at hidx ⊢
  have h01 : w.m_curr_back_buffer = 0 ∨ w.m_curr_back_buffer = 1 := by omega
  rcases h01 with h0 | h1
  · left
    rw [h0]
    exact ⟨rfl, rfl⟩
  · right
    rw [h1]
    exact ⟨rfl, rfl⟩

theorem draw_keeps_geo {w w1 : World} (h : draw w = (Except.ok (), w1)) :
    w1.m_geo = w.m_geo := by
  obtain ⟨geo, read, q, c, fs, ev, -, -, rfl, -, -⟩ := draw_ok h
  rfl

theorem draw_frames_succ_ok {n : Nat} {w w2 : World} {used : List Int}
    (h : draw_frames (n + 1) w = (Except.ok used, w2)) :
    ∃ w1 rest, draw w = (Except.ok (), w1) ∧ draw_frames n w1 = (Except.ok rest, w2) ∧
      used = w.m_curr_back_buffer :: rest := by
  simp only [draw_frames, getW_bind_apply] at h
  rw [bind_ok_iff] at h
  obtain ⟨u, w1, hd, h⟩ := h
  rw [bind_ok_iff] at h
  obtain ⟨rest, w3, hr, h⟩ := h
  simp only [pure_apply, Prod.mk.injEq, Except.ok.injEq] at h
  obtain ⟨h1, h2⟩ := h
  subst h2
  exact ⟨w1, rest, hd, hr, h1.symm⟩

theorem draw_frames_index (n : Nat) : ∀ (w w1 : World) (used : List Int),
    (w.m_curr_back_buffer = 0 ∨ w.m_curr_back_buffer = 1) →
    draw_frames n w = (Except.ok used, w1) →
    used = (List.range n).map (fun (k : Nat) => (w.m_curr_back_buffer + (k : Int)) % 2) := by
  induction n with
  | zero =>
    intro w w1 used _ h
    simp only [draw_frames, pure_apply, Prod.mk.injEq, Except.ok.injEq] at h
    rw [← h.1]
    rfl
  | succ n ih =>
    intro w w2 used hidx h
    obtain ⟨w1, rest, hd, hr, rfl⟩ := draw_frames_succ_ok h
    have hstep := draw_index hd
    have hidx1 : w1.m_curr_back_buffer = 0 ∨ w1.m_curr_back_buffer = 1 := by
      rcases hstep with ⟨-, h1⟩ | ⟨-, h1⟩
      · exact Or.inr h1
      · exact Or.inl h1
    rw [ih w1 w2 rest hidx1 hr, List.range_succ_eq_map, List.map_cons, List.map_map]
    congr 1
    · rcases hstep with ⟨h0, -⟩ | ⟨h0, -⟩ <;> rw [h0] <;> rfl
    · apply List.map_congr_left
      intro k _
      simp only [Function.comp_apply, Nat.succ_eq_add_one, Nat.cast_add, Nat.cast_one]
      rcases hstep with ⟨h0, h1⟩ | ⟨h0, h1⟩ <;> rw [h0, h1] <;> omega

theorem draw_frames_returns (n : Nat) : ∀ (w : World) (geo : MeshGeometry),
    w.faults = [] → (w.m_curr_back_buffer = 0 ∨ w.m_curr_back_buffer = 1) →
    w.m_geo = some geo →
    ∃ used w1, draw_frames n w = (Except.ok used, w1) := by
  induction n with
  | zero =>
    intro w geo _ _ _
    exact ⟨[], w, rfl⟩
  | succ n ih =>
    intro w geo hf hidx hgeo
    have hrange : 0 ≤ w.m_curr_back_buffer ∧ w.m_curr_back_buffer < SwapChainBufferCount := by
      simp only [SwapChainBufferCount]
      omega
    obtain ⟨w1, hd, hf1⟩ := draw_returns w hf hrange geo hgeo
    have hidx1 : w1.m_curr_back_buffer = 0 ∨ w1.m_curr_back_buffer = 1 := by
      rcases draw_index hd with ⟨-, h1⟩ | ⟨-, h1⟩
      · exact Or.inr h1
      · exact Or.inl h1
    obtain ⟨rest, w2, hr⟩ := ih w1 geo hf1 hidx1 ((draw_keeps_geo hd).trans hgeo)
    refine ⟨w.m_curr_back_buffer :: rest, w2, ?_⟩
    simp only [draw_frames, getW_bind_apply]
    rw [bind_apply, hd]
    simp only []
    rw [bind_apply, hr]
    rfl

/-- C1: one returning `draw` moves the back-buffer index to `(old index + 1) mod 2`; over
`n` consecutive draws that start at index 0, frame `k` uses index `k mod 2`, so the indices
alternate and no two consecutive frames use the same one; and such a run does return when no
runtime call fails and the mesh exists. -/
theorem back_buffer_index_alternates :
    (∀ w w1 : World, draw w = (Except.ok (), w1) →
      w1.m_curr_back_buffer = (w.m_curr_back_buffer + 1) % 2) ∧
    (∀ (n : Nat) (w w1 : World) (used : List Int), w.m_curr_back_buffer = 0 →
      draw_frames n w = (Except.ok used, w1) →
        used = (List.range n).map (fun (k : Nat) => ((k % 2 : Nat) : Int)) ∧
        List.Chain' (fun a b => a ≠ b) used) ∧
    (∀ (n : Nat) (w : World) (geo : MeshGeometry), w.faults = [] →
      w.m_curr_back_buffer = 0 → w.m_geo = some geo →
        ∃ used w1, draw_frames n w = (Except.ok used, w1)) := by
  refine ⟨?_, ?_, ?_⟩
  · intro w w1 h
    rcases draw_index h with ⟨h0, h1⟩ | ⟨h0, h1⟩ <;> rw [h0, h1] <;> rfl
  · intro n w w1 used h0 h
    have hu := draw_frames_index n w w1 used (Or.inl h0) h
    have hu2 : used = (List.range n).map (fun (k : Nat) => ((k % 2 : Nat) : Int)) := by
      rw [hu]
      apply List.map_congr_left
      intro k _
      rw [h0]
      omega
    refine ⟨hu2, ?_⟩
    rw [hu2, List.chain'_map]
    cases n with
    | zero => simp
    | succ m =>
      rw [List.chain'_range_succ]
      intro k _
      omega
  · intro n w geo hf h0 hgeo
    exact draw_frames_returns n w geo hf (Or.inl h0) hgeo

/-- C1 (witness): from the ready world the first draw moves the index from 0 to 1, and four
draws in a row use the indices 0, 1, 0, 1. -/
theorem back_buffer_index_alternates_witness :
    (draw world_ready).2.m_curr_back_buffer = (world_ready.m_curr_back_buffer + 1) % 2 ∧
    [0, 1, 0, 1] = (List.range 4).map (fun (k : Nat) => ((k % 2 : Nat) : Int)) ∧
    (∃ used w1, draw_frames 4 world_ready = (Except.ok used, w1)) :=
  ⟨back_buffer_index_alternates.1 world_ready _ (eq_of_returned _ () (by decide!)),
   (back_buffer_index_alternates.2.1 4 world_ready _ [0, 1, 0, 1] (by decide!)
      (eq_of_returned _ _ (by decide!))).1,
   back_buffer_index_alternates.2.2 4 world_ready square_geo (by decide!) (by decide!)
      (by decide!)⟩

/-! ## The fence checkpoint -/

theorem next_fence_iterate (j f : Nat) (h : f + j < UINT64_MOD) :
    next_fence^[j] f = f + j := by
  induction j with
  | zero => rfl
  | succ j ih =>
    rw [Function.iterate_succ_apply', ih (by omega), next_fence]
    exact Nat.mod_eq_of_lt (by omega)

theorem fence_steps_bounds {α : Type} {k : Nat} {m : M α} (hm : FenceSteps k m) (w : World)
    (h : w.m_current_fence + k < UINT64_MOD) :
    w.m_current_fence ≤ (m w).2.m_current_fence ∧
      (m w).2.m_current_fence ≤ w.m_current_fence + k := by
  obtain ⟨j, hj, hfence⟩ := hm w
  rw [hfence, next_fence_iterate j w.m_current_fence (by omega)]
  omega

/-- C2 (counterexample): with the checkpoint at the largest `UINT64` value,
`flush_command_queue` returns and leaves the checkpoint at 0, which is not greater than
before. -/
theorem checkpoint_wraps_to_zero :
    world_fence_max.m_current_fence = 18446744073709551615 ∧
    returned (flush_command_queue world_fence_max) = some () ∧
    (flush_command_queue world_fence_max).2.m_current_fence = 0 ∧
    ¬ world_fence_max.m_current_fence <
        (flush_command_queue world_fence_max).2.m_current_fence := by
  decide!

/-- C2 (amended): the checkpoint starts at 0; below the largest `UINT64` value every
`flush_command_queue`, returning or throwing, leaves it exactly one higher; and as long as
it cannot wrap, `init_directx`, `on_resize` and `draw` never lower it on any path (they
raise it by at most 1, 2 and 1), while `draw_on_texture` never changes it. -/
theorem checkpoint_increases_without_wrap :
    (∀ (f : List Bool) (s : List Nat) (rtv dsv cbv l q : Nat) (m : List Nat),
      (World.init f s rtv dsv cbv l q m).m_current_fence = 0) ∧
    (∀ w : World, w.m_current_fence + 1 < UINT64_MOD →
      (flush_command_queue w).2.m_current_fence = w.m_current_fence + 1) ∧
    (∀ w : World, w.m_current_fence + 1 < UINT64_MOD →
      w.m_current_fence ≤ (init_directx w).2.m_current_fence ∧
      (init_directx w).2.m_current_fence ≤ w.m_current_fence + 1) ∧
    (∀ w : World, w.m_current_fence + 2 < UINT64_MOD →
      w.m_current_fence ≤ (on_resize w).2.m_current_fence ∧
      (on_resize w).2.m_current_fence ≤ w.m_current_fence + 2) ∧
    (∀ w : World, w.m_current_fence + 1 < UINT64_MOD →
      w.m_current_fence ≤ (draw w).2.m_current_fence ∧
      (draw w).2.m_current_fence ≤ w.m_current_fence + 1) ∧
    (∀ w : World, (draw_on_texture w).2.m_current_fence = w.m_current_fence) := by
  refine ⟨fun _ _ _ _ _ _ _ _ => rfl, ?_, ?_, ?_, ?_, ?_⟩
  · intro w h
    rw [flush_command_queue_fence, next_fence]
    exact Nat.mod_eq_of_lt h
  · intro w h
    exact fence_steps_bounds fence_steps_init_directx w h
  · intro w h
    exact fence_steps_bounds fence_steps_on_resize w h
  · intro w h
    exact fence_steps_bounds fence_steps_draw w h
  · intro w
    obtain ⟨j, hj, hfence⟩ := fence_steps_draw_on_texture w
    have hj0 : j = 0 := by omega
    rw [hfence, hj0]
    rfl

/-- C2 (witness): from the started world, whose checkpoint is 1, a flush leaves it at 2 and
`on_resize` leaves it between 1 and 3. -/
theorem checkpoint_increases_without_wrap_witness :
    (flush_command_queue world_started).2.m_current_fence =
      world_started.m_current_fence + 1 ∧
    (world_started.m_current_fence ≤ (on_resize world_started).2.m_current_fence ∧
      (on_resize world_started).2.m_current_fence ≤ world_started.m_current_fence + 2) :=
  ⟨checkpoint_increases_without_wrap.2.1 world_started (by decide!),
   checkpoint_increases_without_wrap.2.2.2.1 world_started (by decide!)⟩

/-! ## `flush_command_queue`: what it waits for -/

/-- C3: when `flush_command_queue` returns, it has signalled the new checkpoint, and the
fence's completed value has reached that checkpoint, whether the call had to wait (the
completed value it read was below the checkpoint) or not. -/
theorem flush_completed_reaches_checkpoint (w w1 : World)
    (h : flush_command_queue w = (Except.ok (), w1)) :
    w1.m_current_fence = next_fence w.m_current_fence ∧
    w1.trace = w.trace ++
      flush_events w.m_command_queue w1.m_current_fence (flush_read w) ∧
    w1.m_current_fence ≤ w1.completed := by
  obtain ⟨q, c, rfl, hc, -⟩ := flush_command_queue_ok h
  exact ⟨rfl, rfl, hc⟩

/-- C3 (witness): from the started world the flush signals 2, reads 1, waits, and returns
with the completed value at 2. -/
theorem flush_completed_reaches_checkpoint_witness :
    (flush_command_queue world_started).2.m_current_fence =
      next_fence world_started.m_current_fence ∧
    (flush_command_queue world_started).2.trace = world_started.trace ++
      flush_events world_started.m_command_queue
        (flush_command_queue world_started).2.m_current_fence (flush_read world_started) ∧
    (flush_command_queue world_started).2.m_current_fence ≤
      (flush_command_queue world_started).2.completed :=
  flush_completed_reaches_checkpoint world_started _ (eq_of_returned _ () (by decide!))

/-- On every path, the first call `flush_command_queue` logs is the `Signal` of the new
checkpoint on the command queue. -/
theorem flush_command_queue_signals_first (w : World) :
    ∃ rest, (flush_command_queue w).2.trace =
      w.trace ++ Api.Signal w.m_command_queue (next_fence w.m_current_fence) :: rest := by
  simp only [flush_command_queue, Signal, CreateEventEx, SetEventOnCompletion, CloseHandle,
    modifyW_bind_apply, getW_bind_apply, api_hr_with_bind_apply, check_hresult_bind_apply,
    GetCompletedValue_bind_apply, bind_assoc_apply]
  by_cases h1 : next_failed w.faults = true
  · exact ⟨[], by simp [h1, next_fence]⟩
  · simp only [h1]
    simp only [Bool.false_eq_true, if_false]
    split
    · simp only [api_void_with_bind_apply, getW_bind_apply, api_hr_with_bind_apply,
        check_hresult_bind_apply, WaitForSingleObject_bind_apply, api_void_with_apply]
      split
      · exact ⟨_, by simp [next_fence]; rfl⟩
      · simp only [Bool.false_eq_true, if_false]
        split
        · exact ⟨_, by simp [next_fence]; rfl⟩
        · exact ⟨_, by simp [next_fence]; rfl⟩
    · exact ⟨_, by simp [next_fence]; rfl⟩

/-- C20: `flush_command_queue` always increments the checkpoint (as a `UINT64`) and first
calls `Signal` with the new value; when it returns, that signal was accepted by the queue,
and it has created an event and waited on it exactly when the completed value it read
after the signal was below the new checkpoint; otherwise it logged nothing after the
read. It does return when no runtime call fails. -/
theorem flush_waits_iff_behind (w : World) :
    (flush_command_queue w).2.m_current_fence = next_fence w.m_current_fence ∧
    (∃ rest, (flush_command_queue w).2.trace =
      w.trace ++ Api.Signal w.m_command_queue (next_fence w.m_current_fence) :: rest) ∧
    (∀ w1 : World, flush_command_queue w = (Except.ok (), w1) →
      next_failed w.faults = false ∧
      (flush_read w < next_fence w.m_current_fence →
        w1.trace = w.trace ++
          [ Api.Signal w.m_command_queue (next_fence w.m_current_fence),
            Api.GetCompletedValue (flush_read w),
            Api.CreateEventEx,
            Api.SetEventOnCompletion (next_fence w.m_current_fence),
            Api.WaitForSingleObject,
            Api.CloseHandle ]) ∧
      (¬ flush_read w < next_fence w.m_current_fence →
        w1.trace = w.trace ++
          [ Api.Signal w.m_command_queue (next_fence w.m_current_fence),
            Api.GetCompletedValue (flush_read w) ] ∧
        w1.completed = flush_read w)) ∧
    (w.faults = [] → ∃ w1, flush_command_queue w = (Except.ok (), w1)) := by
  refine ⟨flush_command_queue_fence w, flush_command_queue_signals_first w, ?_, ?_⟩
  · intro w1 h
    have hsig : next_failed w.faults = false := by
      simp [flush_command_queue, Signal] at h
      exact h.1
    obtain ⟨q, c, rfl, -, hr⟩ := flush_command_queue_ok h
    refine ⟨hsig, ?_, ?_⟩
    · intro hlt
      simp [flush_events, hlt]
    · intro hge
      exact ⟨by simp [flush_events, hge], hr hge⟩
  · intro hf
    obtain ⟨w1, h1, -⟩ := flush_command_queue_returns w hf
    exact ⟨w1, h1⟩

/-- C20 (witness): from the started world the flush reads 1, which is below the new
checkpoint 2, so it waits; and it returns. -/
theorem flush_waits_iff_behind_witness :
    flush_read world_started < next_fence world_started.m_current_fence ∧
    (∃ w1, flush_command_queue world_started = (Except.ok (), w1)) :=
  ⟨by decide!, (flush_waits_iff_behind world_started).2.2.2 (by decide!)⟩

/-! ## The shared texture and the draw pass -/

/-- C4 (counterexample): `init_directx` returns from the fresh world with the texture
wrapped with declared exit state `PRESENT` and left in that state; `PRESENT` is not the
shader-resource state. -/
theorem declared_exit_state_is_present :
    returned (init_directx world_fresh) = some () ∧
    (init_directx world_fresh).2.m_d11_texture =
      some { in_state := ResourceState.RENDER_TARGET, out_state := ResourceState.PRESENT,
             acquired := false } ∧
    (init_directx world_fresh).2.texture_state = some ResourceState.PRESENT ∧
    ResourceState.PRESENT ≠ ResourceState.SHADER_RESOURCE := by
  decide!

/-- C4 (amended): after a returning `draw_on_texture`, and after a returning `init_directx`
(which runs the pass exactly once), the texture's state equals the exit state declared
when it was wrapped, that declared exit state is `PRESENT`, and the texture is not left in
the render-target state. -/
theorem texture_left_in_declared_exit_state :
    (∀ w w1 : World, draw_on_texture w = (Except.ok (), w1) →
      ∃ r : WrappedResource, w1.m_d11_texture = some r ∧
        w1.texture_state = some r.out_state ∧
        r.out_state = ResourceState.PRESENT ∧
        w1.texture_state ≠ some ResourceState.RENDER_TARGET) ∧
    (∀ w w1 : World, init_directx w = (Except.ok (), w1) →
      ∃ (r : WrappedResource) (evs : List Api), w1.trace = w.trace ++ evs ∧
        evs.countP is_release = 1 ∧
        w1.m_d11_texture = some r ∧
        w1.texture_state = some r.out_state ∧
        r.out_state = ResourceState.PRESENT ∧
        w1.texture_state ≠ some ResourceState.RENDER_TARGET) := by
  constructor
  · intro w w1 h
    rw [draw_on_texture_ok h]
    exact ⟨_, rfl, rfl, rfl, by simp⟩
  · intro w w1 h
    obtain ⟨warp, read, q, c, fs, ev, rfl, -, -⟩ := init_directx_ok h
    refine ⟨_, _, by simp only [List.append_assoc]; rfl, ?_, rfl, rfl, rfl, by simp⟩
    cases warp <;> by_cases hlt : read < next_fence w.m_current_fence <;>
      simp [init_directx_events, create_d3d12_device_events, draw_on_texture_events,
        flush_events, hlt, is_release]

/-- C4 (witness): the pass run by `init_directx` from the fresh world. -/
theorem texture_left_in_declared_exit_state_witness :
    ∃ (r : WrappedResource) (evs : List Api),
      (init_directx world_fresh).2.trace = world_fresh.trace ++ evs ∧
      evs.countP is_release = 1 ∧
      (init_directx world_fresh).2.m_d11_texture = some r ∧
      (init_directx world_fresh).2.texture_state = some r.out_state ∧
      r.out_state = ResourceState.PRESENT ∧
      (init_directx world_fresh).2.texture_state ≠ some ResourceState.RENDER_TARGET :=
  texture_left_in_declared_exit_state.2 world_fresh _ (eq_of_returned _ () (by decide!))

/-- C6: the calls of a returning `draw_on_texture` on the wrapped texture are, in order,
acquire, begin_draw, one vector draw call, end_draw, release; the state machine of the spec
accepts them and goes Unacquired, Acquired, Drawing, Drawing, Acquired, Unacquired, so the
single acquire is matched by the single later release, begin_draw and end_draw are paired
inside the acquired span, the draw call lies between them, and the pass ends unacquired,
as does the program's own state. -/
theorem draw_pass_follows_state_machine (w w1 : World)
    (h : draw_on_texture w = (Except.ok (), w1)) :
    ∃ evs : List Api, w1.trace = w.trace ++ evs ∧
      evs.filterMap pass_call_of =
        [PassCall.acquire, PassCall.begin_draw, PassCall.draw_call, PassCall.end_draw,
         PassCall.release] ∧
      spec_pass_run PassState.Unacquired (evs.filterMap pass_call_of) =
        some [PassState.Unacquired, PassState.Acquired, PassState.Drawing, PassState.Drawing,
              PassState.Acquired, PassState.Unacquired] ∧
      w1.m_d11_texture.map (fun r => r.acquired) = some false ∧
      w1.drawing = false := by
  rw [draw_on_texture_ok h]
  exact ⟨_, rfl, rfl, rfl, rfl, rfl⟩

/-- C6 (witness): the draw pass from the started world. -/
theorem draw_pass_follows_state_machine_witness :
    ∃ evs : List Api, (draw_on_texture world_started).2.trace = world_started.trace ++ evs ∧
      evs.filterMap pass_call_of =
        [PassCall.acquire, PassCall.begin_draw, PassCall.draw_call, PassCall.end_draw,
         PassCall.release] ∧
      spec_pass_run PassState.Unacquired (evs.filterMap pass_call_of) =
        some [PassState.Unacquired, PassState.Acquired, PassState.Drawing, PassState.Drawing,
              PassState.Acquired, PassState.Unacquired] ∧
      (draw_on_texture world_started).2.m_d11_texture.map (fun r => r.acquired) = some false ∧
      (draw_on_texture world_started).2.drawing = false :=
  draw_pass_follows_state_machine world_started _ (eq_of_returned _ () (by decide!))

/-! ## The frame pipeline -/

/-- The calls a returning `draw` logs. -/
theorem draw_trace {w w1 : World} (h : draw w = (Except.ok (), w1)) :
    ∃ geo read, w.m_geo = some geo ∧
      w1.trace = w.trace ++
        (draw_events w geo ++
          flush_events w.m_command_queue (next_fence w.m_current_fence) read) := by
  obtain ⟨geo, read, q, c, fs, ev, hgeo, -, rfl, -, -⟩ := draw_ok h
  exact ⟨geo, read, hgeo, by simp only [List.append_assoc]⟩

theorem all_present_set (l : List ResourceState) (i : Nat)
    (h : ∀ s ∈ l, s = ResourceState.PRESENT) :
    ∀ s ∈ (l.set i ResourceState.RENDER_TARGET).set i ResourceState.PRESENT,
      s = ResourceState.PRESENT := by
  intro s hs
  rw [List.set_set] at hs
  rcases List.mem_or_eq_of_mem_set hs with h1 | h1
  · exact h s h1
  · exact h1

/-- C8: a returning `draw` records exactly two transition barriers, both on the back buffer
whose index is current at frame start: Present to RenderTarget before the two clears and
the draw call, and RenderTarget to Present after the draw call and before the list is
closed. The number of back buffers is unchanged, and if every back buffer is in Present
state before the frame, every back buffer is in Present state after it. -/
theorem draw_brackets_back_buffer (w w1 : World) (h : draw w = (Except.ok (), w1)) :
    ∃ (evs : List Api) (i : Nat), (i : Int) = w.m_curr_back_buffer ∧ i < 2 ∧
      w1.trace = w.trace ++ evs ∧
      evs.filterMap frame_mark_of =
        [ FrameMark.barrier (Resource.back_buffer i) ResourceState.PRESENT
            ResourceState.RENDER_TARGET,
          FrameMark.clear, FrameMark.clear, FrameMark.draw_call,
          FrameMark.barrier (Resource.back_buffer i) ResourceState.RENDER_TARGET
            ResourceState.PRESENT,
          FrameMark.close ] ∧
      w1.back_buffer_state.length = w.back_buffer_state.length ∧
      ((∀ s ∈ w.back_buffer_state, s = ResourceState.PRESENT) →
        ∀ s ∈ w1.back_buffer_state, s = ResourceState.PRESENT) := by
  obtain ⟨geo, read, -, htrace⟩ := draw_trace h
  obtain ⟨geo2, read2, q, c, fs, ev, -, hidx, hw1, -, -⟩ := draw_ok h
  simp only [SwapChainBufferCount] at hidx
  refine ⟨_, w.m_curr_back_buffer.toNat, Int.toNat_of_nonneg hidx.1, by omega, htrace, ?_, ?_,
    ?_⟩
  · by_cases hlt : read < next_fence w.m_current_fence
    · simp only [flush_events, hlt, if_true, draw_events]
      rfl
    · simp only [flush_events, hlt, if_false, draw_events]
      rfl
  · rw [hw1]
    simp
  · intro hall
    rw [hw1]
    exact all_present_set _ _ hall

/-- C8 (witness): the first frame from the ready world, whose two back buffers are in
Present state. -/
theorem draw_brackets_back_buffer_witness :
    world_ready.back_buffer_state = [ResourceState.PRESENT, ResourceState.PRESENT] ∧
    ∃ (evs : List Api) (i : Nat), (i : Int) = world_ready.m_curr_back_buffer ∧ i < 2 ∧
      (draw world_ready).2.trace = world_ready.trace ++ evs ∧
      evs.filterMap frame_mark_of =
        [ FrameMark.barrier (Resource.back_buffer i) ResourceState.PRESENT
            ResourceState.RENDER_TARGET,
          FrameMark.clear, FrameMark.clear, FrameMark.draw_call,
          FrameMark.barrier (Resource.back_buffer i) ResourceState.RENDER_TARGET
            ResourceState.PRESENT,
          FrameMark.close ] ∧
      (draw world_ready).2.back_buffer_state.length = world_ready.back_buffer_state.length ∧
      ((∀ s ∈ world_ready.back_buffer_state, s = ResourceState.PRESENT) →
        ∀ s ∈ (draw world_ready).2.back_buffer_state, s = ResourceState.PRESENT) :=
  ⟨by decide!, draw_brackets_back_buffer world_ready _ (eq_of_returned _ () (by decide!))⟩

/-! ## Geometry, descriptors, vertex layout -/

theorem make_geo_ok {w w1 : World} (h : make_geo w = (Except.ok (), w1)) :
    w1.m_geo = some square_geo := by
  simp [make_geo, d3d_util_call, api_hr] at h
  obtain ⟨-, -, -, -, rfl⟩ := h
  rfl

theorem build_shaders_and_input_layout_ok {w w1 : World}
    (h : build_shaders_and_input_layout w = (Except.ok (), w1)) :
    w1.m_input_layout = square_input_layout := by
  simp [build_shaders_and_input_layout, d3d_util_call, api_hr] at h
  obtain ⟨-, -, rfl⟩ := h
  rfl

/-- C12: `make_geo` builds the quad with the four vertices (-0.7,0.7), (0.7,0.8),
(0.6,-0.7), (-0.7,-0.7) (kept in tenths) and the index list 0,1,3,1,2,3, and records
`ibuf_size = 6 * sizeof(uint16_t) = 12` with 16-bit indices, `vbuf_size = 4 * sizeof(Vertex)
= 64` and `index_count = 6`; the vertex- and index-buffer views a later `draw` binds report
exactly these sizes, and it draws 6 indices. -/
theorem make_geo_builds_quad (w w1 : World) (h : make_geo w = (Except.ok (), w1)) :
    ∃ g : MeshGeometry, w1.m_geo = some g ∧
      g.vbuf_cpu.map (fun v => v.pos) = [(-7, 7), (7, 8), (6, -7), (-7, -7)] ∧
      g.ibuf_cpu = [0, 1, 3, 1, 2, 3] ∧
      g.index_format = 16 ∧
      g.ibuf_size = 6 * sizeof_uint16 ∧ g.ibuf_size = 12 ∧
      g.vbuf_size = 4 * sizeof_Vertex ∧ g.vbuf_size = 64 ∧
      g.index_count = 6 ∧
      (∀ w2 w3 : World, w2.m_geo = w1.m_geo → draw w2 = (Except.ok (), w3) →
        ∃ evs : List Api, w3.trace = w2.trace ++ evs ∧
          (evs.filterMap vertex_view_of).map (fun v => v.SizeInBytes) = [64] ∧
          (evs.filterMap index_view_of).map (fun v => (v.Format, v.SizeInBytes)) = [(16, 12)] ∧
          evs.filterMap drawn_index_count_of = [6]) := by
  have hgeo := make_geo_ok h
  refine ⟨square_geo, hgeo, rfl, rfl, rfl, rfl, rfl, rfl, rfl, rfl, ?_⟩
  intro w2 w3 h2 hd
  obtain ⟨geo, read, hg, htrace⟩ := draw_trace hd
  rw [h2, hgeo, Option.some.injEq] at hg
  subst hg
  refine ⟨_, htrace, ?_, ?_, ?_⟩ <;>
    by_cases hlt : read < next_fence w2.m_current_fence <;>
      simp only [flush_events, hlt, if_true, if_false, draw_events] <;> rfl

/-- C12 (witness): `make_geo` from the fresh world, and the first frame from the ready
world, which holds the same mesh. -/
theorem make_geo_builds_quad_witness :
    ∃ g : MeshGeometry, (make_geo world_fresh).2.m_geo = some g ∧
      g.vbuf_cpu.map (fun v => v.pos) = [(-7, 7), (7, 8), (6, -7), (-7, -7)] ∧
      g.ibuf_cpu = [0, 1, 3, 1, 2, 3] ∧
      g.index_format = 16 ∧
      g.ibuf_size = 6 * sizeof_uint16 ∧ g.ibuf_size = 12 ∧
      g.vbuf_size = 4 * sizeof_Vertex ∧ g.vbuf_size = 64 ∧
      g.index_count = 6 ∧
      (∀ w2 w3 : World, w2.m_geo = (make_geo world_fresh).2.m_geo →
        draw w2 = (Except.ok (), w3) →
        ∃ evs : List Api, w3.trace = w2.trace ++ evs ∧
          (evs.filterMap vertex_view_of).map (fun v => v.SizeInBytes) = [64] ∧
          (evs.filterMap index_view_of).map (fun v => (v.Format, v.SizeInBytes)) = [(16, 12)] ∧
          evs.filterMap drawn_index_count_of = [6]) :=
  make_geo_builds_quad world_fresh _ (eq_of_returned _ () (by decide!))

/-- The calls a returning `init_directx` logs. -/
theorem init_directx_trace {w w1 : World} (h : init_directx w = (Except.ok (), w1)) :
    ∃ warp read,
      w1.trace = w.trace ++
        (init_directx_events w warp ++
          flush_events w.dev_command_queue (next_fence w.m_current_fence) read) ∧
      w1.m_cbv_srv_uav_desc_size = w.dev_cbv_srv_uav_increment % UINT32_MOD ∧
      w1.m_command_queue = w.dev_command_queue ∧
      w1.m_geo = some square_geo ∧
      w1.m_input_layout = square_input_layout := by
  obtain ⟨warp, read, q, c, fs, ev, rfl, -, -⟩ := init_directx_ok h
  exact ⟨warp, read, by simp only [List.append_assoc], rfl, rfl, rfl, rfl⟩

/-- C14: the vertex layout stored by `build_shaders_and_input_layout` is exactly two
per-vertex elements: POSITION, two 32-bit floats at byte offset 0, and TEXCOORD, two 32-bit
floats at byte offset 8. The first ends where the second begins, so they do not overlap,
and the second ends at `sizeof(Vertex) = 16`. The vertex stride recorded by `make_geo` is
16, and so is the stride of the vertex-buffer view a later `draw` binds. After a returning
`init_directx` both hold together. -/
theorem vertex_layout_is_position_texcoord :
    (∀ w w1 : World, build_shaders_and_input_layout w = (Except.ok (), w1) →
      ∃ p t : InputElementDesc, w1.m_input_layout = [p, t] ∧
        p.SemanticName = "POSITION" ∧ p.components = 2 ∧ p.AlignedByteOffset = 0 ∧
        p.PerVertexData = true ∧
        t.SemanticName = "TEXCOORD" ∧ t.components = 2 ∧ t.AlignedByteOffset = 8 ∧
        t.PerVertexData = true ∧
        p.AlignedByteOffset + p.components * sizeof_float = t.AlignedByteOffset ∧
        t.AlignedByteOffset + t.components * sizeof_float = sizeof_Vertex ∧
        sizeof_Vertex = 16) ∧
    (∀ w w1 : World, make_geo w = (Except.ok (), w1) →
      ∃ g : MeshGeometry, w1.m_geo = some g ∧ g.vertex_stride = 16 ∧
        ∀ w2 w3 : World, w2.m_geo = w1.m_geo → draw w2 = (Except.ok (), w3) →
          ∃ evs : List Api, w3.trace = w2.trace ++ evs ∧
            (evs.filterMap vertex_view_of).map (fun v => v.StrideInBytes) = [16]) ∧
    (∀ w w1 : World, init_directx w = (Except.ok (), w1) →
      w1.m_input_layout = square_input_layout ∧
      w1.m_geo.map (fun g => g.vertex_stride) = some 16) := by
  refine ⟨?_, ?_, ?_⟩
  · intro w w1 h
    rw [build_shaders_and_input_layout_ok h]
    exact ⟨_, _, rfl, rfl, rfl, rfl, rfl, rfl, rfl, rfl, rfl, rfl, rfl, rfl⟩
  · intro w w1 h
    have hgeo := make_geo_ok h
    refine ⟨square_geo, hgeo, rfl, ?_⟩
    intro w2 w3 h2 hd
    obtain ⟨geo, read, hg, htrace⟩ := draw_trace hd
    rw [h2, hgeo, Option.some.injEq] at hg
    subst hg
    refine ⟨_, htrace, ?_⟩
    by_cases hlt : read < next_fence w2.m_current_fence <;>
      simp only [flush_events, hlt, if_true, if_false, draw_events] <;> rfl
  · intro w w1 h
    obtain ⟨warp, read, -, -, -, hgeo, hlayout⟩ := init_directx_trace h
    exact ⟨hlayout, by rw [hgeo]; rfl⟩

/-- C14 (witness): the layout and the mesh built from the fresh world. -/
theorem vertex_layout_is_position_texcoord_witness :
    (build_shaders_and_input_layout world_fresh).2.m_input_layout.length = 2 ∧
    ((make_geo world_fresh).2.m_geo.map fun g => g.vertex_stride) = some 16 ∧
    (init_directx world_fresh).2.m_input_layout = square_input_layout :=
  ⟨by
    obtain ⟨p, t, h, -⟩ := vertex_layout_is_position_texcoord.1 world_fresh _
      (eq_of_returned _ () (by decide!))
    rw [h]
    rfl,
   by
    obtain ⟨g, h, hs, -⟩ := vertex_layout_is_position_texcoord.2.1 world_fresh _
      (eq_of_returned _ () (by decide!))
    rw [h, ← hs]
    rfl,
   (vertex_layout_is_position_texcoord.2.2 world_fresh _
      (eq_of_returned _ () (by decide!))).1⟩

/-! ## The command queue -/

/-- C18: `draw_on_texture` creates the secondary device over exactly one command queue, the
one in `m_command_queue`. In `init_directx` that is the queue object the device created,
and the same object is the one the swap chain is created on, the upload and the init
command list are submitted to, and the fence is signalled on; `m_command_queue` keeps
holding it, and `on_resize` and `draw` submit their command lists to, and signal the fence
on, the queue in `m_command_queue`. -/
theorem one_shared_command_queue :
    (∀ w w1 : World, draw_on_texture w = (Except.ok (), w1) →
      ∃ evs : List Api, w1.trace = w.trace ++ evs ∧
        evs.filterMap secondary_device_queues_of = [([w.m_command_queue], 1)]) ∧
    (∀ w w1 : World, init_directx w = (Except.ok (), w1) →
      ∃ evs : List Api, w1.trace = w.trace ++ evs ∧
        evs.filterMap secondary_device_queues_of = [([w.dev_command_queue], 1)] ∧
        evs.filterMap queue_operand_of =
          [w.dev_command_queue, w.dev_command_queue, w.dev_command_queue,
           w.dev_command_queue] ∧
        w1.m_command_queue = w.dev_command_queue) ∧
    (∀ w w1 : World, on_resize w = (Except.ok (), w1) →
      ∃ evs : List Api, w1.trace = w.trace ++ evs ∧
        evs.filterMap secondary_device_queues_of = [] ∧
        evs.filterMap queue_operand_of =
          [w.m_command_queue, w.m_command_queue, w.m_command_queue] ∧
        w1.m_command_queue = w.m_command_queue) ∧
    (∀ w w1 : World, draw w = (Except.ok (), w1) →
      ∃ evs : List Api, w1.trace = w.trace ++ evs ∧
        evs.filterMap secondary_device_queues_of = [] ∧
        evs.filterMap queue_operand_of = [w.m_command_queue, w.m_command_queue] ∧
        w1.m_command_queue = w.m_command_queue) := by
  refine ⟨?_, ?_, ?_, ?_⟩
  · intro w w1 h
    rw [draw_on_texture_ok h]
    exact ⟨_, rfl, rfl⟩
  · intro w w1 h
    obtain ⟨warp, read, htrace, -, hq, -, -⟩ := init_directx_trace h
    refine ⟨_, htrace, ?_, ?_, hq⟩ <;>
      cases warp <;> by_cases hlt : read < next_fence w.m_current_fence <;>
        simp [init_directx_events, create_d3d12_device_events, draw_on_texture_events,
          flush_events, hlt, secondary_device_queues_of, queue_operand_of]
  · intro w w1 h
    obtain ⟨read1, read2, q, c, fs, ev, -, rfl, -, -⟩ := on_resize_ok h
    refine ⟨_, by simp only [List.append_assoc]; rfl, ?_, ?_, rfl⟩ <;>
      by_cases hlt1 : read1 < next_fence w.m_current_fence <;>
        by_cases hlt2 : read2 < next_fence (next_fence w.m_current_fence) <;>
          simp [on_resize_events, flush_events, hlt1, hlt2, secondary_device_queues_of,
            queue_operand_of]
  · intro w w1 h
    obtain ⟨geo, read, -, htrace⟩ := draw_trace h
    obtain ⟨geo2, read2, q, c, fs, ev, -, -, hw1, -, -⟩ := draw_ok h
    refine ⟨_, htrace, ?_, ?_, by rw [hw1]⟩ <;>
      by_cases hlt : read < next_fence w.m_current_fence <;>
        simp [draw_events, flush_events, hlt, secondary_device_queues_of, queue_operand_of]

/-- C18 (witness): start-up and a frame from the fresh world, whose queue object has
handle 7. -/
theorem one_shared_command_queue_witness :
    world_fresh.dev_command_queue = 7 ∧
    (init_directx world_fresh).2.m_command_queue = world_fresh.dev_command_queue ∧
    (on_resize world_started).2.m_command_queue = world_started.m_command_queue ∧
    (draw world_ready).2.m_command_queue = world_ready.m_command_queue :=
  ⟨by decide!,
   by
    obtain ⟨evs, -, -, -, h⟩ := one_shared_command_queue.2.1 world_fresh _
      (eq_of_returned _ () (by decide!))
    exact h,
   by
    obtain ⟨evs, -, -, -, h⟩ := one_shared_command_queue.2.2.1 world_started _
      (eq_of_returned _ () (by decide!))
    exact h,
   by
    obtain ⟨evs, -, -, -, h⟩ := one_shared_command_queue.2.2.2 world_ready _
      (eq_of_returned _ () (by decide!))
    exact h⟩

/-! ## `on_resize` -/

theorem static_cast_float_exact (n : Int) (h : n.natAbs ≤ 2 ^ 24) :
    static_cast_float n = n := by
  rcases Nat.lt_or_eq_of_le h with hlt | heq
  · have hu : float_ulp n.natAbs = 1 := by
      unfold float_ulp
      rw [if_pos hlt]
    simp only [static_cast_float, hu, Nat.div_one, Nat.mod_one, Nat.mul_zero, Nat.mul_one,
      Nat.lt_one_iff, if_true]
    exact Int.sign_mul_natAbs n
  · have hs : static_cast_float n = n.sign * ((n.natAbs : Nat) : Int) := by
      simp only [static_cast_float, heq]
      rfl
    rw [hs]
    exact Int.sign_mul_natAbs n

/-! ## Messages and start-up -/

/-- C17: on `WM_KEYDOWN`, `msg_proc` sets `m_needs_draw` to true; on every other message it
leaves `m_needs_draw` and all other state of `App` unchanged. In both cases it hands the
message on to `DefWindowProc`, which is all that is added to the log. -/
theorem msg_proc_sets_flag_on_keydown (w : World) :
    msg_proc WM_KEYDOWN w =
      (Except.ok (), { w with m_needs_draw := true,
                              trace := w.trace ++ [Api.DefWindowProc WM_KEYDOWN] }) ∧
    (∀ msg : Nat, msg ≠ WM_KEYDOWN →
      msg_proc msg w =
        (Except.ok (), { w with trace := w.trace ++ [Api.DefWindowProc msg] })) := by
  constructor
  · rfl
  · intro msg hmsg
    simp [msg_proc, api_void, bind_apply, hmsg]

/-- C17 (witness): a key press and a `WM_PAINT` (15) in the ready world. -/
theorem msg_proc_sets_flag_on_keydown_witness :
    (msg_proc WM_KEYDOWN world_ready).2.m_needs_draw = true ∧
    msg_proc 15 world_ready =
      (Except.ok (), { world_ready with trace := world_ready.trace ++ [Api.DefWindowProc 15] }) :=
  ⟨by rw [(msg_proc_sets_flag_on_keydown world_ready).1],
   (msg_proc_sets_flag_on_keydown world_ready).2 15 (by decide)⟩

/-! ## Reachable states -/

theorem init_directx_rtvs {w w1 : World} (h : init_directx w = (Except.ok (), w1)) :
    w1.trace.filterMap rtv_created_of = w.trace.filterMap rtv_created_of ∧
    w1.m_device = true ∧
    w1.m_rtv_desc_size = w.dev_rtv_increment % UINT32_MOD ∧
    w1.dev_rtv_increment = w.dev_rtv_increment := by
  obtain ⟨warp, read, q, c, fs, ev, rfl, -, -⟩ := init_directx_ok h
  refine ⟨?_, rfl, rfl, rfl⟩
  cases warp <;> by_cases hlt : read < next_fence w.m_current_fence <;>
    simp [init_directx_events, create_d3d12_device_events, draw_on_texture_events,
      flush_events, hlt, rtv_created_of]

theorem on_resize_rtvs {w w1 : World} (h : on_resize w = (Except.ok (), w1)) :
    w1.trace.filterMap rtv_created_of =
      w.trace.filterMap rtv_created_of ++
        [(0, 0 * w.m_rtv_desc_size), (1, 1 * w.m_rtv_desc_size)] ∧
    w.m_device = true ∧ w1.m_device = w.m_device ∧
    w1.m_rtv_desc_size = w.m_rtv_desc_size ∧
    w1.dev_rtv_increment = w.dev_rtv_increment ∧
    w1.m_curr_back_buffer = 0 := by
  obtain ⟨read1, read2, q, c, fs, ev, ⟨hd, -, -⟩, rfl, -, -⟩ := on_resize_ok h
  refine ⟨?_, hd, rfl, rfl, rfl, rfl⟩
  by_cases hlt1 : read1 < next_fence w.m_current_fence <;>
    by_cases hlt2 : read2 < next_fence (next_fence w.m_current_fence) <;>
      simp [on_resize_events, flush_events, hlt1, hlt2, rtv_created_of]

theorem draw_rtvs {w w1 : World} (h : draw w = (Except.ok (), w1)) :
    w1.trace.filterMap rtv_created_of = w.trace.filterMap rtv_created_of ∧
    w1.m_device = w.m_device ∧
    w1.m_rtv_desc_size = w.m_rtv_desc_size ∧
    w1.dev_rtv_increment = w.dev_rtv_increment := by
  obtain ⟨geo, read, q, c, fs, ev, -, -, rfl, -, -⟩ := draw_ok h
  refine ⟨?_, rfl, rfl, rfl⟩
  by_cases hlt : read < next_fence w.m_current_fence <;>
    simp [draw_events, flush_events, hlt, rtv_created_of]

/-- In a reachable state the descriptor size is the device's once the device exists, and
the render-target views created last, if any, are those of the two swap-chain buffers at
RTV-heap offsets 0 and `m_rtv_desc_size`. -/
theorem reachable_rtvs {w : World} (h : Reachable w) :
    (w.m_device = true → w.m_rtv_desc_size = w.dev_rtv_increment % UINT32_MOD) ∧
    (w.trace.filterMap rtv_created_of = [] ∨
      (w.m_device = true ∧
        ∃ earlier : List (Nat × Nat), w.trace.filterMap rtv_created_of =
          earlier ++ [(0, 0 * w.m_rtv_desc_size), (1, 1 * w.m_rtv_desc_size)])) := by
  induction h with
  | construct => exact ⟨fun hd => (by cases hd), Or.inl rfl⟩
  | init_directx _ hcall ih =>
    obtain ⟨htr, hd, hsize, hdev⟩ := init_directx_rtvs hcall
    refine ⟨fun _ => (by rw [hsize, hdev]), ?_⟩
    rcases ih.2 with h0 | ⟨hd0, earlier, he⟩
    · exact Or.inl (by rw [htr, h0])
    · refine Or.inr ⟨hd, earlier, ?_⟩
      rw [htr, he, hsize, ih.1 hd0]
  | on_resize _ hcall ih =>
    obtain ⟨htr, hd, hd1, hsize, hdev, -⟩ := on_resize_rtvs hcall
    refine ⟨fun _ => (by rw [hsize, hdev]; exact ih.1 hd), ?_⟩
    exact Or.inr ⟨(by rw [hd1]; exact hd), _, (by rw [htr, hsize])⟩
  | draw _ hcall ih =>
    obtain ⟨htr, hd, hsize, hdev⟩ := draw_rtvs hcall
    refine ⟨fun hd1 => (by rw [hsize, hdev]; exact ih.1 (by rw [← hd]; exact hd1)), ?_⟩
    rcases ih.2 with h0 | ⟨hd0, earlier, he⟩
    · exact Or.inl (by rw [htr, h0])
    · exact Or.inr ⟨(by rw [hd]; exact hd0), earlier, (by rw [htr, he, hsize])⟩

/-- C19: in every state reachable from construction by calls of `init_directx`,
`on_resize` and `draw`, the back-buffer index is 0 or 1; so `current_back_buffer` indexes
`m_swap_chain_buffer` inside its 2 elements, and `current_back_buffer_view` is at RTV-heap
offset `0 * m_rtv_desc_size` or `1 * m_rtv_desc_size`, which are the offsets of the two
render-target views created last, those of the latest `on_resize`, if there was one. -/
theorem back_buffer_index_in_bounds (w : World) (h : Reachable w) :
    (w.m_curr_back_buffer = 0 ∨ w.m_curr_back_buffer = 1) ∧
    (∃ i : Nat, i < 2 ∧ (i : Int) = w.m_curr_back_buffer ∧
      current_back_buffer w = (Except.ok (Resource.back_buffer i), w)) ∧
    (current_back_buffer_view w = ((0 * w.m_rtv_desc_size : Nat) : Int) ∨
      current_back_buffer_view w = ((1 * w.m_rtv_desc_size : Nat) : Int)) ∧
    (w.trace.filterMap rtv_created_of = [] ∨
      ∃ earlier : List (Nat × Nat), w.trace.filterMap rtv_created_of =
        earlier ++ [(0, 0 * w.m_rtv_desc_size), (1, 1 * w.m_rtv_desc_size)]) := by
  have hrtv : w.trace.filterMap rtv_created_of = [] ∨
      ∃ earlier : List (Nat × Nat), w.trace.filterMap rtv_created_of =
        earlier ++ [(0, 0 * w.m_rtv_desc_size), (1, 1 * w.m_rtv_desc_size)] := by
    rcases (reachable_rtvs h).2 with h0 | ⟨-, earlier, he⟩
    · exact Or.inl h0
    · exact Or.inr ⟨earlier, he⟩
  have hidx : w.m_curr_back_buffer = 0 ∨ w.m_curr_back_buffer = 1 := by
    clear hrtv
    induction h with
    | construct => exact Or.inl rfl
    | init_directx _ hcall ih =>
      obtain ⟨warp, read, q, c, fs, ev, rfl, -, -⟩ := init_directx_ok hcall
      exact ih
    | on_resize _ hcall _ =>
      obtain ⟨read1, read2, q, c, fs, ev, -, rfl, -, -⟩ := on_resize_ok hcall
      exact Or.inl rfl
    | draw _ hcall _ =>
      rcases draw_index hcall with ⟨-, h1⟩ | ⟨-, h1⟩
      · exact Or.inr h1
      · exact Or.inl h1
  refine ⟨hidx, ?_, ?_, hrtv⟩
  · rcases hidx with h0 | h1
    · exact ⟨0, by decide, by rw [h0]; rfl, by simp [current_back_buffer, h0, SwapChainBufferCount]⟩
    · exact ⟨1, by decide, by rw [h1]; rfl, by simp [current_back_buffer, h1, SwapChainBufferCount]⟩
  · rcases hidx with h0 | h1
    · left
      simp [current_back_buffer_view, h0]
    · right
      simp [current_back_buffer_view, h1]

/-- C19 (witness): the state after start-up, resize and one frame from the fresh world is
reachable, and its index is 1. -/
theorem back_buffer_index_in_bounds_witness :
    ((draw world_ready).2.m_curr_back_buffer = 0 ∨ (draw world_ready).2.m_curr_back_buffer = 1) ∧
    (draw world_ready).2.m_curr_back_buffer = 1 :=
  ⟨(back_buffer_index_in_bounds (draw world_ready).2
      (Reachable.draw
        (Reachable.on_resize
          (Reachable.init_directx (Reachable.construct [] [] 32 8 32 1 7 [])
            (eq_of_returned (init_directx world_fresh) () (by decide!)))
          (eq_of_returned (on_resize world_started) () (by decide!)))
        (eq_of_returned (draw world_ready) () (by decide!)))).1,
   by decide!⟩

/-! ## Submissions and fence waits -/

theorem spec_sync_run_append (a b : List Api) : ∀ s : SyncState,
    spec_sync_run s (a ++ b) =
      match spec_sync_run s a with
      | none => none
      | some s1 => spec_sync_run s1 b := by
  induction a with
  | nil => intro s; rfl
  | cons x rest ih =>
    intro s
    simp only [List.cons_append, spec_sync_run]
    cases spec_sync_step s x with
    | none => rfl
    | some s1 => exact ih s1

/-- One flush, after a submission or with nothing pending, leaves nothing pending. -/
theorem spec_sync_run_flush (s : SyncState) (queue fence read : Nat) :
    spec_sync_run s (flush_events queue fence read) = some SyncState.idle := by
  by_cases hlt : read < fence
  · simp only [flush_events, hlt, if_true, List.cons_append, List.nil_append, spec_sync_run]
    cases s <;> simp [spec_sync_step, hlt]
  · simp only [flush_events, hlt, if_false, List.append_nil, spec_sync_run]
    cases s <;> simp [spec_sync_step, hlt]

theorem count_flush_events (queue fence read : Nat) :
    (flush_events queue fence read).countP is_signal = 1 ∧
    (flush_events queue fence read).countP is_completion_check = 1 ∧
    (flush_events queue fence read).countP is_wait ≤ 1 := by
  by_cases hlt : read < fence <;>
    simp [flush_events, hlt, is_signal, is_completion_check, is_wait]

/-- What one returning `draw` adds to the log, as far as the fence is concerned. -/
theorem draw_frame_sync {w w1 : World} (h : draw w = (Except.ok (), w1)) :
    ∃ evs : List Api, w1.trace = w.trace ++ evs ∧
      evs.countP is_signal = 1 ∧ evs.countP is_completion_check = 1 ∧
      evs.countP is_wait ≤ 1 ∧
      spec_sync_run SyncState.idle evs = some SyncState.idle ∧
      w1.m_current_fence = next_fence w.m_current_fence ∧
      w1.m_current_fence ≤ w1.completed := by
  obtain ⟨geo, read, -, htrace⟩ := draw_trace h
  obtain ⟨geo2, read2, q, c, fs, ev, -, -, hw1, hc, -⟩ := draw_ok h
  obtain ⟨hs, hk, hwait⟩ :=
    count_flush_events w.m_command_queue (next_fence w.m_current_fence) read
  refine ⟨_, htrace, ?_, ?_, ?_, ?_, by rw [hw1], by rw [hw1]; exact hc⟩
  · rw [List.countP_append, hs]
    rfl
  · rw [List.countP_append, hk]
    rfl
  · rw [List.countP_append]
    have h0 : (draw_events w geo).countP is_wait = 0 := rfl
    omega
  · rw [spec_sync_run_append]
    have h0 : spec_sync_run SyncState.idle (draw_events w geo) = some SyncState.busy := rfl
    rw [h0]
    exact spec_sync_run_flush _ _ _ _

theorem draw_frames_sync (n : Nat) : ∀ (w w1 : World) (used : List Int),
    draw_frames n w = (Except.ok used, w1) →
    ∃ evs : List Api, w1.trace = w.trace ++ evs ∧
      evs.countP is_signal = n ∧ evs.countP is_completion_check = n ∧
      evs.countP is_wait ≤ n ∧
      spec_sync_run SyncState.idle evs = some SyncState.idle ∧
      w1.m_current_fence = next_fence^[n] w.m_current_fence := by
  induction n with
  | zero =>
    intro w w1 used h
    simp only [draw_frames, pure_apply, Prod.mk.injEq] at h
    rw [← h.2]
    exact ⟨[], by simp, rfl, rfl, le_refl 0, rfl, rfl⟩
  | succ n ih =>
    intro w w2 used h
    obtain ⟨w1, rest, hd, hr, -⟩ := draw_frames_succ_ok h
    obtain ⟨evs1, ht1, hs1, hk1, hw1, hsync1, hf1, -⟩ := draw_frame_sync hd
    obtain ⟨evs2, ht2, hs2, hk2, hw2, hsync2, hf2⟩ := ih w1 w2 rest hr
    refine ⟨evs1 ++ evs2, by rw [ht2, ht1, List.append_assoc], ?_, ?_, ?_, ?_, ?_⟩
    · rw [List.countP_append, hs1, hs2, Nat.add_comm]
    · rw [List.countP_append, hk1, hk2, Nat.add_comm]
    · rw [List.countP_append]
      omega
    · rw [spec_sync_run_append, hsync1]
      exact hsync2
    · rw [hf2, hf1, Function.iterate_succ_apply]

/-- C9 (counterexample): with the checkpoint at the largest `UINT64` value, one `draw`
returns and leaves the checkpoint at 0: it has not grown by 1. -/
theorem checkpoint_wraps_in_draw :
    world_ready_max.m_current_fence = 18446744073709551615 ∧
    returned (draw_frames 1 world_ready_max) = some [0] ∧
    (draw_frames 1 world_ready_max).2.m_current_fence = 0 ∧
    (draw_frames 1 world_ready_max).2.m_current_fence ≠
      world_ready_max.m_current_fence + 1 := by
  decide!

/-- C9 (amended): `n` returning draws in a row issue exactly `n` fence signals and `n`
completion checks and at most `n` waits; the checkpoint is incremented `n` times as a
`UINT64`, so it has grown by exactly `n` when `m_current_fence + n` is below `2 ^ 64`; and
the calls follow the discipline of the spec from a state with nothing pending, so every
reset of the allocator comes only after the flush of the frame before it (or, for the
first frame, the flush that left nothing pending) has returned. -/
theorem draws_signal_and_check_once_each (n : Nat) (w w1 : World) (used : List Int)
    (h : draw_frames n w = (Except.ok used, w1)) :
    ∃ evs : List Api, w1.trace = w.trace ++ evs ∧
      evs.countP is_signal = n ∧ evs.countP is_completion_check = n ∧
      evs.countP is_wait ≤ n ∧
      w1.m_current_fence = next_fence^[n] w.m_current_fence ∧
      (w.m_current_fence + n < UINT64_MOD → w1.m_current_fence = w.m_current_fence + n) ∧
      spec_sync_run SyncState.idle evs = some SyncState.idle := by
  obtain ⟨evs, ht, hs, hk, hw, hsync, hf⟩ := draw_frames_sync n w w1 used h
  refine ⟨evs, ht, hs, hk, hw, hf, ?_, hsync⟩
  intro hlt
  rw [hf]
  exact next_fence_iterate n w.m_current_fence hlt

/-- C9 (witness): three draws from the ready world, whose checkpoint is 3. -/
theorem draws_signal_and_check_once_each_witness :
    ∃ evs : List Api, (draw_frames 3 world_ready).2.trace = world_ready.trace ++ evs ∧
      evs.countP is_signal = 3 ∧ evs.countP is_completion_check = 3 ∧
      evs.countP is_wait ≤ 3 ∧
      (draw_frames 3 world_ready).2.m_current_fence =
        next_fence^[3] world_ready.m_current_fence ∧
      (world_ready.m_current_fence + 3 < UINT64_MOD →
        (draw_frames 3 world_ready).2.m_current_fence = world_ready.m_current_fence + 3) ∧
      spec_sync_run SyncState.idle evs = some SyncState.idle :=
  draws_signal_and_check_once_each 3 world_ready _ [0, 1, 0]
    (eq_of_returned _ _ (by decide!))

/-- C10 (counterexample): `draw_on_texture` returns from the started world after fourteen
calls, none of them a fence signal, a completion check or a wait: the draw pass it
submitted is still unwaited for when it returns. -/
theorem draw_pass_returns_unflushed :
    returned (draw_on_texture world_started) = some () ∧
    (draw_on_texture world_started).2.trace.length = world_started.trace.length + 14 ∧
    ((draw_on_texture world_started).2.trace.drop world_started.trace.length).countP
      (fun a => is_signal a || is_completion_check a || is_wait a) = 0 ∧
    spec_sync_run SyncState.idle
      ((draw_on_texture world_started).2.trace.drop world_started.trace.length) =
        some SyncState.busy := by
  decide!

/-- C10 (amended): the init command list in `init_directx`, the resize command list in
`on_resize` and the per-frame command list in `draw` are each followed by a fence wait
before the operation returns and before any later reset: the calls of each operation follow
the discipline of the spec and leave nothing pending, with the completed value at the
checkpoint. The cross-API draw pass is not flushed inside `draw_on_texture`, which signals
and waits for nothing; the flush that follows it is the one at the end of `init_directx`,
with no reset in between. -/
theorem submissions_are_waited_for :
    (∀ w w1 : World, init_directx w = (Except.ok (), w1) →
      ∃ evs : List Api, w1.trace = w.trace ++ evs ∧
        evs.countP is_release = 1 ∧
        spec_sync_run SyncState.idle evs = some SyncState.idle ∧
        w1.m_current_fence ≤ w1.completed) ∧
    (∀ w w1 : World, on_resize w = (Except.ok (), w1) →
      ∃ evs : List Api, w1.trace = w.trace ++ evs ∧
        spec_sync_run SyncState.idle evs = some SyncState.idle ∧
        w1.m_current_fence ≤ w1.completed) ∧
    (∀ w w1 : World, draw w = (Except.ok (), w1) →
      ∃ evs : List Api, w1.trace = w.trace ++ evs ∧
        spec_sync_run SyncState.idle evs = some SyncState.idle ∧
        w1.m_current_fence ≤ w1.completed) ∧
    (∀ w w1 : World, draw_on_texture w = (Except.ok (), w1) →
      ∃ evs : List Api, w1.trace = w.trace ++ evs ∧
        evs.countP (fun a => is_signal a || is_completion_check a || is_wait a) = 0 ∧
        spec_sync_run SyncState.idle evs = some SyncState.busy) := by
  refine ⟨?_, ?_, ?_, ?_⟩
  · intro w w1 h
    obtain ⟨warp, read, htrace, -⟩ := init_directx_trace h
    obtain ⟨warp2, read2, q, c, fs, ev, hw1, hc, -⟩ := init_directx_ok h
    refine ⟨_, htrace, ?_, ?_, by rw [hw1]; exact hc⟩
    · cases warp <;> by_cases hlt : read < next_fence w.m_current_fence <;>
        simp [init_directx_events, create_d3d12_device_events, draw_on_texture_events,
          flush_events, hlt, is_release]
    · rw [spec_sync_run_append]
      have h0 : spec_sync_run SyncState.idle (init_directx_events w warp) =
          some SyncState.busy := by
        cases warp <;> rfl
      rw [h0]
      exact spec_sync_run_flush _ _ _ _
  · intro w w1 h
    obtain ⟨read1, read2, q, c, fs, ev, -, hw1, hc, -⟩ := on_resize_ok h
    refine ⟨flush_events w.m_command_queue (next_fence w.m_current_fence) read1 ++
      (on_resize_events w ++
        flush_events w.m_command_queue (next_fence (next_fence w.m_current_fence)) read2),
      by rw [hw1]; simp only [List.append_assoc], ?_, by rw [hw1]; exact hc⟩
    rw [spec_sync_run_append, spec_sync_run_flush]
    simp only []
    rw [spec_sync_run_append]
    have h0 : spec_sync_run SyncState.idle (on_resize_events w) = some SyncState.busy := rfl
    simp only [h0]
    exact spec_sync_run_flush _ _ _ _
  · intro w w1 h
    obtain ⟨evs, ht, -, -, -, hsync, -, hc⟩ := draw_frame_sync h
    exact ⟨evs, ht, hsync, hc⟩
  · intro w w1 h
    rw [draw_on_texture_ok h]
    exact ⟨_, rfl, rfl, rfl⟩

/-- C10 (witness): start-up from the fresh world, then resize, then a frame. -/
theorem submissions_are_waited_for_witness :
    (∃ evs : List Api, (init_directx world_fresh).2.trace = world_fresh.trace ++ evs ∧
      evs.countP is_release = 1 ∧
      spec_sync_run SyncState.idle evs = some SyncState.idle ∧
      (init_directx world_fresh).2.m_current_fence ≤ (init_directx world_fresh).2.completed) ∧
    (∃ evs : List Api, (on_resize world_started).2.trace = world_started.trace ++ evs ∧
      spec_sync_run SyncState.idle evs = some SyncState.idle ∧
      (on_resize world_started).2.m_current_fence ≤ (on_resize world_started).2.completed) ∧
    (∃ evs : List Api, (draw world_ready).2.trace = world_ready.trace ++ evs ∧
      spec_sync_run SyncState.idle evs = some SyncState.idle ∧
      (draw world_ready).2.m_current_fence ≤ (draw world_ready).2.completed) :=
  ⟨submissions_are_waited_for.1 world_fresh _ (eq_of_returned _ () (by decide!)),
   submissions_are_waited_for.2.1 world_started _ (eq_of_returned _ () (by decide!)),
   submissions_are_waited_for.2.2.1 world_ready _ (eq_of_returned _ () (by decide!))⟩

/-! ## Result codes -/

theorem bind_error_iff {α β : Type} (m : M α) (f : α → M β) (w w2 : World) (e : Err) :
    (m >>= f) w = (Except.error e, w2) ↔
      m w = (Except.error e, w2) ∨
      ∃ a w1, m w = (Except.ok a, w1) ∧ f a w1 = (Except.error e, w2) := by
  rw [bind_apply]
  rcases hm : m w with ⟨r, w1⟩
  cases r with
  | error e1 => simp
  | ok a =>
    constructor
    · intro h
      exact Or.inr ⟨a, w1, rfl, h⟩
    · rintro (h | ⟨a1, w11, h1, h⟩)
      · cases h
      · cases h1
        exact h

theorem eq_of_is_hresult_error {α : Type} (x : Except Err α × World)
    (h : is_hresult_error x.1 = true) : x = (Except.error Err.hresult_error, x.2) := by
  rcases x with ⟨r, w⟩
  cases r with
  | ok a => simp [is_hresult_error] at h
  | error e =>
    cases e <;> simp [is_hresult_error] at h
    rfl

theorem next_failed_drop_add (l : List Bool) (n j : Nat) :
    next_failed (l.drop (n + j)) = next_failed ((l.drop n).drop j) := by
  rw [List.drop_drop, Nat.add_comm]

theorem rc_congr {all : Prop} {α : Type} {m m1 : M α} (h : ∀ w : World, m w = m1 w)
    (h1 : ResultsChecked all m1) : ResultsChecked all m := by
  intro w
  rw [h w]
  exact h1 w

theorem rc_bind {all : Prop} {α β : Type} {m : M α} {f : α → M β}
    (hm : ResultsChecked all m) (hf : ∀ a, ResultsChecked all (f a)) :
    ResultsChecked all (m >>= f) := by
  intro w
  constructor
  · intro b w2 h
    rw [bind_ok_iff] at h
    obtain ⟨a, w1, h1, h2⟩ := h
    obtain ⟨n1, hf1, hall1⟩ := (hm w).1 a w1 h1
    obtain ⟨n2, hf2, hall2⟩ := (hf a w1).1 b w2 h2
    refine ⟨n1 + n2, ?_, ?_⟩
    · rw [hf2, hf1, List.drop_drop, Nat.add_comm]
    · intro ha i hi
      by_cases h1i : i < n1
      · exact hall1 ha i h1i
      · obtain ⟨j, rfl⟩ : ∃ j, i = n1 + j := ⟨i - n1, by omega⟩
        rw [next_failed_drop_add, ← hf1]
        exact hall2 ha j (by omega)
  · intro w2 h
    rw [bind_error_iff] at h
    rcases h with h | ⟨a, w1, h1, h2⟩
    · exact (hm w).2 w2 h
    · obtain ⟨n1, hf1, hall1⟩ := (hm w).1 a w1 h1
      obtain ⟨k, call, pre, hk, hall2, hf2, htr, hcall⟩ := (hf a w1).2 w2 h2
      refine ⟨n1 + k, call, pre, ?_, ?_, ?_, htr, hcall⟩
      · rw [next_failed_drop_add, ← hf1]
        exact hk
      · intro ha i hi
        by_cases h1i : i < n1
        · exact hall1 ha i h1i
        · obtain ⟨j, rfl⟩ : ∃ j, i = n1 + j := ⟨i - n1, by omega⟩
          rw [next_failed_drop_add, ← hf1]
          exact hall2 ha j (by omega)
      · rw [hf2, hf1, List.drop_drop]
        congr 1
        try omega

/-- A computation that never throws the exception of `check_hresult` and takes no outcome
treats result codes rightly: it receives none. -/
theorem rc_of_keeps {all : Prop} {α : Type} {m : M α}
    (hk : ∀ w : World, (m w).2.faults = w.faults)
    (hne : ∀ w w1 : World, m w ≠ (Except.error Err.hresult_error, w1)) :
    ResultsChecked all m := by
  intro w
  constructor
  · intro a w1 h
    refine ⟨0, ?_, fun _ i hi => absurd hi (Nat.not_lt_zero i)⟩
    have := hk w
    rw [h] at this
    exact this
  · intro w1 h
    exact absurd h (hne w w1)

theorem rc_pure {all : Prop} {α : Type} (a : α) : ResultsChecked all (pure a : M α) :=
  rc_of_keeps (fun _ => rfl) (fun _ _ h => by cases h)

theorem rc_throw {all : Prop} {α : Type} (e : Err) (he : e ≠ Err.hresult_error) :
    ResultsChecked all (M.throw e : M α) :=
  rc_of_keeps (fun _ => rfl) (fun _ _ h => by
    simp only [throw_apply, Prod.mk.injEq, Except.error.injEq] at h
    exact he h.1)

theorem rc_getW {all : Prop} : ResultsChecked all getW :=
  rc_of_keeps (fun _ => rfl) (fun _ _ h => by cases h)

theorem rc_modifyW {all : Prop} (g : World → World)
    (hg : ∀ w : World, (g w).faults = w.faults) : ResultsChecked all (modifyW g) :=
  rc_of_keeps hg (fun _ _ h => by cases h)

theorem rc_cassert {all : Prop} (c : Bool) : ResultsChecked all (cassert c) :=
  rc_of_keeps (fun w => by cases c <;> rfl) (fun _ _ h => by cases c <;> cases h)

theorem rc_deref {all : Prop} {α : Type} (p : Option α) : ResultsChecked all (deref p) :=
  rc_of_keeps (fun w => by cases p <;> rfl) (fun _ _ h => by cases p <;> cases h)

theorem rc_api_void_with {all : Prop} (a : Api) (e : World → World)
    (he : ∀ w : World, (e w).faults = w.faults) : ResultsChecked all (api_void_with a e) :=
  rc_of_keeps he (fun _ _ h => by cases h)

theorem rc_current_back_buffer {all : Prop} : ResultsChecked all current_back_buffer :=
  rc_of_keeps (fun w => by unfold current_back_buffer; split <;> rfl)
    (fun w _ h => by
      unfold current_back_buffer at h
      split at h <;> cases h)

theorem rc_GetCompletedValue {all : Prop} : ResultsChecked all GetCompletedValue :=
  rc_of_keeps (fun _ => rfl) (fun _ _ h => by cases h)

theorem rc_WaitForSingleObject {all : Prop} : ResultsChecked all WaitForSingleObject :=
  rc_of_keeps
    (fun w => by
      unfold WaitForSingleObject
      split
      · rfl
      · split <;> rfl)
    (fun w _ h => by
      unfold WaitForSingleObject at h
      split at h
      · cases h
      · split at h <;> cases h)

theorem rc_ResourceBarrier {all : Prop} (r : Resource) (before after : ResourceState) :
    ResultsChecked all (ResourceBarrier r before after) :=
  rc_api_void_with _ _ fun w => by cases r <;> rfl

theorem rc_ite {all : Prop} {α : Type} {c : Prop} [Decidable c] {a b : M α}
    (ha : ResultsChecked all a) (hb : ResultsChecked all b) :
    ResultsChecked all (if c then a else b) := by
  by_cases h : c <;> simp [h, ha, hb]

/-- A call whose result code goes straight into `check_hresult`. -/
theorem rc_checked_call_last {all : Prop} (a : Api) (e : World → World)
    (ha : returns_result_code a = true) :
    ResultsChecked all (api_hr_with a e >>= fun hr => check_hresult hr) := by
  intro w
  by_cases h : next_failed w.faults = true
  · constructor
    · intro u w1 heq
      simp [h] at heq
    · intro w1 heq
      simp [h] at heq
      subst heq
      exact ⟨0, a, w.trace, h, fun _ i hi => absurd hi (Nat.not_lt_zero i), by simp, rfl, ha⟩
  · constructor
    · intro u w1 heq
      simp [h] at heq
      subst heq
      refine ⟨1, by simp, ?_⟩
      intro _ i hi
      have hi0 : i = 0 := by omega
      subst hi0
      simpa using h
    · intro w1 heq
      simp [h] at heq

/-- A call whose result code goes straight into `check_hresult`, and what follows it. -/
theorem rc_checked_call {all : Prop} {β : Type} (a : Api) (e : World → World)
    (ha : returns_result_code a = true) {f : Unit → M β}
    (hf : ∀ u, ResultsChecked all (f u)) :
    ResultsChecked all (api_hr_with a e >>= fun hr => check_hresult hr >>= f) :=
  have h : ResultsChecked all ((api_hr_with a e >>= fun hr => check_hresult hr) >>= f) :=
    rc_bind (rc_checked_call_last a e ha) hf
  rc_congr (fun w => (bind_assoc_apply _ _ _ w).symm) h

theorem rc_flush_command_queue : ResultsChecked True flush_command_queue := by
  unfold flush_command_queue Signal SetEventOnCompletion CreateEventEx CloseHandle
  repeat' (with_reducible first
    | refine rc_checked_call _ _ (by with_unfolding_all rfl) (fun _ => ?_)
    | exact rc_checked_call_last _ _ (by with_unfolding_all rfl)
    | refine rc_bind ?_ (fun _ => ?_)
    | exact rc_pure _
    | exact rc_getW
    | exact rc_cassert _
    | exact rc_deref _
    | exact rc_current_back_buffer
    | exact rc_GetCompletedValue
    | exact rc_WaitForSingleObject
    | exact rc_ResourceBarrier _ _ _
    | exact rc_modifyW _ (fun _ => by with_unfolding_all rfl)
    | exact rc_api_void_with _ _ (fun _ => by with_unfolding_all rfl)
    | exact rc_throw _ (by decide)
    | apply rc_ite)

theorem rc_draw : ResultsChecked True draw := by
  unfold draw api_hr api_void ExecuteCommandLists Present
  repeat' (with_reducible first
    | exact rc_flush_command_queue
    | refine rc_checked_call _ _ (by with_unfolding_all rfl) (fun _ => ?_)
    | exact rc_checked_call_last _ _ (by with_unfolding_all rfl)
    | refine rc_bind ?_ (fun _ => ?_)
    | exact rc_pure _
    | exact rc_getW
    | exact rc_cassert _
    | exact rc_deref _
    | exact rc_current_back_buffer
    | exact rc_GetCompletedValue
    | exact rc_WaitForSingleObject
    | exact rc_ResourceBarrier _ _ _
    | exact rc_modifyW _ (fun _ => by with_unfolding_all rfl)
    | exact rc_api_void_with _ _ (fun _ => by with_unfolding_all rfl)
    | exact rc_throw _ (by decide)
    | apply rc_ite)

theorem rc_on_resize_views (n : Nat) : ∀ i h : Nat,
    ResultsChecked True (on_resize_views n i h) := by
  induction n with
  | zero =>
    intro i h
    exact rc_pure _
  | succ n ih =>
    intro i h
    unfold on_resize_views api_void
    repeat' (with_reducible first
      | exact ih _ _
      | refine rc_checked_call _ _ (by with_unfolding_all rfl) (fun _ => ?_)
      | refine rc_bind ?_ (fun _ => ?_)
      | exact rc_getW
      | exact rc_api_void_with _ _ (fun _ => by with_unfolding_all rfl))

theorem rc_on_resize : ResultsChecked True on_resize := by
  unfold on_resize api_hr api_void ExecuteCommandLists CreateCommittedResource
  repeat' (with_reducible first
    | exact rc_flush_command_queue
    | exact rc_on_resize_views _ _ _
    | refine rc_checked_call _ _ (by with_unfolding_all rfl) (fun _ => ?_)
    | exact rc_checked_call_last _ _ (by with_unfolding_all rfl)
    | refine rc_bind ?_ (fun _ => ?_)
    | exact rc_pure _
    | exact rc_getW
    | exact rc_cassert _
    | exact rc_deref _
    | exact rc_current_back_buffer
    | exact rc_GetCompletedValue
    | exact rc_WaitForSingleObject
    | exact rc_ResourceBarrier _ _ _
    | exact rc_modifyW _ (fun _ => by with_unfolding_all rfl)
    | exact rc_api_void_with _ _ (fun _ => by with_unfolding_all rfl)
    | exact rc_throw _ (by decide)
    | apply rc_ite)

/-! ## The texture's state at the acquire -/

/-- C21 (the code at the failing input): in every returning `draw_on_texture` the one
acquire of the wrapped texture happens while the texture is in the state it was created
in, `COPY_DEST`, no transition having been recorded, and the in-state declared to the wrap
is `RENDER_TARGET`: the two differ. -/
theorem acquire_state_differs_from_declared (w w1 : World)
    (h : draw_on_texture w = (Except.ok (), w1)) :
    ∃ evs : List Api, w1.trace = w.trace ++ evs ∧
      evs.filterMap frame_mark_of = [] ∧
      acquisitions { actual := none, declared_in := none, declared_out := none } evs =
        [(some ResourceState.COPY_DEST, some ResourceState.RENDER_TARGET)] ∧
      ResourceState.COPY_DEST ≠ ResourceState.RENDER_TARGET := by
  rw [draw_on_texture_ok h]
  exact ⟨_, rfl, rfl, rfl, by decide⟩

/-- C21 (witness): the draw pass from the started world. -/
theorem acquire_state_differs_from_declared_witness :
    ∃ evs : List Api, (draw_on_texture world_started).2.trace = world_started.trace ++ evs ∧
      evs.filterMap frame_mark_of = [] ∧
      acquisitions { actual := none, declared_in := none, declared_out := none } evs =
        [(some ResourceState.COPY_DEST, some ResourceState.RENDER_TARGET)] ∧
      ResourceState.COPY_DEST ≠ ResourceState.RENDER_TARGET :=
  acquire_state_differs_from_declared world_started _ (eq_of_returned _ () (by decide!))

/-! ## The indexed draw -/

/-- C23: in the mesh `make_geo` builds, every index of the index list is below the vertex
count 4, the index count 6 is a multiple of 3, and the mesh's index count is that of its one
submesh, "square", which starts at index 0 with base vertex 0. The indexed draw a later
`draw` issues takes `index_count` indices from index 0 with base vertex 0 (one instance),
so the indices it reads end inside the 12-byte index buffer and every vertex it reads lies
inside the 64-byte vertex buffer. -/
theorem indexed_draw_stays_in_buffers (w w1 : World) (h : make_geo w = (Except.ok (), w1)) :
    ∃ (g : MeshGeometry) (sub : SubmeshGeometry), w1.m_geo = some g ∧
      g.vbuf_cpu.length = 4 ∧
      (∀ i ∈ g.ibuf_cpu, i < g.vbuf_cpu.length) ∧
      g.index_count = 6 ∧ g.index_count % 3 = 0 ∧ g.ibuf_cpu.length = g.index_count ∧
      g.parts = [("square", sub)] ∧
      sub.index_count = g.index_count ∧ sub.start_index = 0 ∧ sub.base_vertex = 0 ∧
      g.ibuf_size = 12 ∧ g.vbuf_size = 64 ∧
      (∀ w2 w3 : World, w2.m_geo = w1.m_geo → draw w2 = (Except.ok (), w3) →
        ∃ (evs : List Api) (count start : Nat) (base : Int),
          w3.trace = w2.trace ++ evs ∧
          evs.filterMap indexed_draw_of = [(count, 1, start, base, 0)] ∧
          count = g.index_count ∧ start = 0 ∧ base = 0 ∧
          (start + count) * sizeof_uint16 ≤ g.ibuf_size ∧
          (∀ k : Nat, start ≤ k → k < start + count →
            ∃ i : Nat, g.ibuf_cpu.get? k = some i ∧ 0 ≤ base + (i : Int) ∧
              (base + (i : Int) + 1) * (g.vertex_stride : Int) ≤ (g.vbuf_size : Int))) := by
  have hgeo := make_geo_ok h
  refine ⟨square_geo, { index_count := 6, start_index := 0, base_vertex := 0 }, hgeo, rfl,
    by decide, rfl, rfl, rfl, rfl, rfl, rfl, rfl, rfl, rfl, ?_⟩
  intro w2 w3 h2 hd
  obtain ⟨geo, read, hg, htrace⟩ := draw_trace hd
  rw [h2, hgeo, Option.some.injEq] at hg
  subst hg
  refine ⟨_, 6, 0, 0, htrace, ?_, rfl, rfl, rfl, by decide, ?_⟩
  · by_cases hlt : read < next_fence w2.m_current_fence <;>
      simp only [flush_events, hlt, if_true, if_false, draw_events] <;> rfl
  · intro k _ hk
    have hk6 : k < 6 := by omega
    interval_cases k <;> exact ⟨_, rfl, by decide, by decide⟩

/-- C23 (witness): the mesh built from the fresh world. -/
theorem indexed_draw_stays_in_buffers_witness :
    ∃ (g : MeshGeometry) (sub : SubmeshGeometry), (make_geo world_fresh).2.m_geo = some g ∧
      g.vbuf_cpu.length = 4 ∧
      (∀ i ∈ g.ibuf_cpu, i < g.vbuf_cpu.length) ∧
      g.index_count = 6 ∧ g.index_count % 3 = 0 ∧ g.ibuf_cpu.length = g.index_count ∧
      g.parts = [("square", sub)] ∧
      sub.index_count = g.index_count ∧ sub.start_index = 0 ∧ sub.base_vertex = 0 ∧
      g.ibuf_size = 12 ∧ g.vbuf_size = 64 ∧
      (∀ w2 w3 : World, w2.m_geo = (make_geo world_fresh).2.m_geo →
        draw w2 = (Except.ok (), w3) →
        ∃ (evs : List Api) (count start : Nat) (base : Int),
          w3.trace = w2.trace ++ evs ∧
          evs.filterMap indexed_draw_of = [(count, 1, start, base, 0)] ∧
          count = g.index_count ∧ start = 0 ∧ base = 0 ∧
          (start + count) * sizeof_uint16 ≤ g.ibuf_size ∧
          (∀ k : Nat, start ≤ k → k < start + count →
            ∃ i : Nat, g.ibuf_cpu.get? k = some i ∧ 0 ≤ base + (i : Int) ∧
              (base + (i : Int) + 1) * (g.vertex_stride : Int) ≤ (g.vbuf_size : Int))) :=
  indexed_draw_stays_in_buffers world_fresh _ (eq_of_returned _ () (by decide!))

/-! ## The sample description -/

/-- A returning `init_directx` has passed the assertion of `check_msaa_support`. -/
theorem init_directx_quality {w w1 : World} (h : init_directx w = (Except.ok (), w1)) :
    0 < w.dev_num_quality_levels % UINT32_MOD := by
  by_contra hq
  simp [init_directx, create_d2d_factory, create_debug_layer, create_dxgi_factory,
    create_d3d12_device_bind_ok_iff, create_fence, get_descriptor_sizes, check_msaa_support,
    api_void, api_hr, hq] at h

theorem sample_quality_no_wrap (w : World) (hs : w.m_4x_msaa_state = true)
    (hq : 0 < w.m_4x_msaa_quality) (hlt : w.m_4x_msaa_quality < UINT32_MOD) :
    sample_quality w + 1 = w.m_4x_msaa_quality := by
  simp only [sample_quality, hs, if_true]
  have h1 : w.m_4x_msaa_quality + UINT32_MOD - 1 = (w.m_4x_msaa_quality - 1) + UINT32_MOD := by
    omega
  rw [h1, Nat.add_mod_right, Nat.mod_eq_of_lt (by omega)]
  omega

/-- C24: for either value of `m_4x_msaa_state`, a returning `init_directx` gives the swap
chain and the pipeline state one and the same pair of sample count and sample quality,
and a later `on_resize` gives that pair to the depth-stencil buffer. The pair is (1, 0)
when MSAA is off and (4, `m_4x_msaa_quality - 1`) when it is on; `m_4x_msaa_quality` is
above 0, as `check_msaa_support` asserts, so the subtraction on the `uint32_t` does not
wrap: the quality plus one is `m_4x_msaa_quality`. -/
theorem sample_description_is_shared (w w1 : World) (h : init_directx w = (Except.ok (), w1)) :
    ∃ (evs : List Api) (p : SampleDesc), w1.trace = w.trace ++ evs ∧
      w1.m_4x_msaa_state = w.m_4x_msaa_state ∧
      0 < w1.m_4x_msaa_quality ∧ w1.m_4x_msaa_quality < UINT32_MOD ∧
      evs.filterMap sample_use_of = [(SampleUse.swap_chain, p), (SampleUse.pipeline_state, p)] ∧
      (w1.m_4x_msaa_state = false → p = { Count := 1, Quality := 0 }) ∧
      (w1.m_4x_msaa_state = true →
        p.Count = 4 ∧ p.Quality + 1 = w1.m_4x_msaa_quality ∧
        p.Quality = w1.m_4x_msaa_quality - 1) ∧
      (∀ w2 w3 : World, w2.m_4x_msaa_state = w1.m_4x_msaa_state →
        w2.m_4x_msaa_quality = w1.m_4x_msaa_quality → on_resize w2 = (Except.ok (), w3) →
        ∃ evs2 : List Api, w3.trace = w2.trace ++ evs2 ∧
          evs2.filterMap sample_use_of = [(SampleUse.depth_stencil, p)]) := by
  have hq := init_directx_quality h
  obtain ⟨warp, read, htrace, -⟩ := init_directx_trace h
  obtain ⟨warp2, read2, q, c, fs, ev, hw1, -, -⟩ := init_directx_ok h
  have hstate : w1.m_4x_msaa_state = w.m_4x_msaa_state := by rw [hw1]
  have hqual : w1.m_4x_msaa_quality = w.dev_num_quality_levels % UINT32_MOD := by rw [hw1]
  have hsc : sample_count w1 = sample_count w := by
    simp only [sample_count, hstate]
  have hsq : sample_quality w1 =
      sample_quality { w with m_4x_msaa_quality := w.dev_num_quality_levels % UINT32_MOD } := by
    simp only [sample_quality, hstate, hqual]
  have hlt : w1.m_4x_msaa_quality < UINT32_MOD := by
    rw [hqual]
    exact Nat.mod_lt _ (by decide)
  refine ⟨_, { Count := sample_count w1, Quality := sample_quality w1 }, htrace, hstate,
    by rw [hqual]; exact hq, hlt, ?_, ?_, ?_, ?_⟩
  · rw [hsc, hsq]
    cases warp <;> by_cases hl : read < next_fence w.m_current_fence <;>
      simp [init_directx_events, create_d3d12_device_events, draw_on_texture_events,
        flush_events, hl, sample_use_of, init_sample_desc]
  · intro hoff
    simp [sample_count, sample_quality, hoff]
  · intro hon
    have hnw := sample_quality_no_wrap w1 hon (by rw [hqual]; exact hq) hlt
    refine ⟨by simp [sample_count, hon], hnw, ?_⟩
    simp only []
    omega
  · intro w2 w3 hs2 hq2 hr
    obtain ⟨read1, read2, q2, c2, fs2, ev2, -, hw3, -, -⟩ := on_resize_ok hr
    have hp : ({ Count := sample_count w2, Quality := sample_quality w2 } : SampleDesc) =
        { Count := sample_count w1, Quality := sample_quality w1 } := by
      simp only [sample_count, sample_quality, hs2, hq2]
    refine ⟨flush_events w2.m_command_queue (next_fence w2.m_current_fence) read1 ++
      (on_resize_events w2 ++
        flush_events w2.m_command_queue (next_fence (next_fence w2.m_current_fence)) read2),
      by rw [hw3]; simp only [List.append_assoc], ?_⟩
    rw [← hp]
    by_cases hl1 : read1 < next_fence w2.m_current_fence <;>
      by_cases hl2 : read2 < next_fence (next_fence w2.m_current_fence) <;>
        simp [on_resize_events, flush_events, hl1, hl2, sample_use_of]

/-- C24 (witness): start-up from the fresh world with 4x MSAA switched on; the device
reports one quality level, so the pair is (4, 0). -/
theorem sample_description_is_shared_witness :
    world_msaa.m_4x_msaa_state = true ∧
    ∃ (evs : List Api) (p : SampleDesc),
      (init_directx world_msaa).2.trace = world_msaa.trace ++ evs ∧
      (init_directx world_msaa).2.m_4x_msaa_state = world_msaa.m_4x_msaa_state ∧
      0 < (init_directx world_msaa).2.m_4x_msaa_quality ∧
      (init_directx world_msaa).2.m_4x_msaa_quality < UINT32_MOD ∧
      evs.filterMap sample_use_of = [(SampleUse.swap_chain, p), (SampleUse.pipeline_state, p)] ∧
      ((init_directx world_msaa).2.m_4x_msaa_state = false → p = { Count := 1, Quality := 0 }) ∧
      ((init_directx world_msaa).2.m_4x_msaa_state = true →
        p.Count = 4 ∧ p.Quality + 1 = (init_directx world_msaa).2.m_4x_msaa_quality ∧
        p.Quality = (init_directx world_msaa).2.m_4x_msaa_quality - 1) ∧
      (∀ w2 w3 : World, w2.m_4x_msaa_state = (init_directx world_msaa).2.m_4x_msaa_state →
        w2.m_4x_msaa_quality = (init_directx world_msaa).2.m_4x_msaa_quality →
        on_resize w2 = (Except.ok (), w3) →
        ∃ evs2 : List Api, w3.trace = w2.trace ++ evs2 ∧
          evs2.filterMap sample_use_of = [(SampleUse.depth_stencil, p)]) :=
  ⟨by decide!,
   sample_description_is_shared world_msaa _ (eq_of_returned _ () (by decide!))⟩

/-! ## The message loop -/

/-- What one returning `draw` means for the message loop. -/
theorem draw_loop_marks {w w1 : World} (h : draw w = (Except.ok (), w1)) :
    ∃ evs : List Api, w1.trace = w.trace ++ evs ∧
      evs.filterMap loop_mark_of = [LoopMark.draw_begin, LoopMark.frame] ∧
      w1.m_needs_draw = false ∧ w1.messages = w.messages := by
  obtain ⟨geo, read, -, htrace⟩ := draw_trace h
  obtain ⟨geo2, read2, q, c, fs, ev, -, -, hw1, -, -⟩ := draw_ok h
  refine ⟨_, htrace, ?_, by rw [hw1], by rw [hw1]⟩
  by_cases hlt : read < next_fence w.m_current_fence <;>
    simp only [flush_events, hlt, if_true, if_false, draw_events] <;> rfl

theorem run_loop_ok (fuel : Nat) : ∀ (w w1 : World) (r : Int),
    run_loop fuel w = (Except.ok r, w1) →
    ∃ evs : List Api, w1.trace = w.trace ++ evs ∧
      evs.filterMap loop_mark_of = expected_loop_marks w.m_needs_draw w.messages ∧
      (w.m_needs_draw = false → w1.m_needs_draw = false) := by
  induction fuel with
  | zero =>
    intro w w1 r h
    simp [run_loop] at h
  | succ fuel ih =>
    intro w w1 r h
    simp only [run_loop] at h
    rw [bind_ok_iff] at h
    obtain ⟨msg, wa, hget, h⟩ := h
    cases hm : w.messages with
    | nil => simp [GetMessage, hm] at hget
    | cons m rest =>
      simp only [GetMessage, hm, Prod.mk.injEq, Except.ok.injEq] at hget
      obtain ⟨rfl, rfl⟩ := hget
      by_cases hquit : m = WM_QUIT
      · simp only [hquit, if_true, pure_apply, Prod.mk.injEq] at h
        obtain ⟨-, rfl⟩ := h
        refine ⟨[Api.GetMessage], rfl, ?_, fun hf => hf⟩
        simp [expected_loop_marks, loop_mark_of, hquit]
      · simp only [hquit, if_false] at h
        by_cases hkey : m = WM_KEYDOWN
        · simp [DispatchMessage, MainWndProc, msg_proc, api_void, update, hkey] at h
          rw [bind_ok_iff] at h
          obtain ⟨u, wd, hd, hrest⟩ := h
          obtain ⟨evs1, ht1, hm1, hf1, hmsg1⟩ := draw_loop_marks hd
          obtain ⟨evs2, ht2, hm2, hf2⟩ := ih wd w1 r hrest
          simp only [] at hmsg1 ht1
          refine ⟨[Api.GetMessage, Api.DefWindowProc m, Api.UploadBuffer_copy_data] ++
            (evs1 ++ evs2), ?_, ?_, fun _ => hf2 hf1⟩
          · rw [ht2, ht1]
            simp [List.append_assoc, hkey]
          · rw [List.filterMap_append, List.filterMap_append, hm1, hm2, hf1, hmsg1]
            simp [expected_loop_marks, hkey, loop_mark_of, (by decide : ¬ WM_KEYDOWN = WM_QUIT)]
        · simp [DispatchMessage, MainWndProc, msg_proc, api_void, update, hkey] at h
          by_cases hflag : w.m_needs_draw = true
          · simp [hflag] at h
            rw [bind_ok_iff] at h
            obtain ⟨u, wd, hd, hrest⟩ := h
            obtain ⟨evs1, ht1, hm1, hf1, hmsg1⟩ := draw_loop_marks hd
            obtain ⟨evs2, ht2, hm2, hf2⟩ := ih wd w1 r hrest
            simp only [] at hmsg1 ht1
            refine ⟨[Api.GetMessage, Api.DefWindowProc m, Api.UploadBuffer_copy_data] ++
              (evs1 ++ evs2), ?_, ?_, fun _ => hf2 hf1⟩
            · rw [ht2, ht1]
              simp [List.append_assoc]
            · rw [List.filterMap_append, List.filterMap_append, hm1, hm2, hf1, hmsg1]
              simp [expected_loop_marks, hquit, hkey, hflag, loop_mark_of]
          · simp [hflag] at h
            obtain ⟨evs2, ht2, hm2, hf2⟩ := ih _ w1 r h
            simp only [] at ht2 hm2 hf2
            refine ⟨[Api.GetMessage, Api.DefWindowProc m] ++ evs2, ?_, ?_, fun _ => hf2 trivial⟩
            · rw [ht2]
              simp [List.append_assoc]
            · rw [List.filterMap_append, hm2]
              simp [expected_loop_marks, hquit, hkey, hflag, loop_mark_of]

theorem run_loop_returns (msgs : List Nat) : ∀ (fuel : Nat) (w : World) (geo : MeshGeometry),
    w.messages = msgs → WM_QUIT ∈ msgs → msgs.length < fuel → w.faults = [] →
    (w.m_curr_back_buffer = 0 ∨ w.m_curr_back_buffer = 1) → w.m_geo = some geo →
    ∃ r w1, run_loop fuel w = (Except.ok r, w1) := by
  induction msgs with
  | nil =>
    intro fuel w geo _ hq
    simp at hq
  | cons m rest ih =>
    intro fuel w geo hm hq hfuel hf hidx hgeo
    obtain ⟨f, rfl⟩ : ∃ f, fuel = f + 1 := ⟨fuel - 1, by omega⟩
    have hlen : rest.length < f := by
      simp only [List.length_cons] at hfuel
      omega
    by_cases hquit : m = WM_QUIT
    · refine ⟨to_INT w.quit_wParam,
        { w with trace := w.trace ++ [Api.GetMessage], messages := rest }, ?_⟩
      simp [run_loop, GetMessage, hm, hquit, bind_apply]
    · have hq1 : WM_QUIT ∈ rest := by
        rcases List.mem_cons.1 hq with h | h
        · exact absurd h.symm hquit
        · exact h
      have hstep : ∀ (v : World), v.messages = rest → v.faults = [] →
          (v.m_curr_back_buffer = 0 ∨ v.m_curr_back_buffer = 1) → v.m_geo = some geo →
          ∃ r w1, (draw >>= fun _ => run_loop f) v = (Except.ok r, w1) := by
        intro v hvm hvf hvidx hvgeo
        have hrange : 0 ≤ v.m_curr_back_buffer ∧ v.m_curr_back_buffer < SwapChainBufferCount := by
          simp only [SwapChainBufferCount]
          omega
        obtain ⟨wd, hd, hfd⟩ := draw_returns v hvf hrange geo hvgeo
        obtain ⟨evs1, -, -, -, hmsg1⟩ := draw_loop_marks hd
        have hidx1 : wd.m_curr_back_buffer = 0 ∨ wd.m_curr_back_buffer = 1 := by
          rcases draw_index hd with ⟨-, h1⟩ | ⟨-, h1⟩
          · exact Or.inr h1
          · exact Or.inl h1
        obtain ⟨r, w1, hr⟩ := ih f wd geo (hmsg1.trans hvm) hq1 hlen hfd hidx1
          ((draw_keeps_geo hd).trans hvgeo)
        exact ⟨r, w1, by rw [bind_apply, hd]; exact hr⟩
      by_cases hkey : m = WM_KEYDOWN
      · simp [run_loop, GetMessage, hm, hquit, bind_apply, DispatchMessage, MainWndProc,
          msg_proc, api_void, update, hkey, (by decide : ¬ WM_KEYDOWN = WM_QUIT)]
        exact hstep _ rfl hf hidx hgeo
      · by_cases hflag : w.m_needs_draw = true
        · simp [run_loop, GetMessage, hm, hquit, bind_apply, DispatchMessage, MainWndProc,
            msg_proc, api_void, update, hkey, hflag]
          exact hstep _ rfl hf hidx hgeo
        · simp [run_loop, GetMessage, hm, hquit, bind_apply, DispatchMessage, MainWndProc,
            msg_proc, api_void, update, hkey, hflag]
          exact ih f _ geo rfl hq1 hlen hf hidx hgeo

theorem expected_frames_count : ∀ msgs : List Nat,
    (expected_loop_marks false msgs).count LoopMark.frame =
      (messages_taken msgs).count WM_KEYDOWN ∧
    (expected_loop_marks false msgs).count LoopMark.update =
      (messages_taken msgs).count WM_KEYDOWN := by
  intro msgs
  induction msgs with
  | nil => exact ⟨rfl, rfl⟩
  | cons m rest ih =>
    by_cases hquit : m = WM_QUIT
    · simp [expected_loop_marks, messages_taken, hquit]
    · by_cases hkey : m = WM_KEYDOWN
      · simp only [messages_taken] at ih
        simp [expected_loop_marks, messages_taken, hkey, (by decide : ¬ WM_KEYDOWN = WM_QUIT),
          List.takeWhile_cons, ih]
      · simp only [messages_taken] at ih
        simp [expected_loop_marks, messages_taken, hkey, hquit, List.takeWhile_cons, ih,
          List.count_cons]

theorem expected_before_first_key (pre post : List Nat)
    (h : ∀ m ∈ pre, m ≠ WM_KEYDOWN ∧ m ≠ WM_QUIT) :
    expected_loop_marks false (pre ++ post) =
      pre.map LoopMark.dispatched ++ expected_loop_marks false post := by
  induction pre with
  | nil => rfl
  | cons m rest ih =>
    obtain ⟨hk, hq⟩ := h m (List.mem_cons_self m rest)
    have ih1 := ih fun x hx => h x (List.mem_cons_of_mem m hx)
    simp [expected_loop_marks, hk, hq, ih1]

/-- C22: after dispatching a message, `run` calls `update` and then `draw` exactly when
`m_needs_draw` is set (it is set when it was set before or the message is a key press),
and a returning `draw` leaves `m_needs_draw` false. Hence, starting with the flag false
as the constructor leaves it, a run that returns has dispatched the messages before
`WM_QUIT` in order, each key press followed by exactly one update and then one frame and
no other message followed by any: the frames and the updates are as many as the key
presses, and before the first key press there is none. Such a run does return when no
runtime call fails, the mesh exists and a `WM_QUIT` is among the messages. -/
theorem run_draws_once_per_key_press (w : World) :
    (∀ (w1 : World) (r : Int), run w = (Except.ok r, w1) →
      ∃ evs : List Api, w1.trace = w.trace ++ evs ∧
        evs.filterMap loop_mark_of = expected_loop_marks w.m_needs_draw w.messages ∧
        (w.m_needs_draw = false →
          w1.m_needs_draw = false ∧
          (evs.filterMap loop_mark_of).count LoopMark.frame =
            (messages_taken w.messages).count WM_KEYDOWN ∧
          (evs.filterMap loop_mark_of).count LoopMark.update =
            (messages_taken w.messages).count WM_KEYDOWN ∧
          ∀ pre post : List Nat, w.messages = pre ++ post →
            (∀ m ∈ pre, m ≠ WM_KEYDOWN ∧ m ≠ WM_QUIT) →
            evs.filterMap loop_mark_of =
              pre.map LoopMark.dispatched ++ expected_loop_marks false post)) ∧
    (∀ v v1 : World, draw v = (Except.ok (), v1) → v1.m_needs_draw = false) ∧
    (∀ (faults : List Bool) (sched : List Nat) (rtv dsv cbv levels queue_handle : Nat)
      (messages : List Nat),
      (World.init faults sched rtv dsv cbv levels queue_handle messages).m_needs_draw = false) ∧
    (∀ geo : MeshGeometry, w.faults = [] →
      (w.m_curr_back_buffer = 0 ∨ w.m_curr_back_buffer = 1) → w.m_geo = some geo →
      WM_QUIT ∈ w.messages → ∃ r w1, run w = (Except.ok r, w1)) := by
  refine ⟨?_, ?_, fun _ _ _ _ _ _ _ _ => rfl, ?_⟩
  · intro w1 r h
    obtain ⟨evs, ht, hmarks, hflag⟩ := run_loop_ok _ w w1 r h
    refine ⟨evs, ht, hmarks, ?_⟩
    intro hf
    rw [hmarks, hf]
    refine ⟨hflag hf, (expected_frames_count _).1, (expected_frames_count _).2, ?_⟩
    intro pre post hmsg hpre
    rw [hmsg]
    exact expected_before_first_key pre post hpre
  · intro v v1 h
    obtain ⟨evs, -, -, hf, -⟩ := draw_loop_marks h
    exact hf
  · intro geo hf hidx hgeo hq
    exact run_loop_returns w.messages _ w geo rfl hq (Nat.lt_succ_self _) hf hidx hgeo

/-- C22 (witness): the ready world with a paint, a key press, a paint, a key press and the
quit message pending: two frames, each right after the update that follows a key press. -/
theorem run_draws_once_per_key_press_witness :
    world_keys.m_needs_draw = false ∧
    (∃ evs : List Api, (run world_keys).2.trace = world_keys.trace ++ evs ∧
      evs.filterMap loop_mark_of =
        [ LoopMark.dispatched 15,
          LoopMark.dispatched WM_KEYDOWN, LoopMark.update, LoopMark.draw_begin, LoopMark.frame,
          LoopMark.dispatched 15,
          LoopMark.dispatched WM_KEYDOWN, LoopMark.update, LoopMark.draw_begin,
          LoopMark.frame ]) ∧
    (∃ r w1, run world_keys = (Except.ok r, w1)) :=
  ⟨by decide!,
   by
    obtain ⟨evs, ht, hmarks, -⟩ := (run_draws_once_per_key_press world_keys).1 _ 0
      (eq_of_returned _ _ (by decide!))
    exact ⟨evs, ht, hmarks.trans (by decide!)⟩,
   (run_draws_once_per_key_press world_keys).2.2.2 square_geo (by decide!) (by decide!)
     (by decide!) (by decide!)⟩

/-! ## The frame pipeline: the ten steps -/

/-- The step calls of a frame, by name. -/
theorem draw_step_calls (w : World) (geo : MeshGeometry) (queue fence read : Nat) :
    (draw_events w geo ++ flush_events queue fence read).filterMap step_call_of =
        [ (Step.Reset, "ID3D12CommandAllocator::Reset"),
          (Step.Reset, "ID3D12GraphicsCommandList::Reset"),
          (Step.RecordBarrierIn, "ResourceBarrier"),
          (Step.ClearTargets, "ClearRenderTargetView"),
          (Step.ClearTargets, "ClearDepthStencilView"),
          (Step.BindPipeline, "OMSetRenderTargets"),
          (Step.BindPipeline, "SetDescriptorHeaps"),
          (Step.BindPipeline, "SetPipelineState"),
          (Step.BindPipeline, "SetGraphicsRootSignature"),
          (Step.BindPipeline, "IASetVertexBuffers"),
          (Step.BindPipeline, "IASetIndexBuffer"),
          (Step.BindPipeline, "IASetPrimitiveTopology"),
          (Step.BindPipeline, "SetGraphicsRootDescriptorTable(0)"),
          (Step.BindPipeline, "SetGraphicsRootDescriptorTable(1)"),
          (Step.Draw, "DrawIndexedInstanced"),
          (Step.RecordBarrierOut, "ResourceBarrier"),
          (Step.Close, "ID3D12GraphicsCommandList::Close"),
          (Step.Submit, "ExecuteCommandLists"),
          (Step.Present, "Present") ] ++ advance_fence_calls (decide (read < fence)) := by
  by_cases hlt : read < fence
  · simp only [flush_events, hlt, if_true, draw_events, decide_True]
    rfl
  · simp only [flush_events, hlt, if_false, draw_events, decide_False]
    rfl

/-- C7: the calls of one returning `draw` that carry out pipeline steps are, in order and
with no call made twice: Reset (the allocator, then the list), RecordBarrierIn (one
barrier), ClearTargets (the render target, then the depth buffer), BindPipeline (the nine
bindings), Draw (one indexed draw), RecordBarrierOut (one barrier), Close, Submit, Present
(one call each) and AdvanceFence (one `flush_command_queue`: one signal, one completion
check and, when the GPU is behind, one wait). So the steps are exactly the ten of the spec,
in that order, each performed exactly once, for every frame. -/
theorem draw_performs_ten_steps (w w1 : World) (h : draw w = (Except.ok (), w1)) :
    ∃ (evs : List Api) (waited : Bool), w1.trace = w.trace ++ evs ∧
      evs.filterMap step_call_of =
        [ (Step.Reset, "ID3D12CommandAllocator::Reset"),
          (Step.Reset, "ID3D12GraphicsCommandList::Reset"),
          (Step.RecordBarrierIn, "ResourceBarrier"),
          (Step.ClearTargets, "ClearRenderTargetView"),
          (Step.ClearTargets, "ClearDepthStencilView"),
          (Step.BindPipeline, "OMSetRenderTargets"),
          (Step.BindPipeline, "SetDescriptorHeaps"),
          (Step.BindPipeline, "SetPipelineState"),
          (Step.BindPipeline, "SetGraphicsRootSignature"),
          (Step.BindPipeline, "IASetVertexBuffers"),
          (Step.BindPipeline, "IASetIndexBuffer"),
          (Step.BindPipeline, "IASetPrimitiveTopology"),
          (Step.BindPipeline, "SetGraphicsRootDescriptorTable(0)"),
          (Step.BindPipeline, "SetGraphicsRootDescriptorTable(1)"),
          (Step.Draw, "DrawIndexedInstanced"),
          (Step.RecordBarrierOut, "ResourceBarrier"),
          (Step.Close, "ID3D12GraphicsCommandList::Close"),
          (Step.Submit, "ExecuteCommandLists"),
          (Step.Present, "Present") ] ++ advance_fence_calls waited ∧
      (evs.filterMap step_call_of).Nodup ∧
      (evs.filterMap step_call_of).map Prod.fst = evs.filterMap step_of ∧
      collapse (evs.filterMap step_of) =
        [Step.Reset, Step.RecordBarrierIn, Step.ClearTargets, Step.BindPipeline, Step.Draw,
         Step.RecordBarrierOut, Step.Close, Step.Submit, Step.Present, Step.AdvanceFence] ∧
      evs.countP is_signal = 1 := by
  obtain ⟨geo, read, -, htrace⟩ := draw_trace h
  refine ⟨_, _, htrace, draw_step_calls w geo _ _ read, ?_, ?_, ?_, ?_⟩
  · rw [draw_step_calls]
    cases decide (read < next_fence w.m_current_fence) <;> decide
  · by_cases hlt : read < next_fence w.m_current_fence <;>
      simp only [flush_events, hlt, if_true, if_false, draw_events] <;> rfl
  · by_cases hlt : read < next_fence w.m_current_fence <;>
      simp only [flush_events, hlt, if_true, if_false, draw_events] <;> rfl
  · by_cases hlt : read < next_fence w.m_current_fence <;>
      simp only [flush_events, hlt, if_true, if_false, draw_events] <;> rfl

/-- C7 (witness): the first frame from the ready world. -/
theorem draw_performs_ten_steps_witness :
    ∃ (evs : List Api) (waited : Bool), (draw world_ready).2.trace = world_ready.trace ++ evs ∧
      evs.filterMap step_call_of =
        [ (Step.Reset, "ID3D12CommandAllocator::Reset"),
          (Step.Reset, "ID3D12GraphicsCommandList::Reset"),
          (Step.RecordBarrierIn, "ResourceBarrier"),
          (Step.ClearTargets, "ClearRenderTargetView"),
          (Step.ClearTargets, "ClearDepthStencilView"),
          (Step.BindPipeline, "OMSetRenderTargets"),
          (Step.BindPipeline, "SetDescriptorHeaps"),
          (Step.BindPipeline, "SetPipelineState"),
          (Step.BindPipeline, "SetGraphicsRootSignature"),
          (Step.BindPipeline, "IASetVertexBuffers"),
          (Step.BindPipeline, "IASetIndexBuffer"),
          (Step.BindPipeline, "IASetPrimitiveTopology"),
          (Step.BindPipeline, "SetGraphicsRootDescriptorTable(0)"),
          (Step.BindPipeline, "SetGraphicsRootDescriptorTable(1)"),
          (Step.Draw, "DrawIndexedInstanced"),
          (Step.RecordBarrierOut, "ResourceBarrier"),
          (Step.Close, "ID3D12GraphicsCommandList::Close"),
          (Step.Submit, "ExecuteCommandLists"),
          (Step.Present, "Present") ] ++ advance_fence_calls waited ∧
      (evs.filterMap step_call_of).Nodup ∧
      (evs.filterMap step_call_of).map Prod.fst = evs.filterMap step_of ∧
      collapse (evs.filterMap step_of) =
        [Step.Reset, Step.RecordBarrierIn, Step.ClearTargets, Step.BindPipeline, Step.Draw,
         Step.RecordBarrierOut, Step.Close, Step.Submit, Step.Present, Step.AdvanceFence] ∧
      evs.countP is_signal = 1 :=
  draw_performs_ten_steps world_ready _ (eq_of_returned _ () (by decide!))

/-! ## The descriptor slots -/

theorem to_INT_small (n : Nat) (h : n < 2 ^ 31) : to_INT n = (n : Int) := by
  have h32 : n % UINT32_MOD = n := Nat.mod_eq_of_lt (by unfold UINT32_MOD; omega)
  unfold to_INT
  rw [h32, if_pos h]

/-- C13 (counterexample): on a device whose descriptor increment is `2 ^ 31`,
`init_directx` creates the shader-resource view 2147483648 bytes after the heap start, and
the first frame binds root table 1 at 2147483648 bytes before the heap start: the
one-argument `Offset` takes the increment as a signed `INT`. -/
theorem table_one_bound_before_heap_start :
    returned (init_directx world_big_increment) = some () ∧
    (init_directx world_big_increment).2.m_cbv_srv_uav_desc_size = 2147483648 ∧
    (init_directx world_big_increment).2.trace.filterMap view_created_of =
      [(ViewKind.SRV, 2147483648), (ViewKind.CBV, 0)] ∧
    returned (on_resize (init_directx world_big_increment).2) = some () ∧
    returned (draw (on_resize (init_directx world_big_increment).2).2) = some () ∧
    ((draw (on_resize (init_directx world_big_increment).2).2).2.trace.drop
        (on_resize (init_directx world_big_increment).2).2.trace.length).filterMap
        table_bound_of =
      [(some ViewKind.CBV, 0), (some ViewKind.SRV, -2147483648)] := by
  decide!

/-- C13 (amended): `init_directx` creates one shader-visible descriptor heap, with exactly 2
slots, and creates the constant-buffer view in slot 0 (at the heap start) and the
shader-resource view in slot 1 (at the heap start plus one descriptor size): two distinct,
contiguous slots inside the heap. A later `draw` binds root table 0, which reads the CBV, at
the heap start and root table 1, which reads the SRV, at the heap start plus
`1 * m_cbv_srv_uav_desc_size` converted to `INT`. When the descriptor size is below `2 ^ 31`
the conversion keeps it, so each root table is bound at the byte offset at which its view
was created. -/
theorem descriptor_slots_match (w w1 : World) (h : init_directx w = (Except.ok (), w1)) :
    ∃ (evs : List Api) (cbv_slot srv_slot : Nat), w1.trace = w.trace ++ evs ∧
      evs.filterMap shader_heap_slots_of = [2] ∧
      cbv_slot = 0 ∧ srv_slot = 1 ∧ cbv_slot ≠ srv_slot ∧ srv_slot = cbv_slot + 1 ∧
      cbv_slot < 2 ∧ srv_slot < 2 ∧
      evs.filterMap view_created_of =
        [ (ViewKind.SRV, ((srv_slot * w1.m_cbv_srv_uav_desc_size : Nat) : Int)),
          (ViewKind.CBV, ((cbv_slot * w1.m_cbv_srv_uav_desc_size : Nat) : Int)) ] ∧
      (∀ w2 w3 : World, w2.m_cbv_srv_uav_desc_size = w1.m_cbv_srv_uav_desc_size →
        draw w2 = (Except.ok (), w3) →
        ∃ evs2 : List Api, w3.trace = w2.trace ++ evs2 ∧
          evs2.filterMap table_bound_of =
            [ (some ViewKind.CBV, ((cbv_slot * w1.m_cbv_srv_uav_desc_size : Nat) : Int)),
              (some ViewKind.SRV, to_INT (1 * w1.m_cbv_srv_uav_desc_size)) ] ∧
          (w1.m_cbv_srv_uav_desc_size < 2 ^ 31 →
            evs2.filterMap table_bound_of =
              [ (some ViewKind.CBV, ((cbv_slot * w1.m_cbv_srv_uav_desc_size : Nat) : Int)),
                (some ViewKind.SRV,
                  ((srv_slot * w1.m_cbv_srv_uav_desc_size : Nat) : Int)) ])) := by
  obtain ⟨warp, read, htrace, hsize, -, -, -⟩ := init_directx_trace h
  refine ⟨_, 0, 1, htrace, ?_, rfl, rfl, by decide, rfl, by decide, by decide, ?_, ?_⟩
  · cases warp <;> by_cases hlt : read < next_fence w.m_current_fence <;>
      simp [init_directx_events, create_d3d12_device_events, draw_on_texture_events,
        flush_events, hlt, shader_heap_slots_of]
  · rw [hsize]
    cases warp <;> by_cases hlt : read < next_fence w.m_current_fence <;>
      simp [init_directx_events, create_d3d12_device_events, draw_on_texture_events,
        flush_events, hlt, view_created_of]
  · intro w2 w3 h2 hd
    obtain ⟨geo, read2, -, htrace2⟩ := draw_trace hd
    have hmod : w1.m_cbv_srv_uav_desc_size % UINT32_MOD = w1.m_cbv_srv_uav_desc_size := by
      rw [hsize]
      exact Nat.mod_mod _ _
    have hbound : (draw_events w2 geo ++
        flush_events w2.m_command_queue (next_fence w2.m_current_fence) read2).filterMap
          table_bound_of =
        [ (some ViewKind.CBV, ((0 * w1.m_cbv_srv_uav_desc_size : Nat) : Int)),
          (some ViewKind.SRV, to_INT (1 * w1.m_cbv_srv_uav_desc_size)) ] := by
      by_cases hlt : read2 < next_fence w2.m_current_fence <;>
        simp [draw_events, flush_events, hlt, table_bound_of, root_table_kind, h2, hmod]
    refine ⟨_, htrace2, hbound, ?_⟩
    intro hsmall
    rw [hbound, Nat.one_mul, to_INT_small _ hsmall]

/-- C13 (witness): `init_directx` from the fresh world, whose device reports a descriptor
size of 32 bytes, and the first frame after it. -/
theorem descriptor_slots_match_witness :
    (init_directx world_fresh).2.m_cbv_srv_uav_desc_size < 2 ^ 31 ∧
    ∃ (evs : List Api) (cbv_slot srv_slot : Nat),
      (init_directx world_fresh).2.trace = world_fresh.trace ++ evs ∧
      evs.filterMap shader_heap_slots_of = [2] ∧
      cbv_slot = 0 ∧ srv_slot = 1 ∧ cbv_slot ≠ srv_slot ∧ srv_slot = cbv_slot + 1 ∧
      cbv_slot < 2 ∧ srv_slot < 2 ∧
      evs.filterMap view_created_of =
        [ (ViewKind.SRV,
            ((srv_slot * (init_directx world_fresh).2.m_cbv_srv_uav_desc_size : Nat) : Int)),
          (ViewKind.CBV,
            ((cbv_slot * (init_directx world_fresh).2.m_cbv_srv_uav_desc_size : Nat) : Int)) ] ∧
      (∀ w2 w3 : World,
        w2.m_cbv_srv_uav_desc_size = (init_directx world_fresh).2.m_cbv_srv_uav_desc_size →
        draw w2 = (Except.ok (), w3) →
        ∃ evs2 : List Api, w3.trace = w2.trace ++ evs2 ∧
          evs2.filterMap table_bound_of =
            [ (some ViewKind.CBV,
                ((cbv_slot * (init_directx world_fresh).2.m_cbv_srv_uav_desc_size : Nat) : Int)),
              (some ViewKind.SRV,
                to_INT (1 * (init_directx world_fresh).2.m_cbv_srv_uav_desc_size)) ] ∧
          ((init_directx world_fresh).2.m_cbv_srv_uav_desc_size < 2 ^ 31 →
            evs2.filterMap table_bound_of =
              [ (some ViewKind.CBV,
                  ((cbv_slot * (init_directx world_fresh).2.m_cbv_srv_uav_desc_size : Nat) :
                    Int)),
                (some ViewKind.SRV,
                  ((srv_slot * (init_directx world_fresh).2.m_cbv_srv_uav_desc_size : Nat) :
                    Int)) ])) :=
  ⟨by decide!, descriptor_slots_match world_fresh _ (eq_of_returned _ () (by decide!))⟩

/-! ## `on_resize`: the views, the viewport and the scissor rectangle -/

theorem to_UINT_of_small (n : Int) (h0 : 0 ≤ n) (h1 : n ≤ 2 ^ 24) : to_UINT n = n := by
  unfold to_UINT UINT32_MOD
  exact Int.emod_eq_of_lt h0 (by norm_num; omega)

theorem to_UINT64_of_small (n : Int) (h0 : 0 ≤ n) (h1 : n ≤ 2 ^ 24) : to_UINT64 n = n := by
  unfold to_UINT64 UINT64_MOD
  exact Int.emod_eq_of_lt h0 (by norm_num; omega)

/-- The client size is never assigned: in every reachable state it is the 800 by 600 of
the member initialisers (lines 150-151). -/
theorem reachable_client_size {w : World} (h : Reachable w) :
    w.m_client_width = 800 ∧ w.m_client_height = 600 := by
  induction h with
  | construct => exact ⟨rfl, rfl⟩
  | init_directx _ hcall ih =>
    obtain ⟨warp, read, q, c, fs, ev, rfl, -, -⟩ := init_directx_ok hcall
    exact ih
  | on_resize _ hcall ih =>
    obtain ⟨read1, read2, q, c, fs, ev, -, rfl, -, -⟩ := on_resize_ok hcall
    exact ih
  | draw _ hcall ih =>
    obtain ⟨geo, read, q, c, fs, ev, -, -, rfl, -, -⟩ := draw_ok hcall
    exact ih

/-- What a returning `on_resize` does with a client size between 0 and `2 ^ 24`, for which
the conversions to `UINT`, `UINT64` and `float` keep the value. -/
theorem on_resize_views_of_size {w w1 : World} (h : on_resize w = (Except.ok (), w1))
    (hw0 : 0 ≤ w.m_client_width) (hw1 : w.m_client_width ≤ 2 ^ 24)
    (hh0 : 0 ≤ w.m_client_height) (hh1 : w.m_client_height ≤ 2 ^ 24) :
    ∃ evs : List Api, w1.trace = w.trace ++ evs ∧
      evs.filterMap rtv_created_of = [(0, 0 * w.m_rtv_desc_size), (1, 1 * w.m_rtv_desc_size)] ∧
      evs.filterMap depth_call_of =
        [DepthCall.buffer w.m_client_width w.m_client_height, DepthCall.view] ∧
      w1.m_screen_viewport =
        { TopLeftX := 0, TopLeftY := 0, Width := w.m_client_width,
          Height := w.m_client_height, MinDepth := 0, MaxDepth := 1 } ∧
      w1.m_scissor_rect =
        { left := 0, top := 0, right := w.m_client_width, bottom := w.m_client_height } ∧
      w1.m_client_width = w.m_client_width ∧ w1.m_client_height = w.m_client_height := by
  obtain ⟨read1, read2, q, c, fs, ev, -, rfl, -, -⟩ := on_resize_ok h
  have hfw : static_cast_float w.m_client_width = w.m_client_width :=
    static_cast_float_exact _ (by omega)
  have hfh : static_cast_float w.m_client_height = w.m_client_height :=
    static_cast_float_exact _ (by omega)
  refine ⟨_, by simp only [List.append_assoc]; rfl, ?_, ?_, ?_, rfl, rfl, rfl⟩
  · by_cases hlt1 : read1 < next_fence w.m_current_fence <;>
      by_cases hlt2 : read2 < next_fence (next_fence w.m_current_fence) <;>
        simp [on_resize_events, flush_events, hlt1, hlt2, rtv_created_of]
  · by_cases hlt1 : read1 < next_fence w.m_current_fence <;>
      by_cases hlt2 : read2 < next_fence (next_fence w.m_current_fence) <;>
        simp [on_resize_events, flush_events, hlt1, hlt2, depth_call_of,
          to_UINT64_of_small _ hw0 hw1, to_UINT_of_small _ hh0 hh1]
  · show (⟨0, 0, static_cast_float w.m_client_width, static_cast_float w.m_client_height,
      0, 1⟩ : Viewport) = _
    rw [hfw, hfh]

/-- C11: after a returning `on_resize` in a reachable state, with client size `(w, h)` (the
program's 800 by 600, which nothing changes), a render-target view has been created for
each of the 2 swap-chain buffers, buffer `i` at RTV-heap offset `i * m_rtv_desc_size`, and a
depth-stencil view on a new `w` by `h` depth buffer; the viewport has top-left (0,0), depth
range [0,1] and width and height exactly `w` and `h`; the scissor rectangle is
`{0, 0, w, h}`. -/
theorem on_resize_recreates_views (w w1 : World) (hr : Reachable w)
    (h : on_resize w = (Except.ok (), w1)) :
    ∃ evs : List Api, w1.trace = w.trace ++ evs ∧
      evs.filterMap rtv_created_of = [(0, 0 * w.m_rtv_desc_size), (1, 1 * w.m_rtv_desc_size)] ∧
      evs.filterMap depth_call_of =
        [DepthCall.buffer w.m_client_width w.m_client_height, DepthCall.view] ∧
      w1.m_screen_viewport =
        { TopLeftX := 0, TopLeftY := 0, Width := w.m_client_width,
          Height := w.m_client_height, MinDepth := 0, MaxDepth := 1 } ∧
      w1.m_scissor_rect =
        { left := 0, top := 0, right := w.m_client_width, bottom := w.m_client_height } ∧
      w1.m_client_width = w.m_client_width ∧ w1.m_client_height = w.m_client_height ∧
      w.m_client_width = 800 ∧ w.m_client_height = 600 := by
  obtain ⟨hw, hh⟩ := reachable_client_size hr
  obtain ⟨evs, h1, h2, h3, h4, h5, h6, h7⟩ :=
    on_resize_views_of_size h (by rw [hw]; decide) (by rw [hw]; decide)
      (by rw [hh]; decide) (by rw [hh]; decide)
  exact ⟨evs, h1, h2, h3, h4, h5, h6, h7, hw, hh⟩

/-- C11 (witness): `on_resize` from the started world, which is reachable. -/
theorem on_resize_recreates_views_witness :
    ∃ evs : List Api, (on_resize world_started).2.trace = world_started.trace ++ evs ∧
      evs.filterMap rtv_created_of =
        [(0, 0 * world_started.m_rtv_desc_size), (1, 1 * world_started.m_rtv_desc_size)] ∧
      evs.filterMap depth_call_of =
        [DepthCall.buffer world_started.m_client_width world_started.m_client_height,
         DepthCall.view] ∧
      (on_resize world_started).2.m_screen_viewport =
        { TopLeftX := 0, TopLeftY := 0, Width := world_started.m_client_width,
          Height := world_started.m_client_height, MinDepth := 0, MaxDepth := 1 } ∧
      (on_resize world_started).2.m_scissor_rect =
        { left := 0, top := 0, right := world_started.m_client_width,
          bottom := world_started.m_client_height } ∧
      (on_resize world_started).2.m_client_width = world_started.m_client_width ∧
      (on_resize world_started).2.m_client_height = world_started.m_client_height ∧
      world_started.m_client_width = 800 ∧ world_started.m_client_height = 600 :=
  on_resize_recreates_views world_started _
    (Reachable.init_directx (Reachable.construct [] [] 32 8 32 1 7 [])
      (eq_of_returned (init_directx world_fresh) () (by decide!)))
    (eq_of_returned _ () (by decide!))

/-! ## Start-up: which calls show a message box -/

theorem nl_of_keeps {bad : Api → Bool} {α : Type} {m : M α}
    (hk : ∀ w : World, (m w).2.trace = w.trace) : NeverLogs bad m :=
  fun w => ⟨[], by rw [hk w, List.append_nil], rfl⟩

theorem nl_of_logs {bad : Api → Bool} {α : Type} {m : M α} (a : Api) (ha : bad a = false)
    (hk : ∀ w : World, (m w).2.trace = w.trace ++ [a]) : NeverLogs bad m :=
  fun w => ⟨[a], hk w, by simp [ha]⟩

theorem nl_bind {bad : Api → Bool} {α β : Type} {m : M α} {f : α → M β}
    (hm : NeverLogs bad m) (hf : ∀ a, NeverLogs bad (f a)) : NeverLogs bad (m >>= f) := by
  intro w
  obtain ⟨e1, h1, hb1⟩ := hm w
  rw [bind_apply]
  rcases hmw : m w with ⟨r, w1⟩
  rw [hmw] at h1
  cases r with
  | error err => exact ⟨e1, h1, hb1⟩
  | ok a =>
    obtain ⟨e2, h2, hb2⟩ := hf a w1
    refine ⟨e1 ++ e2, ?_, ?_⟩
    · simp only [] at h1 ⊢
      rw [h2, h1, List.append_assoc]
    · rw [List.any_append, hb1, hb2]
      rfl

theorem nl_ite {bad : Api → Bool} {α : Type} {c : Prop} [Decidable c] {a b : M α}
    (ha : NeverLogs bad a) (hb : NeverLogs bad b) : NeverLogs bad (if c then a else b) := by
  by_cases h : c <;> simp [h, ha, hb]

theorem nl_pure {bad : Api → Bool} {α : Type} (a : α) : NeverLogs bad (pure a : M α) :=
  nl_of_keeps fun _ => rfl

theorem nl_throw {bad : Api → Bool} {α : Type} (e : Err) : NeverLogs bad (M.throw e : M α) :=
  nl_of_keeps fun _ => rfl

theorem nl_getW {bad : Api → Bool} : NeverLogs bad getW :=
  nl_of_keeps fun _ => rfl

theorem nl_modifyW {bad : Api → Bool} (g : World → World)
    (hg : ∀ w : World, (g w).trace = w.trace) : NeverLogs bad (modifyW g) :=
  nl_of_keeps hg

theorem nl_check_hresult {bad : Api → Bool} (failed : Bool) :
    NeverLogs bad (check_hresult failed) :=
  nl_of_keeps fun _ => by cases failed <;> rfl

theorem nl_cassert {bad : Api → Bool} (c : Bool) : NeverLogs bad (cassert c) :=
  nl_of_keeps fun _ => by cases c <;> rfl

theorem nl_deref {bad : Api → Bool} {α : Type} (p : Option α) : NeverLogs bad (deref p) :=
  nl_of_keeps fun _ => by cases p <;> rfl

theorem nl_current_back_buffer {bad : Api → Bool} : NeverLogs bad current_back_buffer :=
  nl_of_keeps fun w => by unfold current_back_buffer; split <;> rfl

theorem nl_api_void_with {bad : Api → Bool} (a : Api) (e : World → World)
    (ha : bad a = false) : NeverLogs bad (api_void_with a e) :=
  nl_of_logs a ha fun _ => rfl

theorem nl_api_hr_with {bad : Api → Bool} (a : Api) (e : World → World)
    (ha : bad a = false) : NeverLogs bad (api_hr_with a e) :=
  nl_of_logs a ha fun w => by
    rw [api_hr_with_apply]
    split <;> rfl

theorem nl_EndDraw {bad : Api → Bool} (ha : bad Api.EndDraw = false) :
    NeverLogs bad EndDraw :=
  nl_of_logs Api.EndDraw ha fun _ => rfl

theorem nl_GetCompletedValue {bad : Api → Bool}
    (ha : ∀ v : Nat, bad (Api.GetCompletedValue v) = false) : NeverLogs bad GetCompletedValue :=
  fun w => ⟨[Api.GetCompletedValue _], rfl, by simp [ha]⟩

theorem nl_WaitForSingleObject {bad : Api → Bool} (ha : bad Api.WaitForSingleObject = false) :
    NeverLogs bad WaitForSingleObject :=
  nl_of_logs Api.WaitForSingleObject ha fun w => by
    unfold WaitForSingleObject
    split
    · rfl
    · split <;> rfl

theorem nl_GetMessage {bad : Api → Bool} (ha : bad Api.GetMessage = false) :
    NeverLogs bad GetMessage :=
  nl_of_logs Api.GetMessage ha fun w => by
    unfold GetMessage
    split <;> rfl

theorem nl_flush_command_queue : NeverLogs is_message_box flush_command_queue := by
  unfold flush_command_queue Signal SetEventOnCompletion CreateEventEx CloseHandle
  repeat' (with_reducible first
    | refine nl_bind ?_ (fun _ => ?_)
    | exact nl_pure _
    | exact nl_getW
    | exact nl_check_hresult _
    | exact nl_GetCompletedValue (fun _ => by with_unfolding_all rfl)
    | exact nl_WaitForSingleObject (by with_unfolding_all rfl)
    | exact nl_modifyW _ (fun _ => by with_unfolding_all rfl)
    | exact nl_api_void_with _ _ (by with_unfolding_all rfl)
    | exact nl_api_hr_with _ _ (by with_unfolding_all rfl)
    | apply nl_ite)

theorem nl_draw : NeverLogs is_message_box draw := by
  unfold draw api_hr api_void ExecuteCommandLists Present ResourceBarrier
  repeat' (with_reducible first
    | exact nl_flush_command_queue
    | refine nl_bind ?_ (fun _ => ?_)
    | exact nl_pure _
    | exact nl_getW
    | exact nl_check_hresult _
    | exact nl_deref _
    | exact nl_current_back_buffer
    | exact nl_modifyW _ (fun _ => by with_unfolding_all rfl)
    | exact nl_api_void_with _ _ (by with_unfolding_all rfl)
    | exact nl_api_hr_with _ _ (by with_unfolding_all rfl)
    | apply nl_ite)

theorem nl_on_resize_views (n : Nat) : ∀ i h : Nat,
    NeverLogs is_message_box (on_resize_views n i h) := by
  induction n with
  | zero =>
    intro i h
    exact nl_pure _
  | succ n ih =>
    intro i h
    unfold on_resize_views api_void
    repeat' (with_reducible first
      | exact ih _ _
      | refine nl_bind ?_ (fun _ => ?_)
      | exact nl_getW
      | exact nl_check_hresult _
      | exact nl_api_void_with _ _ (by with_unfolding_all rfl)
      | exact nl_api_hr_with _ _ (by with_unfolding_all rfl))

theorem nl_on_resize : NeverLogs is_message_box on_resize := by
  unfold on_resize api_hr api_void ExecuteCommandLists CreateCommittedResource ResourceBarrier
  repeat' (with_reducible first
    | exact nl_flush_command_queue
    | exact nl_on_resize_views _ _ _
    | refine nl_bind ?_ (fun _ => ?_)
    | exact nl_pure _
    | exact nl_getW
    | exact nl_check_hresult _
    | exact nl_cassert _
    | exact nl_modifyW _ (fun _ => by with_unfolding_all rfl)
    | exact nl_api_void_with _ _ (by with_unfolding_all rfl)
    | exact nl_api_hr_with _ _ (by with_unfolding_all rfl)
    | apply nl_ite)

theorem nl_init_directx : NeverLogs is_message_box init_directx := by
  unfold init_directx create_d2d_factory create_debug_layer create_dxgi_factory
    create_d3d12_device create_fence get_descriptor_sizes check_msaa_support
    create_command_objects create_swap_chain create_rtv_and_dsv_descriptor_heaps
    load_textures draw_on_texture build_descriptor_heaps build_constant_buffers
    build_root_signature build_shaders_and_input_layout make_geo build_pso d3d_util_call
    api_hr api_void ExecuteCommandLists ResourceUploadBatch_End future_wait
    CreateCommittedResource CreateWrappedResource AcquireWrappedResources BeginDraw
    ReleaseWrappedResources
  repeat' (with_reducible first
    | exact nl_flush_command_queue
    | refine nl_bind ?_ (fun _ => ?_)
    | exact nl_pure _
    | exact nl_getW
    | exact nl_check_hresult _
    | exact nl_cassert _
    | exact nl_EndDraw (by with_unfolding_all rfl)
    | exact nl_throw _
    | exact nl_modifyW _ (fun _ => by with_unfolding_all rfl)
    | exact nl_api_void_with _ _ (by with_unfolding_all rfl)
    | exact nl_api_hr_with _ _ (by with_unfolding_all rfl)
    | apply nl_ite)

theorem nl_run_loop (fuel : Nat) : NeverLogs is_message_box (run_loop fuel) := by
  induction fuel with
  | zero => exact nl_throw _
  | succ n ih =>
    unfold run_loop DispatchMessage MainWndProc msg_proc update api_void
    repeat' (with_reducible first
      | exact ih
      | exact nl_draw
      | refine nl_bind ?_ (fun _ => ?_)
      | exact nl_pure _
      | exact nl_getW
      | exact nl_GetMessage (by with_unfolding_all rfl)
      | exact nl_modifyW _ (fun _ => by with_unfolding_all rfl)
      | exact nl_api_void_with _ _ (by with_unfolding_all rfl)
      | apply nl_ite)

theorem nl_run : NeverLogs is_message_box run :=
  fun w => nl_run_loop (w.messages.length + 1) w

/-- What `wWinMain` does once the window exists: `init_directx`, `on_resize`, `run`. -/
theorem wWinMain_of_window {w : World} (h1 : next_failed w.faults = false)
    (h2 : next_failed w.faults.tail = false) :
    wWinMain w =
      (init_directx >>= fun _ => on_resize >>= fun _ => run)
        { w with m_main_window_h := true,
                 trace := w.trace ++
                   [Api.PIXLoadLatestWinPixGpuCapturerLibrary, Api.RegisterClass,
                    Api.AdjustWindowRect, Api.CreateWindow, Api.RegisterTouchWindow,
                    Api.ShowWindow, Api.UpdateWindow],
                 faults := w.faults.tail.tail } := by
  simp [wWinMain, init_main_window, api_hr, api_void, h1, h2]

/-- C16 (counterexample): when the window is created and `D2D1CreateFactory`, the first
call of `init_directx`, fails, `wWinMain` ends with the exception of `check_hresult` after
eight calls, none of which is a `MessageBox`. -/
theorem failed_init_directx_shows_no_message_box :
    is_hresult_error (wWinMain world_no_d2d).1 = true ∧
    (wWinMain world_no_d2d).2.trace.length = 8 ∧
    (wWinMain world_no_d2d).2.trace.any is_message_box = false := by
  decide!

/-- C16 (amended): when the registration of the window class fails, `init_main_window`
shows the message box "RegisterClass Failed." and returns false without creating the
window; when the creation of the window fails, it shows "CreateWindow Failed." and returns
false without showing the window. On no path, returning or throwing, does `init_directx` or
`on_resize` show a message box. So when a step of `init_directx` fails, or of `on_resize`
after it, the exception leaves `wWinMain` with the state as it was at the throw: no message
box was shown since `init_main_window` returned, and nothing runs after the failing step,
neither `on_resize` nor `run`. When the window was created, `wWinMain` shows no message box
at all, whatever fails later. -/
theorem startup_failures :
    (∀ w : World, next_failed w.faults = true →
      init_main_window w =
        (Except.ok false,
          { w with trace := w.trace ++
                     [Api.RegisterClass, Api.MessageBox "RegisterClass Failed."],
                   faults := w.faults.tail })) ∧
    (∀ w : World, next_failed w.faults = false → next_failed w.faults.tail = true →
      init_main_window w =
        (Except.ok false,
          { w with m_main_window_h := false,
                   trace := w.trace ++
                     [Api.RegisterClass, Api.AdjustWindowRect, Api.CreateWindow,
                      Api.MessageBox "CreateWindow Failed."],
                   faults := w.faults.tail.tail })) ∧
    NeverLogs is_message_box init_directx ∧
    NeverLogs is_message_box on_resize ∧
    (∀ (w w0 w1 : World) (b : Bool) (e : Err),
      (api_void Api.PIXLoadLatestWinPixGpuCapturerLibrary >>= fun _ => init_main_window) w =
        (Except.ok b, w0) →
      init_directx w0 = (Except.error e, w1) →
      wWinMain w = (Except.error e, w1) ∧
      ∃ evs : List Api, w1.trace = w0.trace ++ evs ∧ evs.any is_message_box = false) ∧
    (∀ (w w0 w1 w2 : World) (b : Bool) (e : Err),
      (api_void Api.PIXLoadLatestWinPixGpuCapturerLibrary >>= fun _ => init_main_window) w =
        (Except.ok b, w0) →
      init_directx w0 = (Except.ok (), w1) →
      on_resize w1 = (Except.error e, w2) →
      wWinMain w = (Except.error e, w2) ∧
      ∃ evs : List Api, w2.trace = w0.trace ++ evs ∧ evs.any is_message_box = false) ∧
    (∀ w : World, next_failed w.faults = false → next_failed w.faults.tail = false →
      ∃ evs : List Api, (wWinMain w).2.trace = w.trace ++ evs ∧
        evs.any is_message_box = false) := by
  refine ⟨?_, ?_, nl_init_directx, nl_on_resize, ?_, ?_, ?_⟩
  · intro w h1
    simp [init_main_window, api_hr, api_void, h1]
  · intro w h1 h2
    simp [init_main_window, api_hr, api_void, h1, h2]
  · intro w w0 w1 b e h0 h1
    have hw : wWinMain w =
        ((api_void Api.PIXLoadLatestWinPixGpuCapturerLibrary >>= fun _ => init_main_window) >>=
          fun _ => init_directx >>= fun _ => on_resize >>= fun _ => run) w := by
      simp only [wWinMain, bind_assoc_apply]
    constructor
    · rw [hw, bind_apply, h0]
      simp only []
      rw [bind_apply, h1]
    · obtain ⟨evs, ht, hb⟩ := nl_init_directx w0
      rw [h1] at ht
      exact ⟨evs, ht, hb⟩
  · intro w w0 w1 w2 b e h0 h1 h2
    have hw : wWinMain w =
        ((api_void Api.PIXLoadLatestWinPixGpuCapturerLibrary >>= fun _ => init_main_window) >>=
          fun _ => init_directx >>= fun _ => on_resize >>= fun _ => run) w := by
      simp only [wWinMain, bind_assoc_apply]
    constructor
    · rw [hw, bind_apply, h0]
      simp only []
      rw [bind_apply, h1]
      simp only []
      rw [bind_apply, h2]
    · obtain ⟨evs1, ht1, hb1⟩ := nl_init_directx w0
      obtain ⟨evs2, ht2, hb2⟩ := nl_on_resize w1
      rw [h1] at ht1
      rw [h2] at ht2
      refine ⟨evs1 ++ evs2, ?_, ?_⟩
      · simp only [] at ht1 ht2
        rw [ht2, ht1, List.append_assoc]
      · rw [List.any_append, hb1, hb2]
        rfl
  · intro w h1 h2
    have hrest : NeverLogs is_message_box
        (init_directx >>= fun _ => on_resize >>= fun _ => run) :=
      nl_bind nl_init_directx (fun _ => nl_bind nl_on_resize (fun _ => nl_run))
    rw [wWinMain_of_window h1 h2]
    obtain ⟨evs, ht, hb⟩ := hrest
      { w with m_main_window_h := true,
               trace := w.trace ++
                 [Api.PIXLoadLatestWinPixGpuCapturerLibrary, Api.RegisterClass,
                  Api.AdjustWindowRect, Api.CreateWindow, Api.RegisterTouchWindow,
                  Api.ShowWindow, Api.UpdateWindow],
               faults := w.faults.tail.tail }
    refine ⟨[Api.PIXLoadLatestWinPixGpuCapturerLibrary, Api.RegisterClass,
      Api.AdjustWindowRect, Api.CreateWindow, Api.RegisterTouchWindow,
      Api.ShowWindow, Api.UpdateWindow] ++ evs, ?_, ?_⟩
    · rw [ht, List.append_assoc]
    · rw [List.any_append, hb]
      rfl

/-- C16 (witness): the registration fails in a fresh world whose first call fails; and in
the world in which the window is created and the first call of `init_directx` fails, no
message box is shown. -/
theorem startup_failures_witness :
    init_main_window (World.init [true] [] 32 8 32 1 7 []) =
      (Except.ok false,
        { (World.init [true] [] 32 8 32 1 7 []) with
            trace := (World.init [true] [] 32 8 32 1 7 []).trace ++
              [Api.RegisterClass, Api.MessageBox "RegisterClass Failed."],
            faults := (World.init [true] [] 32 8 32 1 7 []).faults.tail }) ∧
    ∃ evs : List Api, (wWinMain world_no_d2d).2.trace = world_no_d2d.trace ++ evs ∧
      evs.any is_message_box = false :=
  ⟨startup_failures.1 (World.init [true] [] 32 8 32 1 7 []) (by decide),
   startup_failures.2.2.2.2.2.2 world_no_d2d (by decide) (by decide)⟩

/-! ## Result codes: a failing checked call aborts -/

theorem replay_results_append (lenient : Option Api → Api → Bool) (aborted : Bool)
    (e2 : List Api) (fs2 : List Bool) :
    ∀ (e1 : List Api) (prev : Option Api) (fs fs1 : List Bool),
      replay_results lenient false prev fs e1 = some fs1 →
      replay_results lenient aborted (last_call prev e1) fs1 e2 = some fs2 →
      replay_results lenient aborted prev fs (e1 ++ e2) = some fs2 := by
  intro e1
  induction e1 with
  | nil =>
    intro prev fs fs1 h1 h2
    simp only [replay_results, Bool.false_eq_true, if_false, Option.some.injEq] at h1
    subst h1
    exact h2
  | cons a rest ih =>
    intro prev fs fs1 h1 h2
    simp only [List.cons_append, replay_results, last_call] at h1 h2 ⊢
    by_cases hrc : returns_result_code a = true
    · simp only [hrc, if_true] at h1 ⊢
      by_cases hf : next_failed fs = true
      · simp only [hf, if_true, Bool.and_false, Bool.false_eq_true, if_false] at h1 ⊢
        by_cases hl : lenient prev a = true
        · simp only [hl, if_true] at h1 ⊢
          by_cases hlast : ((rest ++ e2).isEmpty && aborted) = true
          · exfalso
            simp only [Bool.and_eq_true, List.isEmpty_iff, List.append_eq_nil] at hlast
            obtain ⟨⟨hr, he⟩, ha⟩ := hlast
            subst hr he ha
            simp [replay_results, last_call] at h2
          · have happ : rest.append e2 = rest ++ e2 := rfl
            rw [happ, if_neg hlast]
            exact ih _ _ _ h1 h2
        · simp [hl] at h1
      · simp only [hf, Bool.false_eq_true, if_false] at h1 ⊢
        exact ih _ _ _ h1 h2
    · simp only [hrc, Bool.false_eq_true, if_false] at h1 ⊢
      exact ih _ _ _ h1 h2

theorem replay_results_lenient (lenient : Option Api → Api → Bool) (aborted : Bool) :
    ∀ (evs : List Api) (prev : Option Api) (fs fs1 : List Bool),
      replay_results lenient_nowhere aborted prev fs evs = some fs1 →
      replay_results lenient aborted prev fs evs = some fs1 := by
  intro evs
  induction evs with
  | nil =>
    intro prev fs fs1 h
    simpa only [replay_results] using h
  | cons a rest ih =>
    intro prev fs fs1 h
    simp only [replay_results] at h ⊢
    by_cases hrc : returns_result_code a = true
    · simp only [hrc, if_true] at h ⊢
      by_cases hf : next_failed fs = true
      · simp only [hf, if_true] at h ⊢
        by_cases hlast : (rest.isEmpty && aborted) = true
        · simp only [hlast, if_true] at h ⊢
          exact h
        · simp [hlast, lenient_nowhere] at h
      · simp only [hf, Bool.false_eq_true, if_false] at h ⊢
        exact ih _ _ _ h
    · simp only [hrc, Bool.false_eq_true, if_false] at h ⊢
      exact ih _ _ _ h

theorem fa_congr {lenient : Option Api → Api → Bool} {α : Type} {m m1 : M α}
    (h : ∀ w : World, m w = m1 w) (h1 : FailureAborts lenient m1) :
    FailureAborts lenient m := by
  intro w prev
  rw [h w]
  exact h1 w prev

theorem fa_lenient {lenient : Option Api → Api → Bool} {α : Type} {m : M α}
    (h : FailureAborts lenient_nowhere m) : FailureAborts lenient m := by
  intro w prev
  obtain ⟨evs, ht, hr⟩ := h w prev
  exact ⟨evs, ht, replay_results_lenient lenient _ evs prev _ _ hr⟩

theorem fa_bind {lenient : Option Api → Api → Bool} {α β : Type} {m : M α} {f : α → M β}
    (hm : FailureAborts lenient m) (hf : ∀ a, FailureAborts lenient (f a)) :
    FailureAborts lenient (m >>= f) := by
  intro w prev
  obtain ⟨e1, ht1, hr1⟩ := hm w prev
  rw [bind_apply]
  rcases hmw : m w with ⟨r, w1⟩
  rw [hmw] at ht1 hr1
  cases r with
  | error err =>
    refine ⟨e1, ht1, ?_⟩
    cases err <;> exact hr1
  | ok a =>
    obtain ⟨e2, ht2, hr2⟩ := hf a w1 (last_call prev e1)
    refine ⟨e1 ++ e2, ?_, ?_⟩
    · simp only [] at ht1 ⊢
      rw [ht2, ht1, List.append_assoc]
    · exact replay_results_append lenient _ e2 _ e1 prev _ _ hr1 hr2

/-- A computation that logs nothing, takes no outcome and never throws the exception of
`check_hresult`. -/
theorem fa_of_keeps {lenient : Option Api → Api → Bool} {α : Type} {m : M α}
    (hk : ∀ w : World, (m w).2.trace = w.trace ∧ (m w).2.faults = w.faults ∧
      is_hresult_error (m w).1 = false) :
    FailureAborts lenient m := by
  intro w prev
  obtain ⟨ht, hf, he⟩ := hk w
  refine ⟨[], by rw [ht, List.append_nil], ?_⟩
  rw [he, hf]
  rfl

/-- A computation that logs one call which returns no result code, takes no outcome and
never throws the exception of `check_hresult`. -/
theorem fa_of_logs {lenient : Option Api → Api → Bool} {α : Type} {m : M α} (a : Api)
    (ha : returns_result_code a = false)
    (hk : ∀ w : World, (m w).2.trace = w.trace ++ [a] ∧ (m w).2.faults = w.faults ∧
      is_hresult_error (m w).1 = false) :
    FailureAborts lenient m := by
  intro w prev
  obtain ⟨ht, hf, he⟩ := hk w
  refine ⟨[a], ht, ?_⟩
  rw [he, hf]
  simp [replay_results, ha]

theorem fa_pure {lenient : Option Api → Api → Bool} {α : Type} (a : α) :
    FailureAborts lenient (pure a : M α) :=
  fa_of_keeps fun _ => ⟨rfl, rfl, rfl⟩

theorem fa_throw {lenient : Option Api → Api → Bool} {α : Type} (e : Err)
    (he : e ≠ Err.hresult_error) : FailureAborts lenient (M.throw e : M α) :=
  fa_of_keeps fun _ => ⟨rfl, rfl, by cases e <;> first | rfl | exact absurd rfl he⟩

theorem fa_getW {lenient : Option Api → Api → Bool} : FailureAborts lenient getW :=
  fa_of_keeps fun _ => ⟨rfl, rfl, rfl⟩

theorem fa_modifyW {lenient : Option Api → Api → Bool} (g : World → World)
    (hg : ∀ w : World, (g w).trace = w.trace ∧ (g w).faults = w.faults) :
    FailureAborts lenient (modifyW g) :=
  fa_of_keeps fun w => ⟨(hg w).1, (hg w).2, rfl⟩

theorem fa_cassert {lenient : Option Api → Api → Bool} (c : Bool) :
    FailureAborts lenient (cassert c) :=
  fa_of_keeps fun _ => by cases c <;> exact ⟨rfl, rfl, rfl⟩

theorem fa_deref {lenient : Option Api → Api → Bool} {α : Type} (p : Option α) :
    FailureAborts lenient (deref p) :=
  fa_of_keeps fun _ => by cases p <;> exact ⟨rfl, rfl, rfl⟩

theorem fa_current_back_buffer {lenient : Option Api → Api → Bool} :
    FailureAborts lenient current_back_buffer :=
  fa_of_keeps fun w => by
    unfold current_back_buffer
    split <;> exact ⟨rfl, rfl, rfl⟩

theorem fa_api_void_with {lenient : Option Api → Api → Bool} (a : Api) (e : World → World)
    (ha : returns_result_code a = false) (he : ∀ w : World, (e w).faults = w.faults) :
    FailureAborts lenient (api_void_with a e) :=
  fa_of_logs a ha fun w => ⟨rfl, he w, rfl⟩

theorem fa_GetCompletedValue {lenient : Option Api → Api → Bool} :
    FailureAborts lenient GetCompletedValue := by
  intro w prev
  exact ⟨[Api.GetCompletedValue _], rfl, rfl⟩

theorem fa_WaitForSingleObject {lenient : Option Api → Api → Bool} :
    FailureAborts lenient WaitForSingleObject :=
  fa_of_logs Api.WaitForSingleObject rfl fun w => by
    unfold WaitForSingleObject
    split
    · exact ⟨rfl, rfl, rfl⟩
    · split <;> exact ⟨rfl, rfl, rfl⟩

theorem fa_ite {lenient : Option Api → Api → Bool} {α : Type} {c : Prop} [Decidable c]
    {a b : M α} (ha : FailureAborts lenient a) (hb : FailureAborts lenient b) :
    FailureAborts lenient (if c then a else b) := by
  by_cases h : c <;> simp [h, ha, hb]

/-- A call whose result code goes straight into `check_hresult`. -/
theorem fa_checked_call_last {lenient : Option Api → Api → Bool} (a : Api)
    (e : World → World) (ha : returns_result_code a = true) :
    FailureAborts lenient (api_hr_with a e >>= fun hr => check_hresult hr) := by
  intro w prev
  refine ⟨[a], ?_, ?_⟩
  · by_cases h : next_failed w.faults = true <;> simp [h]
  · by_cases h : next_failed w.faults = true <;>
      simp [h, replay_results, ha, is_hresult_error]

/-- A call whose result code goes straight into `check_hresult`, and what follows it. -/
theorem fa_checked_call {lenient : Option Api → Api → Bool} {β : Type} (a : Api)
    (e : World → World) (ha : returns_result_code a = true) {f : Unit → M β}
    (hf : ∀ u, FailureAborts lenient (f u)) :
    FailureAborts lenient (api_hr_with a e >>= fun hr => check_hresult hr >>= f) :=
  have h : FailureAborts lenient ((api_hr_with a e >>= fun hr => check_hresult hr) >>= f) :=
    fa_bind (fa_checked_call_last a e ha) hf
  fa_congr (fun w => (bind_assoc_apply _ _ _ w).symm) h

/-- A call whose result code is not looked at, at a lenient site. -/
theorem fa_unchecked_call {lenient : Option Api → Api → Bool} (a : Api) (e : World → World)
    (ha : returns_result_code a = true) (hl : ∀ prev : Option Api, lenient prev a = true) :
    FailureAborts lenient (api_hr_with a e) := by
  intro w prev
  refine ⟨[a], ?_, ?_⟩
  · by_cases h : next_failed w.faults = true <;> simp [h]
  · by_cases h : next_failed w.faults = true <;>
      simp [h, replay_results, ha, hl, is_hresult_error]

theorem replay_results_lenient_call (lenient : Option Api → Api → Bool) (a : Api)
    (prev : Option Api) (fs : List Bool) (ha : returns_result_code a = true)
    (hl : lenient prev a = true) :
    replay_results lenient false prev fs [a] = some fs.tail := by
  by_cases h : next_failed fs = true <;> simp [h, replay_results, ha, hl]

theorem fa_EndDraw : FailureAborts lenient_sites EndDraw :=
  fun w prev => ⟨[Api.EndDraw], rfl,
    replay_results_lenient_call lenient_sites Api.EndDraw prev w.faults rfl rfl⟩

theorem fa_ResourceBarrier {lenient : Option Api → Api → Bool} (r : Resource)
    (before after : ResourceState) : FailureAborts lenient (ResourceBarrier r before after) :=
  fa_api_void_with _ _ rfl fun w => by cases r <;> rfl

theorem fa_flush_command_queue : FailureAborts lenient_nowhere flush_command_queue := by
  unfold flush_command_queue Signal SetEventOnCompletion CreateEventEx CloseHandle
  repeat' (with_reducible first
    | refine fa_checked_call _ _ (by with_unfolding_all rfl) (fun _ => ?_)
    | exact fa_checked_call_last _ _ (by with_unfolding_all rfl)
    | refine fa_bind ?_ (fun _ => ?_)
    | exact fa_pure _
    | exact fa_getW
    | exact fa_GetCompletedValue
    | exact fa_WaitForSingleObject
    | exact fa_modifyW _ (fun _ => by with_unfolding_all exact ⟨rfl, rfl⟩)
    | exact fa_api_void_with _ _ (by with_unfolding_all rfl) (fun _ => by with_unfolding_all rfl)
    | apply fa_ite)

theorem fa_draw : FailureAborts lenient_nowhere draw := by
  unfold draw api_hr api_void ExecuteCommandLists Present
  repeat' (with_reducible first
    | exact fa_flush_command_queue
    | exact fa_ResourceBarrier _ _ _
    | refine fa_checked_call _ _ (by with_unfolding_all rfl) (fun _ => ?_)
    | exact fa_checked_call_last _ _ (by with_unfolding_all rfl)
    | refine fa_bind ?_ (fun _ => ?_)
    | exact fa_pure _
    | exact fa_getW
    | exact fa_deref _
    | exact fa_current_back_buffer
    | exact fa_modifyW _ (fun _ => by with_unfolding_all exact ⟨rfl, rfl⟩)
    | exact fa_api_void_with _ _ (by with_unfolding_all rfl) (fun _ => by with_unfolding_all rfl)
    | apply fa_ite)

theorem fa_on_resize_views (n : Nat) : ∀ i h : Nat,
    FailureAborts lenient_nowhere (on_resize_views n i h) := by
  induction n with
  | zero =>
    intro i h
    exact fa_pure _
  | succ n ih =>
    intro i h
    unfold on_resize_views api_void
    repeat' (with_reducible first
      | exact ih _ _
      | refine fa_checked_call _ _ (by with_unfolding_all rfl) (fun _ => ?_)
      | refine fa_bind ?_ (fun _ => ?_)
      | exact fa_getW
      | exact fa_api_void_with _ _ (by with_unfolding_all rfl) (fun _ => by with_unfolding_all rfl))

theorem fa_on_resize : FailureAborts lenient_nowhere on_resize := by
  unfold on_resize api_hr api_void ExecuteCommandLists CreateCommittedResource
  repeat' (with_reducible first
    | exact fa_flush_command_queue
    | exact fa_on_resize_views _ _ _
    | exact fa_ResourceBarrier _ _ _
    | refine fa_checked_call _ _ (by with_unfolding_all rfl) (fun _ => ?_)
    | exact fa_checked_call_last _ _ (by with_unfolding_all rfl)
    | refine fa_bind ?_ (fun _ => ?_)
    | exact fa_pure _
    | exact fa_getW
    | exact fa_cassert _
    | exact fa_modifyW _ (fun _ => by with_unfolding_all exact ⟨rfl, rfl⟩)
    | exact fa_api_void_with _ _ (by with_unfolding_all rfl) (fun _ => by with_unfolding_all rfl)
    | apply fa_ite)

theorem fa_ReleaseWrappedResources {lenient : Option Api → Api → Bool} :
    FailureAborts lenient ReleaseWrappedResources :=
  fa_api_void_with _ _ rfl fun w => by cases h : w.m_d11_texture <;> simp [h]

theorem fa_draw_on_texture : FailureAborts lenient_sites draw_on_texture := by
  unfold draw_on_texture api_hr api_void CreateCommittedResource CreateWrappedResource
    AcquireWrappedResources BeginDraw
  repeat' (with_reducible first
    | refine fa_checked_call _ _ (by with_unfolding_all rfl) (fun _ => ?_)
    | exact fa_checked_call_last _ _ (by with_unfolding_all rfl)
    | refine fa_bind ?_ (fun _ => ?_)
    | exact fa_pure _
    | exact fa_getW
    | exact fa_ReleaseWrappedResources
    | exact fa_EndDraw
    | exact fa_unchecked_call _ _ (by with_unfolding_all rfl) (fun _ => by with_unfolding_all rfl)
    | exact fa_modifyW _ (fun _ => by with_unfolding_all exact ⟨rfl, rfl⟩)
    | exact fa_api_void_with _ _ (by with_unfolding_all rfl) (fun _ => by with_unfolding_all rfl)
    | apply fa_ite)

/-- A call whose result code goes straight into `check_hresult`, followed by a call whose
result code is not looked at and whose site, right after the first call, is lenient. -/
theorem fa_checked_then_lenient {lenient : Option Api → Api → Bool} (a1 a2 : Api)
    (e1 e2 : World → World) (ha1 : returns_result_code a1 = true)
    (ha2 : returns_result_code a2 = true) (hl : lenient (some a1) a2 = true) :
    FailureAborts lenient
      ((api_hr_with a1 e1 >>= fun hr => check_hresult hr) >>= fun _ => api_hr_with a2 e2) := by
  intro w prev
  by_cases h1 : next_failed w.faults = true
  · refine ⟨[a1], ?_, ?_⟩
    · simp [bind_apply, h1]
    · simp [bind_apply, h1, replay_results, ha1, is_hresult_error]
  · refine ⟨[a1, a2], ?_, ?_⟩
    · by_cases h2 : next_failed w.faults.tail = true <;> simp [bind_apply, h1, h2]
    · by_cases h2 : next_failed w.faults.tail = true <;>
        simp [bind_apply, h1, h2, replay_results, ha1, ha2, hl, is_hresult_error]

theorem fa_create_command_objects : FailureAborts lenient_sites create_command_objects := by
  unfold create_command_objects api_hr
  refine fa_checked_call _ _ (by with_unfolding_all rfl) (fun _ => ?_)
  refine fa_checked_call _ _ (by with_unfolding_all rfl) (fun _ => ?_)
  have h := fa_bind
    (fa_checked_then_lenient Api.CreateCommandList Api.CommandList_Close id id rfl rfl
      (rfl : lenient_sites (some Api.CreateCommandList) Api.CommandList_Close = true))
    (fun _ : Bool => (fa_pure PUnit.unit : FailureAborts lenient_sites (pure PUnit.unit : M Unit)))
  exact fa_congr (fun w => by simp only [bind_assoc_apply]) h

theorem fa_init_directx : FailureAborts lenient_sites init_directx := by
  unfold init_directx create_d2d_factory create_debug_layer create_dxgi_factory
    create_d3d12_device create_fence get_descriptor_sizes check_msaa_support
    create_swap_chain create_rtv_and_dsv_descriptor_heaps
    load_textures build_descriptor_heaps build_constant_buffers build_root_signature
    build_shaders_and_input_layout make_geo build_pso d3d_util_call
    api_hr api_void ExecuteCommandLists ResourceUploadBatch_End future_wait
  repeat' (with_reducible first
    | exact fa_lenient fa_flush_command_queue
    | exact fa_draw_on_texture
    | exact fa_create_command_objects
    | refine fa_checked_call _ _ (by with_unfolding_all rfl) (fun _ => ?_)
    | exact fa_checked_call_last _ _ (by with_unfolding_all rfl)
    | refine fa_bind ?_ (fun _ => ?_)
    | exact fa_pure _
    | exact fa_getW
    | exact fa_cassert _
    | exact fa_unchecked_call _ _ (by with_unfolding_all rfl) (fun _ => by with_unfolding_all rfl)
    | exact fa_modifyW _ (fun _ => by with_unfolding_all exact ⟨rfl, rfl⟩)
    | exact fa_api_void_with _ _ (by with_unfolding_all rfl) (fun _ => by with_unfolding_all rfl)
    | exact fa_throw _ (by decide)
    | apply fa_ite)

/-- `FailureAborts` is not met by code that goes on after a failing call it does not check:
here a `Present` whose result is dropped, followed by one more call. -/
theorem fa_rejects_unchecked_call :
    ¬ FailureAborts lenient_sites
      (api_hr Api.Present >>= fun _ => api_void Api.PIXSetMarker) := by
  intro h
  obtain ⟨evs, ht, hr⟩ := h (World.init [true] [] 32 8 32 1 7 []) none
  have hevs : evs = [Api.Present, Api.PIXSetMarker] := ht.symm
  subst hevs
  exact absurd hr (by decide)

/-- C15 (counterexample): when the creation of the hardware device, the fourth
result-returning call of `init_directx`, fails, `init_directx` is not aborted: it goes on
with the WARP adapter, takes every remaining outcome, and returns with a device. -/
theorem failed_device_creation_does_not_abort :
    next_failed (world_no_hardware.faults.drop 3) = true ∧
    returned (init_directx world_no_hardware) = some () ∧
    (init_directx world_no_hardware).2.m_device = true ∧
    (init_directx world_no_hardware).2.faults = [] ∧
    (init_directx world_no_hardware).2.trace.length =
      (init_directx world_fresh).2.trace.length + 2 := by
  decide!

/-- C15 (amended): in `flush_command_queue`, `on_resize` and `draw` every result code is
checked at the call site: on every path a failing call is the last call made, the operation
ending there with the exception of `check_hresult`; a run that returns has seen only
successes. In `draw_on_texture` and `init_directx` the same holds of every result-returning
call except at the sites of `lenient_sites`: a failing creation of the hardware device does
not abort, `init_directx` goes on with the WARP adapter, whose enumeration and device
creation are checked. A returning `draw_on_texture` makes 9 result-returning calls, a
returning `init_directx` at least 38. -/
theorem checked_results_abort :
    FailureAborts lenient_nowhere flush_command_queue ∧
    FailureAborts lenient_nowhere on_resize ∧
    FailureAborts lenient_nowhere draw ∧
    FailureAborts lenient_sites draw_on_texture ∧
    FailureAborts lenient_sites init_directx ∧
    ResultsChecked True flush_command_queue ∧
    ResultsChecked True on_resize ∧
    ResultsChecked True draw ∧
    (∀ w w1 : World, draw_on_texture w = (Except.ok (), w1) →
      ∃ evs : List Api, w1.trace = w.trace ++ evs ∧ evs.countP returns_result_code = 9) ∧
    (∀ w w1 : World, init_directx w = (Except.ok (), w1) →
      ∃ evs : List Api, w1.trace = w.trace ++ evs ∧ 38 ≤ evs.countP returns_result_code) ∧
    (∀ w : World, next_failed w.faults = true →
      create_d3d12_device w =
        (api_hr Api.EnumWarpAdapter >>= fun hr => check_hresult hr >>= fun _ =>
          api_hr_with Api.D3D12CreateDevice_warp (fun v => { v with m_device := true }) >>=
            fun hr => check_hresult hr)
          { w with trace := w.trace ++ [Api.D3D12CreateDevice], faults := w.faults.tail }) := by
  refine ⟨fa_flush_command_queue, fa_on_resize, fa_draw, fa_draw_on_texture, fa_init_directx,
    rc_flush_command_queue, rc_on_resize, rc_draw, ?_, ?_, ?_⟩
  · intro w w1 h
    rw [draw_on_texture_ok h]
    exact ⟨_, rfl, rfl⟩
  · intro w w1 h
    obtain ⟨warp, read, htrace, -⟩ := init_directx_trace h
    refine ⟨_, htrace, ?_⟩
    cases warp <;> by_cases hlt : read < next_fence w.m_current_fence <;>
      simp only [init_directx_events, create_d3d12_device_events, draw_on_texture_events,
        flush_events, hlt, if_true, if_false, Bool.false_eq_true] <;>
      exact Nat.le_of_ble_eq_true rfl
  · intro w h
    simp only [create_d3d12_device, api_hr_with_bind_apply, h, if_true]

/-- C15 (witness): in the ready world with a failing `Present`, the fourth result-returning
call of `draw`, the frame ends with the exception of `check_hresult`, and its calls pass
the strict replay; from the fresh world with a failing hardware and a failing WARP device,
`init_directx` ends with that exception after seven calls, and its calls pass the replay. -/
theorem checked_results_abort_witness :
    is_hresult_error (draw world_present_fails).1 = true ∧
    (∃ evs : List Api, (draw world_present_fails).2.trace = world_present_fails.trace ++ evs ∧
      replay_results lenient_nowhere (is_hresult_error (draw world_present_fails).1) none
        world_present_fails.faults evs = some (draw world_present_fails).2.faults) ∧
    is_hresult_error (init_directx world_no_device).1 = true ∧
    (init_directx world_no_device).2.trace.length = 7 ∧
    (∃ evs : List Api, (init_directx world_no_device).2.trace = world_no_device.trace ++ evs ∧
      replay_results lenient_sites (is_hresult_error (init_directx world_no_device).1) none
        world_no_device.faults evs = some (init_directx world_no_device).2.faults) :=
  ⟨by decide!, checked_results_abort.2.2.1 world_present_fails none, by decide!, by decide!,
   checked_results_abort.2.2.2.2.1 world_no_device none⟩

end DrawOnTexture
